import Mathlib

/-!
# Verification of the vaixterm terminal-emulator core

A shallow embedding of the terminal-emulator core of the repository
(grid & scrollback model, the VT/ANSI byte parser, the key encoder and
the OSK emission engine), translated from the C sources
(`terminal.c`, `input.c`, `osk.c`, `event_handler.c`, `main.c`,
`dirty_region_tracker.c`), together with proofs about the claims of the
specification.

Modelling conventions:
* C `int` fields are `Int`; C `%` is `Int.tmod` (truncated, as in C).
  All moduli are applied to values kept non-negative by the code itself,
  mirroring the source expressions.
* the glyph grids are total functions `Nat → Glyph` indexed by
  `physical_row * cols + x`; a write at a negative C index (undefined
  behaviour in C, never reached from a well-formed state) is a no-op;
* `malloc` is assumed to succeed (the allocation-failure paths of the
  source keep the previous state and are out of scope of the claims);
* SDL render-side fields (textures, caches, blink timestamps, dirty
  min/max bookkeeping) are omitted: no claim observes them.
-/

namespace VaixTerm

/-- RGBA colour, 8 bits per channel (`SDL_Color`). -/
structure Color where
  r : Nat
  g : Nat
  b : Nat
  a : Nat
  deriving DecidableEq, Repr

/-- One character cell (`Glyph` of `terminal_state.h`). -/
structure Glyph where
  character : Nat
  fg : Color
  bg : Color
  attributes : Nat
  deriving DecidableEq, Repr

/-- Attribute bits (`ATTR_*` of `terminal_state.h`). -/
def ATTR_BOLD : Nat := 1
def ATTR_ITALIC : Nat := 2
def ATTR_UNDERLINE : Nat := 4
def ATTR_INVERSE : Nat := 8
def ATTR_BLINK : Nat := 16

/-- Parser states (the anonymous `enum` in `Terminal`). -/
inductive ParseState where
  | normal
  | escape
  | csi
  | osc
  | dcs
  deriving DecidableEq, Repr

/-- `CursorStyle` of `terminal_state.h`. -/
inductive CursorStyle where
  | block
  | underline
  | bar
  deriving DecidableEq, Repr

def CSI_MAX_PARAMS : Nat := 16
def RESPONSE_BUFFER_SIZE : Nat := 64

/-- The terminal state (`Terminal` of `terminal_state.h`), restricted to the
fields the core semantics reads or writes. -/
structure Terminal where
  cols : Int
  rows : Int
  cursor_x : Int
  cursor_y : Int
  current_fg : Color
  current_bg : Color
  colors : Nat → Color
  xterm_colors : Nat → Color
  default_fg : Color
  cursor_color : Color
  default_bg : Color
  current_attributes : Nat
  grid : Nat → Glyph
  alt_grid : Option (Nat → Glyph)
  scrollback : Int
  total_lines : Int
  top_line : Int
  view_offset : Int
  history_size : Int
  parse_state : ParseState
  csi_params : Nat → Int
  csi_param_count : Nat
  osc_buffer : List Nat
  csi_private_marker : Nat
  csi_intermediate_chars : List Nat
  saved_cursor_x : Int
  saved_cursor_y : Int
  scroll_top : Int
  scroll_bottom : Int
  cursor_style : CursorStyle
  cursor_style_blinking : Bool
  application_cursor_keys_mode : Bool
  cursor_visible : Bool
  application_keypad_mode : Bool
  alt_screen_active : Bool
  autowrap_mode : Bool
  insert_mode : Bool
  origin_mode : Bool
  charset_g0 : Nat
  charset_g1 : Nat
  active_charset : Nat
  utf8_codepoint : Nat
  utf8_bytes_to_read : Nat
  response_buffer : List Nat
  normal_saved_cursor_x : Int
  normal_saved_cursor_y : Int
  dirty_lines : Nat → Bool
  full_redraw_needed : Bool

/-- `[0, 1, …, n-1]` as integers: the index sequence of a C
`for (i = 0; i < n; ++i)` loop. -/
def intRange (n : Int) : List Int := (List.range n.toNat).map Int.ofNat

/-- Point update of a glyph array at a C index (negative C indices, which are
undefined behaviour in the source, leave the array unchanged). -/
def setCell (a : Nat → Glyph) (i : Int) (v : Glyph) : Nat → Glyph :=
  fun j => if (j : Int) = i then v else a j

/-- Point update of the dirty-line array. -/
def setDirty (d : Nat → Bool) (y : Int) : Nat → Bool :=
  fun j => if (j : Int) = y then true else d j

/-- Point update of a palette array. -/
def setColor (p : Nat → Color) (i : Int) (v : Color) : Nat → Color :=
  fun j => if (j : Int) = i then v else p j

/-- A blank cell carrying the current attributes, the fill used by the
clearing helpers of `terminal.c`. -/
def blankGlyph (t : Terminal) : Glyph :=
  ⟨32, t.current_fg, t.current_bg, t.current_attributes⟩

/-- `get_line` (`terminal.c`): whether the requested logical row is backed by
storage. -/
def lineValid (t : Terminal) (y : Int) : Bool :=
  if y < 0 ∨ y ≥ t.rows then false
  else if t.alt_screen_active then t.alt_grid.isSome
  else true

/-- Physical start index (in glyphs) of logical row `y` of the *normal*
grid: `((top_line + y) % total_lines) * cols` (`get_line`). -/
def normalLineBase (t : Terminal) (y : Int) : Int :=
  (Int.tmod (t.top_line + y) t.total_lines) * t.cols

/-- Read the cell at logical row `y`, column `x`, through `get_line`.
Returns the blank glyph when `get_line` would return `NULL` (the callers
guard all such reads). -/
def readActiveCell (t : Terminal) (y x : Int) : Glyph :=
  if y < 0 ∨ y ≥ t.rows then blankGlyph t
  else if t.alt_screen_active then
    match t.alt_grid with
    | none => blankGlyph t
    | some a => a (y * t.cols + x).toNat
  else t.grid (normalLineBase t y + x).toNat

/-- Write the cell at logical row `y`, column `x`, through `get_line`.
A `NULL` line makes the write a no-op, as in the guarded callers. -/
def writeActiveCell (t : Terminal) (y x : Int) (v : Glyph) : Terminal :=
  if y < 0 ∨ y ≥ t.rows then t
  else if t.alt_screen_active then
    match t.alt_grid with
    | none => t
    | some a => { t with alt_grid := some (setCell a (y * t.cols + x) v) }
  else { t with grid := setCell t.grid (normalLineBase t y + x) v }

/-- `terminal_mark_line_dirty` (`dirty_region_tracker.c`); the min/max region
bounds are render-side bookkeeping and are not modelled. -/
def terminal_mark_line_dirty (t : Terminal) (y : Int) : Terminal :=
  if y < 0 ∨ y ≥ t.rows then t
  else { t with dirty_lines := setDirty t.dirty_lines y }

/-- `terminal_mark_lines_dirty` (`dirty_region_tracker.c`). -/
def terminal_mark_lines_dirty (t : Terminal) (start_y end_y : Int) : Terminal :=
  let s := max start_y 0
  let e := min end_y (t.rows - 1)
  (intRange (e + 1 - s)).foldl (fun acc k => terminal_mark_line_dirty acc (s + k)) t

/-- An unchecked `term->dirty_lines[y] = true` array write (used by
`terminal_put_char` and the char-local editing helpers). -/
def dirtyRaw (t : Terminal) (y : Int) : Terminal :=
  { t with dirty_lines := setDirty t.dirty_lines y }

/-- `terminal_clear_line_to_cursor`: blank columns `0..end_x` of row `y`. -/
def terminal_clear_line_to_cursor (t : Terminal) (y end_x : Int) : Terminal :=
  if lineValid t y then
    let t' := (intRange (min (end_x + 1) t.cols)).foldl
      (fun acc x => writeActiveCell acc y x (blankGlyph acc)) t
    terminal_mark_line_dirty t' y
  else t

/-- `terminal_clear_line`: blank columns `start_x..cols-1` of row `y`. -/
def terminal_clear_line (t : Terminal) (y start_x : Int) : Terminal :=
  if lineValid t y then
    let t' := (intRange (t.cols - start_x)).foldl
      (fun acc k => writeActiveCell acc y (start_x + k) (blankGlyph acc)) t
    terminal_mark_line_dirty t' y
  else t

/-- `terminal_clear_visible_screen`. -/
def terminal_clear_visible_screen (t : Terminal) : Terminal :=
  let t' := (intRange t.rows).foldl (fun acc y => terminal_clear_line acc y 0) t
  { t' with full_redraw_needed := true }

/-- Copy one whole line of the active screen (`memcpy` of `cols` glyphs
between two `get_line` pointers, skipped when either line is `NULL`). -/
def copyActiveLine (t : Terminal) (dest_y src_y : Int) : Terminal :=
  if lineValid t dest_y ∧ lineValid t src_y then
    (intRange t.cols).foldl
      (fun acc x => writeActiveCell acc dest_y x (readActiveCell acc src_y x)) t
  else t

/-- The `memmove` of `terminal_scroll_region`'s alternate-screen branch:
shift `count` rows of the alt grid from row `src_top` to row `dest_top`. -/
def altShiftRows (a : Nat → Glyph) (cols dest_top src_top count : Int) : Nat → Glyph :=
  fun j =>
    if dest_top * cols ≤ (j : Int) ∧ (j : Int) < (dest_top + count) * cols then
      a ((j : Int) + (src_top - dest_top) * cols).toNat
    else a j

/-- `terminal_scroll_region` (`terminal.c`). -/
def terminal_scroll_region (t : Terminal) (top_y bottom_y n_lines : Int) : Terminal :=
  if n_lines = 0 ∨ top_y > bottom_y ∨ top_y < 0 ∨ bottom_y ≥ t.rows then t
  else
    let t := { t with full_redraw_needed := true }
    let region_height := bottom_y - top_y + 1
    let num := min |n_lines| region_height
    if t.alt_screen_active then
      match t.alt_grid with
      | none => t
      | some a =>
        if n_lines > 0 then
          let count := region_height - num
          let t := if count > 0 then
              { t with alt_grid := some (altShiftRows a t.cols top_y (top_y + num) count) }
            else t
          (intRange num).foldl (fun acc k => terminal_clear_line acc (bottom_y - num + 1 + k) 0) t
        else
          let count := region_height - num
          let t := if count > 0 then
              { t with alt_grid := some (altShiftRows a t.cols (top_y + num) top_y count) }
            else t
          (intRange num).foldl (fun acc k => terminal_clear_line acc (top_y + k) 0) t
    else
      let t := terminal_mark_lines_dirty t top_y bottom_y
      if n_lines > 0 then
        let count := region_height - num
        let t := (intRange count).foldl
          (fun acc y => copyActiveLine acc (top_y + y) (top_y + num + y)) t
        (intRange num).foldl (fun acc k => terminal_clear_line acc (bottom_y - num + 1 + k) 0) t
      else
        let count := region_height - num
        let t := (intRange count).foldl
          (fun acc y => copyActiveLine acc (bottom_y - (count - 1 - y))
            (bottom_y - num - (count - 1 - y))) t
        (intRange num).foldl (fun acc k => terminal_clear_line acc (top_y + k) 0) t

/-- `terminal_insert_chars`. -/
def terminal_insert_chars (t : Terminal) (n : Int) : Terminal :=
  if lineValid t t.cursor_y then
    if t.cursor_x ≥ t.cols then t
    else
      let x := t.cursor_x
      let n := min n (t.cols - x)
      let count := t.cols - x - n
      -- memmove right: process source columns from high to low
      let t := if count > 0 then
          (intRange count).foldl
            (fun acc k =>
              writeActiveCell acc acc.cursor_y (x + count - 1 - k + n)
                (readActiveCell acc acc.cursor_y (x + count - 1 - k))) t
        else t
      let t := (intRange n).foldl
        (fun acc i => writeActiveCell acc acc.cursor_y (x + i) (blankGlyph acc)) t
      dirtyRaw t t.cursor_y
  else t

/-- `terminal_delete_chars`. -/
def terminal_delete_chars (t : Terminal) (n : Int) : Terminal :=
  if lineValid t t.cursor_y then
    if t.cursor_x ≥ t.cols then t
    else
      let x := t.cursor_x
      let n := min n (t.cols - x)
      let count := t.cols - x - n
      -- memmove left: process source columns from low to high
      let t := if count > 0 then
          (intRange count).foldl
            (fun acc k =>
              writeActiveCell acc acc.cursor_y (x + k)
                (readActiveCell acc acc.cursor_y (x + k + n))) t
        else t
      let t := (intRange n).foldl
        (fun acc i => writeActiveCell acc acc.cursor_y (t.cols - n + i) (blankGlyph acc)) t
      dirtyRaw t t.cursor_y
  else t

/-- `terminal_erase_chars`. -/
def terminal_erase_chars (t : Terminal) (n : Int) : Terminal :=
  if lineValid t t.cursor_y then
    if t.cursor_x ≥ t.cols then t
    else
      let x := t.cursor_x
      let n := min n (t.cols - x)
      let t := (intRange n).foldl
        (fun acc i => writeActiveCell acc acc.cursor_y (x + i) (blankGlyph acc)) t
      dirtyRaw t t.cursor_y
  else t

/-- `terminal_scroll_up` (`terminal.c`): scroll the full screen up one line,
feeding the history ring on the normal screen. -/
def terminal_scroll_up (t : Terminal) : Terminal :=
  if t.alt_screen_active then
    match t.alt_grid with
    | none => t
    | some a =>
      let t := { t with alt_grid := some (altShiftRows a t.cols 0 1 (t.rows - 1)) }
      terminal_clear_line t (t.rows - 1) 0
  else
    let t := { t with
      top_line := Int.tmod (t.top_line + 1) t.total_lines,
      history_size := if t.history_size < t.scrollback then t.history_size + 1 else t.history_size,
      full_redraw_needed := true }
    let t := terminal_mark_lines_dirty t 0 (t.rows - 1)
    terminal_clear_line t (t.rows - 1) 0

/-- `terminal_newline`. -/
def terminal_newline (t : Terminal) : Terminal :=
  if t.cursor_y + 1 ≥ t.scroll_bottom then
    if t.scroll_top = 1 ∧ t.scroll_bottom = t.rows then
      terminal_scroll_up { t with cursor_y := t.scroll_bottom - 1 }
    else
      terminal_scroll_region { t with cursor_y := t.scroll_bottom - 1 }
        (t.scroll_top - 1) (t.scroll_bottom - 1) 1
  else { t with cursor_y := t.cursor_y + 1 }

/-- `map_char_for_charset` (`terminal.c`): DEC Special Graphics mapping. -/
def map_char_for_charset (c : Nat) (charset : Nat) : Nat :=
  if charset ≠ 48 ∨ c < 96 ∨ c > 126 then c
  else if c = 96 then 0x25C6
  else if c = 97 then 0x2592
  else if c = 98 then 0x2409
  else if c = 99 then 0x240C
  else if c = 100 then 0x240D
  else if c = 101 then 0x240A
  else if c = 102 then 0x00B0
  else if c = 103 then 0x00B1
  else if c = 104 then 0x2424
  else if c = 105 then 0x240B
  else if c = 106 then 0x2518
  else if c = 107 then 0x2510
  else if c = 108 then 0x250C
  else if c = 109 then 0x2514
  else if c = 110 then 0x253C
  else if c = 111 then 0x23BA
  else if c = 112 then 0x23BB
  else if c = 113 then 0x2500
  else if c = 114 then 0x23BC
  else if c = 115 then 0x23BD
  else if c = 116 then 0x251C
  else if c = 117 then 0x2524
  else if c = 118 then 0x2534
  else if c = 119 then 0x252C
  else if c = 120 then 0x2502
  else if c = 121 then 0x2264
  else if c = 122 then 0x2265
  else if c = 123 then 0x03C0
  else if c = 124 then 0x2260
  else if c = 125 then 0x00A3
  else if c = 126 then 0x00B7
  else c

/-- The character-set slot currently active (`term->charsets[term->active_charset]`). -/
def activeCharsetId (t : Terminal) : Nat :=
  if t.active_charset = 1 then t.charset_g1 else t.charset_g0

/-- The body of `terminal_put_char` after the autowrap step. -/
def putCharCore (t : Terminal) (c : Nat) : Terminal :=
  let t := if t.insert_mode then terminal_insert_chars t 1 else t
  let write_x := if t.cursor_x ≥ t.cols then t.cols - 1 else t.cursor_x
  let mapped := if c < 128 then map_char_for_charset c (activeCharsetId t) else c
  let t := writeActiveCell t t.cursor_y write_x
    ⟨mapped, t.current_fg, t.current_bg, t.current_attributes⟩
  let t := dirtyRaw t t.cursor_y
  if t.cursor_x < t.cols then { t with cursor_x := t.cursor_x + 1 } else t

/-- `terminal_put_char`. -/
def terminal_put_char (t : Terminal) (c : Nat) : Terminal :=
  putCharCore
    (if t.autowrap_mode ∧ t.cursor_x ≥ t.cols then terminal_newline { t with cursor_x := 0 }
     else t) c

/-- `terminal_reset` (`terminal.c`): re-initialise attributes, cursor, modes,
parser state, charsets, the scroll region, the scrollback counters and the
whole normal grid.  It does *not* touch `alt_grid`, `alt_screen_active`,
the palettes, the response buffer or the normal-screen saved cursor. -/
def terminal_reset (t : Terminal) : Terminal :=
  { t with
    current_fg := t.default_fg
    current_bg := t.default_bg
    current_attributes := 0
    cursor_x := 0
    cursor_y := 0
    saved_cursor_x := 0
    saved_cursor_y := 0
    scroll_top := 1
    scroll_bottom := t.rows
    parse_state := .normal
    csi_param_count := 0
    csi_intermediate_chars := []
    csi_private_marker := 0
    csi_params := fun _ => 0
    application_cursor_keys_mode := false
    cursor_visible := true
    application_keypad_mode := false
    autowrap_mode := true
    cursor_style := .block
    cursor_style_blinking := true
    insert_mode := false
    origin_mode := false
    utf8_codepoint := 0
    utf8_bytes_to_read := 0
    charset_g0 := 66
    charset_g1 := 66
    active_charset := 0
    top_line := 0
    view_offset := 0
    history_size := 0
    -- the source loop blanks cells 0 .. cols*total_lines-1; cells beyond the
    -- allocation do not exist in C and are never read in the model
    grid := fun _ => ⟨32, t.default_fg, t.default_bg, 0⟩
    -- the source loop sets rows 0 .. rows-1 dirty; beyond that is unread
    dirty_lines := fun _ => true
    full_redraw_needed := true }

/-- The built-in 16-colour palette of `terminal_create` (indices past 15 do
not exist in the C array and are never read). -/
def defaultPalette : Nat → Color :=
  fun i =>
    if i = 0 then ⟨46, 52, 54, 255⟩
    else if i = 1 then ⟨204, 0, 0, 255⟩
    else if i = 2 then ⟨78, 154, 6, 255⟩
    else if i = 3 then ⟨196, 160, 0, 255⟩
    else if i = 4 then ⟨52, 101, 164, 255⟩
    else if i = 5 then ⟨117, 80, 123, 255⟩
    else if i = 6 then ⟨6, 152, 154, 255⟩
    else if i = 7 then ⟨211, 215, 207, 255⟩
    else if i = 8 then ⟨85, 87, 83, 255⟩
    else if i = 9 then ⟨239, 41, 41, 255⟩
    else if i = 10 then ⟨138, 226, 52, 255⟩
    else if i = 11 then ⟨252, 233, 79, 255⟩
    else if i = 12 then ⟨114, 159, 207, 255⟩
    else if i = 13 then ⟨173, 127, 168, 255⟩
    else if i = 14 then ⟨52, 226, 226, 255⟩
    else if i = 15 then ⟨238, 238, 236, 255⟩
    else ⟨0, 0, 0, 0⟩

/-- `terminal_init_xterm_colors`: 16 palette entries, the 6×6×6 colour cube
and 24 grayscales. -/
def xtermLevel (k : Nat) : Nat :=
  if k = 0 then 0 else if k = 1 then 95 else if k = 2 then 135
  else if k = 3 then 175 else if k = 4 then 215 else 255

def xtermInit (colors : Nat → Color) : Nat → Color :=
  fun i =>
    if i < 16 then colors i
    else if i < 232 then
      let k := i - 16
      ⟨xtermLevel (k / 36), xtermLevel ((k / 6) % 6), xtermLevel (k % 6), 255⟩
    else if i < 256 then ⟨8 + (i - 232) * 10, 8 + (i - 232) * 10, 8 + (i - 232) * 10, 255⟩
    else ⟨0, 0, 0, 0⟩

/-- `terminal_create` (`terminal.c`), taking as inputs the palette and the
default colours as they stand after the (out-of-scope) colour-scheme load.
All allocation succeeds in the model; SDL-only fields are omitted. -/
def terminal_create (cols rows scrollback : Int) (colors : Nat → Color)
    (default_fg default_bg cursor_color : Color) : Terminal :=
  terminal_reset
    { cols := cols
      rows := rows
      cursor_x := 0
      cursor_y := 0
      current_fg := default_fg
      current_bg := default_bg
      colors := colors
      xterm_colors := xtermInit colors
      default_fg := default_fg
      cursor_color := cursor_color
      default_bg := default_bg
      current_attributes := 0
      grid := fun _ => ⟨32, default_fg, default_bg, 0⟩
      alt_grid := none
      scrollback := scrollback
      total_lines := rows + scrollback
      top_line := 0
      view_offset := 0
      history_size := 0
      parse_state := .normal
      csi_params := fun _ => 0
      csi_param_count := 0
      osc_buffer := []
      csi_private_marker := 0
      csi_intermediate_chars := []
      saved_cursor_x := 0
      saved_cursor_y := 0
      scroll_top := 1
      scroll_bottom := rows
      cursor_style := .block
      cursor_style_blinking := true
      application_cursor_keys_mode := false
      cursor_visible := true
      application_keypad_mode := false
      alt_screen_active := false
      autowrap_mode := true
      insert_mode := false
      origin_mode := false
      charset_g0 := 66
      charset_g1 := 66
      active_charset := 0
      utf8_codepoint := 0
      utf8_bytes_to_read := 0
      response_buffer := []
      normal_saved_cursor_x := 0
      normal_saved_cursor_y := 0
      dirty_lines := fun _ => false
      full_redraw_needed := true }

/-- A fresh terminal built with the built-in palette, as `terminal_create`
produces when no colour-scheme file is given: `default_fg = colors[2]`,
`default_bg = colors[0]`, and the cursor colour collapses to `default_fg`. -/
def freshTerminal (cols rows scrollback : Int) : Terminal :=
  terminal_create cols rows scrollback defaultPalette
    (defaultPalette 2) (defaultPalette 0) (defaultPalette 2)

/-! ## CSI handlers (`terminal.c`) -/

/-- Two's-complement wrap-around of a C `int` expression: the value the
32-bit machine arithmetic stores when the mathematical result overflows
(the identity on `[-2^31, 2^31)`). -/
def wrap32 (x : Int) : Int := (x + 2 ^ 31) % 2 ^ 32 - 2 ^ 31

/-- First CSI parameter with default 1 (`(csi_params[0] == 0) ? 1 : csi_params[0]`). -/
def csiP1 (t : Terminal) : Int :=
  if t.csi_params 0 = 0 then 1 else t.csi_params 0

/-- Allocate the alternate buffer when it is still `NULL` (the `malloc`
succeeds in the model; the fill is irrelevant, the screen is cleared next). -/
def ensureAltGrid (t : Terminal) : Terminal :=
  if t.alt_grid.isNone then
    { t with alt_grid := some (fun _ => ⟨32, t.default_fg, t.default_bg, 0⟩) }
  else t

/-- Save the cursor for the normal screen and switch to the alternate one. -/
def activateAlt (t : Terminal) : Terminal :=
  { t with
    normal_saved_cursor_x := t.cursor_x
    normal_saved_cursor_y := t.cursor_y
    alt_screen_active := true }

/-- `enter_alt_screen` — the 1049-set branch of `csi_h_private`: allocate if
needed, save the cursor, activate, clear the (now alternate) screen, home. -/
def enter_alt_screen (t : Terminal) : Terminal :=
  let t' := terminal_clear_visible_screen (activateAlt (ensureAltGrid t))
  { t' with cursor_x := 0, cursor_y := 0 }

/-- One `?`-mode of `csi_h_private`, applied to a single parameter. -/
def csiHPrivateOne (t : Terminal) (p : Int) : Terminal :=
  let t := if p = 1 then { t with application_cursor_keys_mode := true } else t
  let t := if p = 6 then
      { t with origin_mode := true, cursor_x := 0, cursor_y := t.scroll_top - 1 }
    else t
  let t := if p = 7 then { t with autowrap_mode := true } else t
  let t := if p = 66 then { t with application_keypad_mode := true } else t
  let t := if p = 25 then { t with cursor_visible := true } else t
  if p = 1049 then (if ¬ t.alt_screen_active then enter_alt_screen t else t) else t

/-- `csi_h_private` (DEC private set). -/
def csi_h_private (t : Terminal) : Terminal :=
  (List.range t.csi_param_count).foldl (fun acc i => csiHPrivateOne acc (acc.csi_params i)) t

/-- `leave_alt_screen` — the 1049-reset branch of `csi_l_private`: back to
the normal screen, restoring the saved cursor. -/
def leave_alt_screen (t : Terminal) : Terminal :=
  { t with
    alt_screen_active := false
    cursor_x := t.normal_saved_cursor_x
    cursor_y := t.normal_saved_cursor_y
    full_redraw_needed := true }

/-- One `?`-mode of `csi_l_private`. -/
def csiLPrivateOne (t : Terminal) (p : Int) : Terminal :=
  let t := if p = 1 then { t with application_cursor_keys_mode := false } else t
  let t := if p = 6 then { t with origin_mode := false, cursor_x := 0, cursor_y := 0 } else t
  let t := if p = 7 then { t with autowrap_mode := false } else t
  let t := if p = 66 then { t with application_keypad_mode := false } else t
  let t := if p = 25 then { t with cursor_visible := false } else t
  if p = 1049 then (if t.alt_screen_active then leave_alt_screen t else t) else t

/-- `csi_l_private` (DEC private reset). -/
def csi_l_private (t : Terminal) : Terminal :=
  (List.range t.csi_param_count).foldl (fun acc i => csiLPrivateOne acc (acc.csi_params i)) t

def csi_A (t : Terminal) : Terminal :=
  { t with cursor_y := max (t.scroll_top - 1) (wrap32 (t.cursor_y - csiP1 t)) }

def csi_B (t : Terminal) : Terminal :=
  { t with cursor_y := min (t.scroll_bottom - 1) (wrap32 (t.cursor_y + csiP1 t)) }

def csi_C (t : Terminal) : Terminal :=
  { t with cursor_x := min (t.cols - 1) (wrap32 (t.cursor_x + csiP1 t)) }

def csi_D (t : Terminal) : Terminal :=
  { t with cursor_x := min (t.cols - 1) (max 0 (wrap32 (t.cursor_x - csiP1 t))) }

def csi_G (t : Terminal) : Terminal :=
  { t with cursor_x := min (t.cols - 1) (max 0 (min t.cols (wrap32 (csiP1 t - 1)))) }

def csi_d (t : Terminal) : Terminal :=
  { t with cursor_y := max 0 (min (t.rows - 1) (wrap32 (csiP1 t - 1))) }

def csiPn (t : Terminal) (i : Nat) : Int :=
  if t.csi_params i = 0 then 1 else t.csi_params i

def csi_H (t : Terminal) : Terminal :=
  if t.origin_mode then
    { t with
      cursor_y := max (t.scroll_top - 1)
        (min (t.scroll_bottom - 1) (wrap32 (wrap32 (csiPn t 0 - 1) + (t.scroll_top - 1)))),
      cursor_x := max 0 (min (t.cols - 1) (wrap32 (csiPn t 1 - 1))) }
  else
    { t with
      cursor_y := max 0 (min (t.rows - 1) (wrap32 (csiPn t 0 - 1))),
      cursor_x := max 0 (min (t.cols - 1) (wrap32 (csiPn t 1 - 1))) }

def csi_J (t : Terminal) : Terminal :=
  let p1 := t.csi_params 0
  if p1 = 2 then terminal_clear_visible_screen t
  else if p1 = 0 then
    let t := terminal_clear_line t t.cursor_y t.cursor_x
    (intRange (t.rows - (t.cursor_y + 1))).foldl
      (fun acc k => terminal_clear_line acc (acc.cursor_y + 1 + k) 0) t
  else if p1 = 1 then
    let t := (intRange t.cursor_y).foldl (fun acc k => terminal_clear_line acc k 0) t
    terminal_clear_line_to_cursor t t.cursor_y t.cursor_x
  else t

def csi_K (t : Terminal) : Terminal :=
  let p1 := t.csi_params 0
  if p1 = 0 then terminal_clear_line t t.cursor_y t.cursor_x
  else if p1 = 1 then terminal_clear_line_to_cursor t t.cursor_y t.cursor_x
  else if p1 = 2 then terminal_clear_line t t.cursor_y 0
  else t

/-- Decimal digits of a natural number, most significant first (fuel-based
so that it reduces definitionally; the fuel always suffices). -/
def decDigitsCore : Nat → Nat → List Nat
  | 0, _ => []
  | fuel + 1, n => if n < 10 then [48 + n] else decDigitsCore fuel (n / 10) ++ [48 + n % 10]

/-- Decimal digits of a non-negative `Int`, as bytes (for the `snprintf`
formatted responses). -/
def decimalBytes (n : Int) : List Nat :=
  decDigitsCore (n.toNat + 1) n.toNat

/-- `csi_c` — primary device attributes report `ESC [ ? 1 ; 2 c`. -/
def csi_c (t : Terminal) : Terminal :=
  if t.csi_params 0 = 0 ∧ t.response_buffer.length = 0 then
    { t with response_buffer := [27, 91, 63, 49, 59, 50, 99] }
  else t

/-- `csi_n` — cursor position report `ESC [ y ; x R`. -/
def csi_n (t : Terminal) : Terminal :=
  if t.csi_params 0 = 6 ∧ t.response_buffer.length = 0 then
    { t with response_buffer :=
        [27, 91] ++ decimalBytes (t.cursor_y + 1) ++ [59] ++ decimalBytes (t.cursor_x + 1) ++ [82] }
  else t

/-- `csi_t` — window-size report `ESC [ 8 ; rows ; cols t`. -/
def csi_t (t : Terminal) : Terminal :=
  if t.csi_params 0 = 18 ∧ t.response_buffer.length = 0 then
    { t with response_buffer :=
        [27, 91, 56, 59] ++ decimalBytes t.rows ++ [59] ++ decimalBytes t.cols ++ [116] }
  else t

/-- C cast of an `int` to `Uint8` (reduction modulo 256). -/
def toUint8 (x : Int) : Nat := (x.emod 256).toNat

/-- Setter helpers mirroring the field assignments of `sgr_to_color`. -/
def setAttrs (t : Terminal) (a : Nat) : Terminal := { t with current_attributes := a }

def setFg (t : Terminal) (c : Color) : Terminal := { t with current_fg := c }

def setBg (t : Terminal) (c : Color) : Terminal := { t with current_bg := c }

/-- SGR 0: default colours, no attributes. -/
def resetSgr (t : Terminal) : Terminal :=
  { t with current_fg := t.default_fg, current_bg := t.default_bg, current_attributes := 0 }

/-- One plain SGR code (everything except the 38/48 extended colours). -/
def sgrStep (t : Terminal) (code : Int) : Terminal :=
  if code = 0 then resetSgr t
  else if code = 1 then setAttrs t (t.current_attributes ||| ATTR_BOLD)
  else if code = 3 then setAttrs t (t.current_attributes ||| ATTR_ITALIC)
  else if code = 4 then setAttrs t (t.current_attributes ||| ATTR_UNDERLINE)
  else if code = 5 then setAttrs t (t.current_attributes ||| ATTR_BLINK)
  else if code = 7 then setAttrs t (t.current_attributes ||| ATTR_INVERSE)
  else if code = 22 then setAttrs t (t.current_attributes &&& (255 - ATTR_BOLD))
  else if code = 23 then setAttrs t (t.current_attributes &&& (255 - ATTR_ITALIC))
  else if code = 24 then setAttrs t (t.current_attributes &&& (255 - ATTR_UNDERLINE))
  else if code = 25 then setAttrs t (t.current_attributes &&& (255 - ATTR_BLINK))
  else if code = 27 then setAttrs t (t.current_attributes &&& (255 - ATTR_INVERSE))
  else if 30 ≤ code ∧ code ≤ 37 then setFg t (t.colors (code - 30).toNat)
  else if 40 ≤ code ∧ code ≤ 47 then setBg t (t.colors (code - 40).toNat)
  else if 90 ≤ code ∧ code ≤ 97 then setFg t (t.colors (code - 90 + 8).toNat)
  else if 100 ≤ code ∧ code ≤ 107 then setBg t (t.colors (code - 100 + 8).toNat)
  else if code = 39 then setFg t t.default_fg
  else if code = 49 then setBg t t.default_bg
  else t

/-- `sgr_to_color` (`terminal.c`), as a structural recursion over the list of
collected parameters.  Codes 38/48 consume their extra arguments exactly as
the indexed C loop does (`i += sgr_parse_extended_color(...)` then `++i`). -/
def sgrList : Terminal → List Int → Terminal
  | t, [] => t
  | t, 38 :: 2 :: r :: g :: b :: rest =>
    sgrList (setFg t ⟨toUint8 r, toUint8 g, toUint8 b, 255⟩) rest
  | t, 38 :: 5 :: idx :: rest =>
    sgrList (if 0 ≤ idx ∧ idx ≤ 255 then setFg t (t.xterm_colors idx.toNat) else t) rest
  | t, 48 :: 2 :: r :: g :: b :: rest =>
    sgrList (setBg t ⟨toUint8 r, toUint8 g, toUint8 b, 255⟩) rest
  | t, 48 :: 5 :: idx :: rest =>
    sgrList (if 0 ≤ idx ∧ idx ≤ 255 then setBg t (t.xterm_colors idx.toNat) else t) rest
  | t, code :: rest => sgrList (sgrStep t code) rest

/-- `sgr_to_color` applied to the parameters collected so far. -/
def sgr_to_color (t : Terminal) : Terminal :=
  sgrList t ((List.range t.csi_param_count).map t.csi_params)

/-- `csi_m`. -/
def csi_m (t : Terminal) : Terminal :=
  if t.csi_param_count = 1 ∧ t.csi_params 0 = 0 then resetSgr t
  else sgr_to_color t

/-- `csi_h` (ANSI set mode: 4 = insert). -/
def csi_h (t : Terminal) : Terminal :=
  (List.range t.csi_param_count).foldl
    (fun acc i => if acc.csi_params i = 4 then { acc with insert_mode := true } else acc) t

/-- `csi_l` (ANSI reset mode). -/
def csi_l (t : Terminal) : Terminal :=
  (List.range t.csi_param_count).foldl
    (fun acc i => if acc.csi_params i = 4 then { acc with insert_mode := false } else acc) t

/-- `csi_q` (DECSCUSR, requires the single intermediate `' '`). -/
def csi_q (t : Terminal) : Terminal :=
  if t.csi_intermediate_chars = [32] then
    let style := if t.csi_param_count > 0 then t.csi_params 0 else 1
    if 0 ≤ style ∧ style ≤ 6 then
      let sb : CursorStyle × Bool :=
        if style ≤ 1 then (.block, true)
        else if style = 2 then (.block, false)
        else if style = 3 then (.underline, true)
        else if style = 4 then (.underline, false)
        else if style = 5 then (.bar, true)
        else (.bar, false)
      { t with cursor_style := sb.1, cursor_style_blinking := sb.2 }
    else t
  else t

def csi_s (t : Terminal) : Terminal :=
  { t with saved_cursor_x := t.cursor_x, saved_cursor_y := t.cursor_y }

def csi_u (t : Terminal) : Terminal :=
  { t with cursor_x := t.saved_cursor_x, cursor_y := t.saved_cursor_y }

/-- The `top` parameter of DECSTBM. -/
def csiRTop (t : Terminal) : Int :=
  if t.csi_param_count > 0 ∧ t.csi_params 0 > 0 then t.csi_params 0 else 1

/-- The `bottom` parameter of DECSTBM. -/
def csiRBottom (t : Terminal) : Int :=
  if t.csi_param_count > 1 ∧ t.csi_params 1 > 0 then t.csi_params 1 else t.rows

/-- `csi_r` (DECSTBM). -/
def csi_r (t : Terminal) : Terminal :=
  if csiRTop t < csiRBottom t ∧ csiRBottom t ≤ t.rows then
    { t with scroll_top := csiRTop t, scroll_bottom := csiRBottom t, cursor_x := 0, cursor_y := 0 }
  else t

def csi_at (t : Terminal) : Terminal := terminal_insert_chars t (csiP1 t)

def csi_L (t : Terminal) : Terminal :=
  if t.cursor_y ≥ t.scroll_top - 1 ∧ t.cursor_y < t.scroll_bottom then
    terminal_scroll_region t t.cursor_y (t.scroll_bottom - 1) (-(csiP1 t))
  else t

def csi_M (t : Terminal) : Terminal :=
  if t.cursor_y ≥ t.scroll_top - 1 ∧ t.cursor_y < t.scroll_bottom then
    terminal_scroll_region t t.cursor_y (t.scroll_bottom - 1) (csiP1 t)
  else t

def csi_P (t : Terminal) : Terminal := terminal_delete_chars t (csiP1 t)

def csi_S (t : Terminal) : Terminal :=
  terminal_scroll_region t (t.scroll_top - 1) (t.scroll_bottom - 1) (csiP1 t)

def csi_T (t : Terminal) : Terminal :=
  terminal_scroll_region t (t.scroll_top - 1) (t.scroll_bottom - 1) (-(csiP1 t))

def csi_X (t : Terminal) : Terminal := terminal_erase_chars t (csiP1 t)

/-- `handle_csi` (`terminal.c`): the dispatch table, matched on
`(final byte, private marker)`; unmatched commands are ignored. -/
def handle_csi (t : Terminal) (command : Nat) : Terminal :=
  if command = 104 ∧ t.csi_private_marker = 63 then csi_h_private t
  else if command = 108 ∧ t.csi_private_marker = 63 then csi_l_private t
  else if t.csi_private_marker ≠ 0 then t
  else if command = 65 then csi_A t
  else if command = 66 then csi_B t
  else if command = 67 then csi_C t
  else if command = 68 then csi_D t
  else if command = 71 then csi_G t
  else if command = 100 then csi_d t
  else if command = 72 ∨ command = 102 then csi_H t
  else if command = 74 then csi_J t
  else if command = 75 then csi_K t
  else if command = 99 then csi_c t
  else if command = 110 then csi_n t
  else if command = 109 then csi_m t
  else if command = 104 then csi_h t
  else if command = 108 then csi_l t
  else if command = 113 then csi_q t
  else if command = 115 then csi_s t
  else if command = 117 then csi_u t
  else if command = 114 then csi_r t
  else if command = 64 then csi_at t
  else if command = 76 then csi_L t
  else if command = 77 then csi_M t
  else if command = 80 then csi_P t
  else if command = 83 then csi_S t
  else if command = 84 ∨ command = 94 then csi_T t
  else if command = 88 then csi_X t
  else if command = 116 then csi_t t
  else t

/-! ## OSC handling (`handle_osc`, `terminal.c`) -/

def isDigitByte (c : Nat) : Bool := 48 ≤ c ∧ c ≤ 57

def hexDigitVal (c : Nat) : Option Nat :=
  if 48 ≤ c ∧ c ≤ 57 then some (c - 48)
  else if 97 ≤ c ∧ c ≤ 102 then some (c - 87)
  else if 65 ≤ c ∧ c ≤ 70 then some (c - 55)
  else none

/-- The only whitespace byte the OSC accumulator lets through is `' '`. -/
def dropSpaces (s : List Nat) : List Nat := s.dropWhile (fun c => c = 32)

/-- `strtol(s, &end, 10)`: `none` when no digits were consumed
(`end == start`); otherwise the value and the unconsumed tail. -/
def strtol10 (s : List Nat) : Option (Int × List Nat) :=
  let s1 := dropSpaces s
  let signAndRest : Bool × List Nat :=
    match s1 with
    | 45 :: r => (true, r)
    | 43 :: r => (false, r)
    | _ => (false, s1)
  let digits := signAndRest.2.takeWhile isDigitByte
  if digits.isEmpty then none
  else
    let v : Int := digits.foldl (fun a c => a * 10 + ((c : Int) - 48)) 0
    some (if signAndRest.1 then -v else v, signAndRest.2.drop digits.length)

/-- One `%x` conversion of `sscanf`: skip spaces, then at least one hex digit. -/
def scanHex (s : List Nat) : Option (Nat × List Nat) :=
  let s1 := dropSpaces s
  let digits := s1.takeWhile (fun c => (hexDigitVal c).isSome)
  if digits.isEmpty then none
  else some (digits.foldl (fun a c => a * 16 + (hexDigitVal c).getD 0) 0, s1.drop digits.length)

/-- A literal run inside an `sscanf` format. -/
def scanLit (s lit : List Nat) : Option (List Nat) :=
  if lit.isPrefixOf s then some (s.drop lit.length) else none

/-- `sscanf(spec, "rgb:%x/%x/%x", &r, &g, &b) == 3`. -/
def oscParseRgb (spec : List Nat) : Option (Nat × Nat × Nat) :=
  (scanLit spec [114, 103, 98, 58]).bind fun s0 =>
    (scanHex s0).bind fun (r, s1) =>
      (scanLit s1 [47]).bind fun s2 =>
        (scanHex s2).bind fun (g, s3) =>
          (scanLit s3 [47]).bind fun s4 =>
            (scanHex s4).map fun (b, _) => (r, g, b)

/-- The palette update of `handle_osc` for a validated index. -/
def oscApplySpec (t : Terminal) (idx : Int) (spec : List Nat) : Terminal :=
  match oscParseRgb spec with
  | some (r, g, b) =>
    { t with colors := setColor t.colors idx ⟨r % 256, g % 256, b % 256, 255⟩ }
  | none =>
    if spec.head? = some 35 ∧ spec.length = 7 then
      match scanHex (spec.drop 1) with
      | some (val, _) =>
        { t with colors :=
            setColor t.colors idx ⟨(val >>> 16) % 256, (val >>> 8) % 256, val % 256, 255⟩ }
      | none => t
    else t

/-- `handle_osc` (`terminal.c`): interpret `4;N;spec`, else discard. -/
def handle_osc (t : Terminal) : Terminal :=
  if ¬ [52, 59].isPrefixOf t.osc_buffer then t
  else
    match strtol10 (t.osc_buffer.drop 2) with
    | none => t
    | some (idx, rest) =>
      match rest with
      | 59 :: spec =>
        if idx < 0 ∨ idx > 15 then t
        else
          let t := oscApplySpec t idx spec
          { t with xterm_colors := setColor t.xterm_colors idx (t.colors idx.toNat) }
      | _ => t

/-! ## The parser state machine (`terminal_handle_input`, `terminal.c`) -/

/-- `(cursor_x + 8) & ~7` on a two's-complement `int`. -/
def tabStop (x : Int) : Int := (x + 8) - (x + 8) % 8

/-- The C0-control / printable dispatch of `STATE_NORMAL` for a byte
`< 0x80` with no pending UTF-8 sequence. -/
def handleC0OrPrint (t : Terminal) (c : Nat) : Terminal :=
  if c = 27 then { t with parse_state := .escape }
  else if c = 14 then { t with active_charset := 1 }
  else if c = 15 then { t with active_charset := 0 }
  else if c = 10 then terminal_newline t
  else if c = 13 then { t with cursor_x := 0 }
  else if c = 8 then { t with cursor_x := max 0 (t.cursor_x - 1) }
  else if c = 9 then
    (if tabStop t.cursor_x ≥ t.cols then terminal_newline { t with cursor_x := 0 }
     else { t with cursor_x := tabStop t.cursor_x })
  else if c ≥ 32 then terminal_put_char t c
  else t

/-- `STATE_NORMAL` handling of one byte when no UTF-8 continuation is
pending: C0/printable dispatch or a UTF-8 start byte. -/
def normalByteNoPending (t : Terminal) (c : Nat) : Terminal :=
  if c < 128 then handleC0OrPrint t c
  else if c &&& 0xE0 = 0xC0 then { t with utf8_bytes_to_read := 1, utf8_codepoint := c &&& 0x1F }
  else if c &&& 0xF0 = 0xE0 then { t with utf8_bytes_to_read := 2, utf8_codepoint := c &&& 0x0F }
  else if c &&& 0xF8 = 0xF0 then { t with utf8_bytes_to_read := 3, utf8_codepoint := c &&& 0x07 }
  else t

/-- Full `STATE_NORMAL` handling of one byte.  An invalid continuation
aborts the pending sequence and reprocesses the byte (the `i--` retry),
which lands in `normalByteNoPending` because the pending count was just
cleared. -/
def normalCase (t : Terminal) (c : Nat) : Terminal :=
  if t.utf8_bytes_to_read > 0 then
    if c &&& 0xC0 = 0x80 then
      if t.utf8_bytes_to_read - 1 = 0 then
        terminal_put_char
          { t with
            utf8_codepoint := (t.utf8_codepoint <<< 6) ||| (c &&& 0x3F),
            utf8_bytes_to_read := t.utf8_bytes_to_read - 1 }
          ((t.utf8_codepoint <<< 6) ||| (c &&& 0x3F))
      else
        { t with
          utf8_codepoint := (t.utf8_codepoint <<< 6) ||| (c &&& 0x3F),
          utf8_bytes_to_read := t.utf8_bytes_to_read - 1 }
    else normalByteNoPending { t with utf8_bytes_to_read := 0 } c
  else normalByteNoPending t c

/-- The `ESC # 8` screen-alignment fill: every visible cell becomes `'E'`. -/
def screenAlignFill (t : Terminal) : Terminal :=
  let t := (intRange t.rows).foldl (fun acc y =>
    (intRange acc.cols).foldl (fun acc2 x =>
      writeActiveCell acc2 y x ⟨69, acc2.default_fg, acc2.default_bg, 0⟩) acc) t
  { t with full_redraw_needed := true }

/-- One `STATE_CSI` byte that is neither `ESC` nor handled by pushback. -/
def csiCollectDigit (t : Terminal) (c : Nat) : Terminal :=
  if t.csi_param_count = 0 then
    { t with
      csi_param_count := 1
      csi_params := fun j =>
        if j = 0 then wrap32 (t.csi_params j * 10 + ((c : Int) - 48)) else t.csi_params j }
  else if t.csi_param_count ≤ CSI_MAX_PARAMS then
    { t with csi_params := fun j =>
        if j = t.csi_param_count - 1 then wrap32 (t.csi_params j * 10 + ((c : Int) - 48))
        else t.csi_params j }
  else t

def csiCollectSemicolon (t : Terminal) : Terminal :=
  if t.csi_param_count = 0 then
    { t with
      csi_param_count := 2
      csi_params := fun j => if j = 1 then 0 else t.csi_params j }
  else if t.csi_param_count < CSI_MAX_PARAMS then
    { t with
      csi_param_count := t.csi_param_count + 1
      csi_params := fun j => if j = t.csi_param_count then 0 else t.csi_params j }
  else t

/-- The `ESC M` reverse-index step. -/
def reverseIndex (t : Terminal) : Terminal :=
  if t.cursor_y - 1 < t.scroll_top - 1 then
    terminal_scroll_region { t with cursor_y := t.scroll_top - 1 }
      (t.scroll_top - 1) (t.scroll_bottom - 1) (-1)
  else { t with cursor_y := t.cursor_y - 1 }

/-- The charset designation of `ESC (` / `ESC )` applied to the byte that
follows the bracket. -/
def designateCharset (t : Terminal) (c c2 : Nat) : Terminal :=
  if c2 = 66 ∨ c2 = 48 then
    (if c = 41 then { t with charset_g1 := c2 } else { t with charset_g0 := c2 })
  else t

/-- One `STATE_ESCAPE` byte, for every selector that consumes no lookahead
byte (everything except `(`, `)` and `#`, which the driver handles).
Assumes `utf8_bytes_to_read` has already been cleared, as the C case does
first. -/
def escapeSimple (t : Terminal) (c : Nat) : Terminal :=
  if c = 27 then t
  else if c = 91 then
    { t with
      parse_state := ParseState.csi
      csi_param_count := 0
      csi_private_marker := 0
      csi_intermediate_chars := []
      csi_params := fun _ => 0 }
  else if c = 55 then
    { t with
      saved_cursor_x := t.cursor_x
      saved_cursor_y := t.cursor_y
      parse_state := ParseState.normal }
  else if c = 56 then
    { t with
      cursor_x := t.saved_cursor_x
      cursor_y := t.saved_cursor_y
      parse_state := ParseState.normal }
  else if c = 80 then { t with parse_state := .dcs }
  else if c = 92 then { t with parse_state := .normal }
  else if c = 60 then { t with parse_state := .normal }
  else if c = 93 then { t with parse_state := .osc, osc_buffer := [] }
  else if c = 68 then { (terminal_newline t) with parse_state := .normal }
  else if c = 77 then { (reverseIndex t) with parse_state := .normal }
  else if c = 61 then { t with application_keypad_mode := true, parse_state := .normal }
  else if c = 62 then { t with application_keypad_mode := false, parse_state := .normal }
  else if c = 99 then terminal_reset t
  else { t with parse_state := .normal }

/-- One `STATE_OSC` byte. -/
def oscByte (t : Terminal) (c : Nat) : Terminal :=
  if c = 7 then
    { (handle_osc { t with utf8_bytes_to_read := 0 }) with parse_state := .normal }
  else if c = 27 then
    { (handle_osc { t with utf8_bytes_to_read := 0 }) with parse_state := .escape }
  else if (32 ≤ c ∧ c ≤ 126) ∨ c = 59 then
    (if t.osc_buffer.length < 255 then
      { t with utf8_bytes_to_read := 0, osc_buffer := t.osc_buffer ++ [c] }
    else { t with utf8_bytes_to_read := 0 })
  else { t with utf8_bytes_to_read := 0, parse_state := .normal }

/-- One `STATE_DCS` byte. -/
def dcsByte (t : Terminal) (c : Nat) : Terminal :=
  if c = 27 then { t with parse_state := .escape } else t

/-- One `STATE_CSI` byte.  The final `else` is the `i--` pushback: the byte
is re-dispatched in `STATE_NORMAL` with no pending UTF-8 sequence (cleared
at the top of the case). -/
def csiByte (t : Terminal) (c : Nat) : Terminal :=
  if c = 27 then { t with utf8_bytes_to_read := 0, parse_state := .escape }
  else if 48 ≤ c ∧ c ≤ 57 then csiCollectDigit { t with utf8_bytes_to_read := 0 } c
  else if c = 59 then csiCollectSemicolon { t with utf8_bytes_to_read := 0 }
  else if 60 ≤ c ∧ c ≤ 63 then { t with utf8_bytes_to_read := 0, csi_private_marker := c }
  else if 32 ≤ c ∧ c ≤ 47 then
    (if t.csi_intermediate_chars.length < 3 then
      { t with
        utf8_bytes_to_read := 0
        csi_intermediate_chars := t.csi_intermediate_chars ++ [c] }
    else { t with utf8_bytes_to_read := 0 })
  else if 64 ≤ c ∧ c ≤ 126 then
    (if t.csi_param_count = 0 then
      { (handle_csi { t with utf8_bytes_to_read := 0, csi_param_count := 1 } c) with
        parse_state := .normal }
    else
      { (handle_csi { t with utf8_bytes_to_read := 0 } c) with parse_state := .normal })
  else normalByteNoPending { t with utf8_bytes_to_read := 0, parse_state := .normal } c

/-- `terminal_handle_input` (`terminal.c`), structurally recursive over the
byte list.  The two-byte `ESC (`,`ESC )`,`ESC #` lookaheads consume the
following list element exactly when `i + 1 < len` does in the source. -/
def terminal_handle_input (t : Terminal) : List Nat → Terminal
  | [] => t
  | c :: rest =>
    match t.parse_state with
    | .normal => terminal_handle_input (normalCase t c) rest
    | .escape =>
      let t := { t with utf8_bytes_to_read := 0 }
      if c = 40 ∨ c = 41 then
        match rest with
        | [] => terminal_handle_input { t with parse_state := .normal } []
        | c2 :: rest' =>
          terminal_handle_input { (designateCharset t c c2) with parse_state := .normal } rest'
      else if c = 35 then
        match rest with
        | [] => terminal_handle_input { t with parse_state := .normal } []
        | c2 :: rest' =>
          if c2 = 56 then
            terminal_handle_input { (screenAlignFill t) with parse_state := .normal } rest'
          else
            terminal_handle_input { t with parse_state := .normal } (c2 :: rest')
      else terminal_handle_input (escapeSimple t c) rest
    | .osc => terminal_handle_input (oscByte t c) rest
    | .dcs => terminal_handle_input (dcsByte t c) rest
    | .csi => terminal_handle_input (csiByte t c) rest

/-! ## Viewport observables (`terminal_get_view_line`, `terminal.c`) -/

/-- The glyph shown at viewport position `(x, y)`, following
`terminal_get_view_line`: the alternate grid when active, otherwise the
normal grid at `((top_line - view_offset + y) % total + total) % total`. -/
def viewGlyph (t : Terminal) (y x : Int) : Glyph :=
  if y < 0 ∨ y ≥ t.rows then ⟨0, ⟨0, 0, 0, 0⟩, ⟨0, 0, 0, 0⟩, 0⟩
  else if t.alt_screen_active then
    match t.alt_grid with
    | none => ⟨0, ⟨0, 0, 0, 0⟩, ⟨0, 0, 0, 0⟩, 0⟩
    | some a => a (y * t.cols + x).toNat
  else
    let phys := Int.tmod (Int.tmod (t.top_line - t.view_offset + y) t.total_lines + t.total_lines)
      t.total_lines
    t.grid (phys * t.cols + x).toNat

/-- The characters of viewport row `y`. -/
def viewRowChars (t : Terminal) (y : Int) : List Nat :=
  (List.range t.cols.toNat).map fun x => (viewGlyph t y (x : Int)).character

/-- The characters of the `k`-th newest scrollback line (`k = 1` is the line
most recently pushed into history): what `terminal_get_view_line` shows at
screen row 0 once the user has scrolled back `k` lines. -/
def historyRowChars (t : Terminal) (k : Int) : List Nat :=
  let phys := Int.tmod (Int.tmod (t.top_line - k) t.total_lines + t.total_lines) t.total_lines
  (List.range t.cols.toNat).map fun x => (t.grid (phys * t.cols + (x : Int)).toNat).character

/-! ## The event loop steps (`main.c` / `app_lifecycle.c` / `event_handler.c`) -/

/-- `terminal_scroll_view` (`event_handler.c` / `main.c`): move the viewport,
clamped to `[0, history_size]`; inert on the alternate screen or with an
empty history. -/
def terminal_scroll_view (t : Terminal) (amount : Int) : Terminal :=
  if t.alt_screen_active ∨ t.history_size = 0 then t
  else if max 0 (min t.history_size (t.view_offset + amount)) ≠ t.view_offset then
    { t with
      view_offset := max 0 (min t.history_size (t.view_offset + amount))
      full_redraw_needed := true }
  else { t with view_offset := max 0 (min t.history_size (t.view_offset + amount)) }

/-- The user actions that mutate the terminal state itself.  Key-synthesis
actions only write bytes to the PTY and leave the terminal unchanged, so
they are identity steps and are not listed. -/
inductive UserAction where
  | scrollView (amount : Int)
  | resetCmd
  | clearCmd

/-- Effect of a terminal-mutating user action (`event_handle_terminal_action`
and `handle_internal_command`): viewport scrolling, `CMD_TERMINAL_RESET`,
`CMD_TERMINAL_CLEAR`. -/
def applyAction (t : Terminal) : UserAction → Terminal
  | .scrollView a => terminal_scroll_view t a
  | .resetCmd => terminal_reset t
  | .clearCmd => terminal_clear_visible_screen t

/-- States reachable by the event loop, at single-byte granularity.
A PTY read of `bytes` first zeroes `view_offset` (both event loops do this
before calling `terminal_handle_input`); taking `bytes` to be any prefix of
a longer read makes every intermediate per-byte state reachable too.  The
loop also flushes the pending response to the PTY each iteration. -/
inductive Reach : Terminal → Prop where
  | init (cols rows scrollback : Int) (colors : Nat → Color) (dfg dbg cc : Color) :
      1 ≤ cols → 1 ≤ rows → 0 ≤ scrollback → cols < 2 ^ 31 → rows < 2 ^ 31 →
      Reach (terminal_create cols rows scrollback colors dfg dbg cc)
  | pty (t : Terminal) (bytes : List Nat) : Reach t →
      Reach (terminal_handle_input { t with view_offset := 0 } bytes)
  | act (t : Terminal) (a : UserAction) : Reach t → Reach (applyAction t a)
  | flush (t : Terminal) : Reach t → Reach { t with response_buffer := [] }

/-! ## The key encoder (`send_key_event`, `input.c`) -/

/-- SDL keycodes used by the encoder (`SDLK_*`). -/
def SDLK_BACKSPACE : Nat := 8
def SDLK_TAB : Nat := 9
def SDLK_RETURN : Nat := 13
def SDLK_ESCAPE : Nat := 27
def SDLK_SPACE : Nat := 32
def SDLK_0 : Nat := 48
def SDLK_9 : Nat := 57
def SDLK_a : Nat := 97
def SDLK_b : Nat := 98
def SDLK_c : Nat := 99
def SDLK_d : Nat := 100
def SDLK_e : Nat := 101
def SDLK_f : Nat := 102
def SDLK_k : Nat := 107
def SDLK_l : Nat := 108
def SDLK_u : Nat := 117
def SDLK_w : Nat := 119
def SDLK_z : Nat := 122
def SDLK_DELETE : Nat := 127
def scancodeMask : Nat := 1 <<< 30
def SDLK_F1 : Nat := scancodeMask ||| 58
def SDLK_F2 : Nat := scancodeMask ||| 59
def SDLK_F3 : Nat := scancodeMask ||| 60
def SDLK_F4 : Nat := scancodeMask ||| 61
def SDLK_F5 : Nat := scancodeMask ||| 62
def SDLK_F6 : Nat := scancodeMask ||| 63
def SDLK_F7 : Nat := scancodeMask ||| 64
def SDLK_F8 : Nat := scancodeMask ||| 65
def SDLK_F9 : Nat := scancodeMask ||| 66
def SDLK_F10 : Nat := scancodeMask ||| 67
def SDLK_F11 : Nat := scancodeMask ||| 68
def SDLK_F12 : Nat := scancodeMask ||| 69
def SDLK_PRINTSCREEN : Nat := scancodeMask ||| 70
def SDLK_SCROLLLOCK : Nat := scancodeMask ||| 71
def SDLK_PAUSE : Nat := scancodeMask ||| 72
def SDLK_INSERT : Nat := scancodeMask ||| 73
def SDLK_HOME : Nat := scancodeMask ||| 74
def SDLK_PAGEUP : Nat := scancodeMask ||| 75
def SDLK_END : Nat := scancodeMask ||| 77
def SDLK_PAGEDOWN : Nat := scancodeMask ||| 78
def SDLK_RIGHT : Nat := scancodeMask ||| 79
def SDLK_LEFT : Nat := scancodeMask ||| 80
def SDLK_DOWN : Nat := scancodeMask ||| 81
def SDLK_UP : Nat := scancodeMask ||| 82
def SDLK_KP_ENTER : Nat := scancodeMask ||| 88
def SDLK_LCTRL : Nat := scancodeMask ||| 224
def SDLK_LSHIFT : Nat := scancodeMask ||| 225
def SDLK_LALT : Nat := scancodeMask ||| 226
def SDLK_LGUI : Nat := scancodeMask ||| 227

/-- SDL modifier bit-masks (`KMOD_*`). -/
def KMOD_NONE : Nat := 0
def KMOD_SHIFT : Nat := 0x0003
def KMOD_CTRL : Nat := 0x00C0
def KMOD_ALT : Nat := 0x0300
def KMOD_GUI : Nat := 0x0C00

/-- `isalpha` over the ASCII range used by the encoder. -/
def isAlphaByte (c : Nat) : Bool := (97 ≤ c ∧ c ≤ 122) ∨ (65 ≤ c ∧ c ≤ 90)

/-- `toupper` over the ASCII range. -/
def toUpperByte (c : Nat) : Nat := if 97 ≤ c ∧ c ≤ 122 then c - 32 else c

def KEY_SEQ_UP_NORMAL : List Nat := [27, 91, 65]
def KEY_SEQ_UP_APP : List Nat := [27, 79, 65]
def KEY_SEQ_DOWN_NORMAL : List Nat := [27, 91, 66]
def KEY_SEQ_DOWN_APP : List Nat := [27, 79, 66]
def KEY_SEQ_RIGHT_NORMAL : List Nat := [27, 91, 67]
def KEY_SEQ_RIGHT_APP : List Nat := [27, 79, 67]
def KEY_SEQ_LEFT_NORMAL : List Nat := [27, 91, 68]
def KEY_SEQ_LEFT_APP : List Nat := [27, 79, 68]
def KEY_SEQ_HOME_NORMAL : List Nat := [27, 91, 49, 126]
def KEY_SEQ_HOME_APP : List Nat := [27, 79, 72]
def KEY_SEQ_END_NORMAL : List Nat := [27, 91, 52, 126]
def KEY_SEQ_END_APP : List Nat := [27, 79, 70]
def KEY_SEQ_PGUP_NORMAL : List Nat := [27, 91, 53, 126]
def KEY_SEQ_PGDN_NORMAL : List Nat := [27, 91, 54, 126]

/-- Association-list lookup mirroring the linear `map[]` scans of
`send_key_event`. -/
def seqLookup (table : List (Nat × List Nat)) (sym : Nat) : Option (List Nat) :=
  match table.find? (fun e => e.1 = sym) with
  | some e => some e.2
  | none => none

/-- `send_key_event` (`input.c`): the bytes written to the PTY for a
`(keycode, modifier-mask)` pair, given the application-cursor-keys mode of
the terminal.  An empty list means nothing is written. -/
def send_key_event (sym : Nat) (mod : Nat) (appCursor : Bool) : List Nat :=
  let ctrl_pressed := mod &&& KMOD_CTRL ≠ 0
  let alt_pressed := mod &&& KMOD_ALT ≠ 0
  let shift_pressed := mod &&& KMOD_SHIFT ≠ 0
  -- Priority 1: Ctrl combinations
  if ctrl_pressed ∧ SDLK_a ≤ sym ∧ sym ≤ SDLK_z then [sym - SDLK_a + 1]
  else if ctrl_pressed ∧ sym = SDLK_SPACE then [0]
  else
    let ctrlMap : List (Nat × List Nat) :=
      [(SDLK_c, [3]), (SDLK_d, [4]), (SDLK_z, [26]), (SDLK_l, [12]),
       (SDLK_u, [21]), (SDLK_k, [11]), (SDLK_w, [23]), (SDLK_a, [1]),
       (SDLK_e, [5]), (SDLK_LEFT, [27, 91, 49, 59, 53, 68]),
       (SDLK_RIGHT, [27, 91, 49, 59, 53, 67]),
       (SDLK_UP, [27, 91, 49, 59, 53, 65]), (SDLK_DOWN, [27, 91, 49, 59, 53, 66])]
    match if ctrl_pressed then seqLookup ctrlMap sym else none with
    | some s => s
    | none =>
      -- Priority 2: Alt combinations
      if alt_pressed ∧ ((SDLK_SPACE ≤ sym ∧ sym ≤ SDLK_z) ∨ (SDLK_0 ≤ sym ∧ sym ≤ SDLK_9)) then
        let ch := if shift_pressed ∧ isAlphaByte sym then toUpperByte sym else sym
        [27, ch]
      else
        let altMap : List (Nat × List Nat) :=
          [(SDLK_BACKSPACE, [27, 127]), (SDLK_f, [27, 102]), (SDLK_b, [27, 98])]
        match if alt_pressed then seqLookup altMap sym else none with
        | some s => s
        | none =>
          -- Priority 3: application-cursor-mode keys
          let appMap : List (Nat × List Nat) :=
            [(SDLK_UP, KEY_SEQ_UP_APP), (SDLK_DOWN, KEY_SEQ_DOWN_APP),
             (SDLK_RIGHT, KEY_SEQ_RIGHT_APP), (SDLK_LEFT, KEY_SEQ_LEFT_APP),
             (SDLK_HOME, KEY_SEQ_HOME_APP), (SDLK_END, KEY_SEQ_END_APP)]
          match if appCursor then seqLookup appMap sym else none with
          | some s => s
          | none =>
            -- Priority 4: standard special keys
            let stdMap : List (Nat × List Nat) :=
              [(SDLK_RETURN, [13]), (SDLK_KP_ENTER, [13]),
               (SDLK_BACKSPACE, [127]), (SDLK_TAB, [9]),
               (SDLK_ESCAPE, [27]), (SDLK_SPACE, [32]),
               (SDLK_PAGEUP, KEY_SEQ_PGUP_NORMAL), (SDLK_PAGEDOWN, KEY_SEQ_PGDN_NORMAL),
               (SDLK_UP, KEY_SEQ_UP_NORMAL), (SDLK_DOWN, KEY_SEQ_DOWN_NORMAL),
               (SDLK_RIGHT, KEY_SEQ_RIGHT_NORMAL), (SDLK_LEFT, KEY_SEQ_LEFT_NORMAL),
               (SDLK_HOME, KEY_SEQ_HOME_NORMAL), (SDLK_END, KEY_SEQ_END_NORMAL),
               (SDLK_INSERT, [27, 91, 50, 126]), (SDLK_DELETE, [27, 91, 51, 126]),
               (SDLK_F1, [27, 79, 80]), (SDLK_F2, [27, 79, 81]),
               (SDLK_F3, [27, 79, 82]), (SDLK_F4, [27, 79, 83]),
               (SDLK_F5, [27, 91, 49, 53, 126]), (SDLK_F6, [27, 91, 49, 55, 126]),
               (SDLK_F7, [27, 91, 49, 56, 126]), (SDLK_F8, [27, 91, 49, 57, 126]),
               (SDLK_F9, [27, 91, 50, 48, 126]), (SDLK_F10, [27, 91, 50, 49, 126]),
               (SDLK_F11, [27, 91, 50, 51, 126]), (SDLK_F12, [27, 91, 50, 52, 126]),
               (SDLK_PRINTSCREEN, [27, 91, 50, 57, 126]),
               (SDLK_SCROLLLOCK, [27, 91, 51, 49, 126]),
               (SDLK_PAUSE, [27, 91, 51, 50, 126])]
            match seqLookup stdMap sym with
            | some s => s
            | none =>
              -- Priority 5: printable ASCII fallback
              if SDLK_SPACE ≤ sym ∧ sym ≤ 126 then
                [if shift_pressed ∧ isAlphaByte sym then toUpperByte sym else sym]
              else []

/-! ## The OSK model (`input.c`, `osk.c`) -/

/-- OSK layer bit-masks (`OSK_MOD_*`). -/
def OSK_MOD_SHIFT : Nat := 1
def OSK_MOD_CTRL : Nat := 2
def OSK_MOD_ALT : Nat := 4
def OSK_MOD_GUI : Nat := 8

/-- `SpecialKeyType` (`terminal_state.h`).  `SK_MACRO` is the runtime tag
used by `input.c` and the `.keys` parser; it is declared in the `input.h`
header, which is not among the provided sources (spec §9 documents it). -/
inductive SpecialKeyType where
  | sequence
  | string
  | skMacro
  | mod_ctrl
  | mod_alt
  | mod_shift
  | mod_gui
  | internal_cmd
  | load_file
  | unload_file
  deriving DecidableEq, Repr

/-- `InternalCommand` (`terminal_state.h`). -/
inductive InternalCommand where
  | none
  | font_inc
  | font_dec
  | cursor_toggle_visibility
  | cursor_toggle_blink
  | cursor_cycle_style
  | terminal_reset
  | terminal_clear
  | osk_toggle_position
  deriving DecidableEq, Repr

/-- `SpecialKey` (`terminal_state.h`); strings are byte lists, a `NULL`
`sequence` is `none`. -/
structure SpecialKey where
  type : SpecialKeyType
  sequence : Option (List Nat)
  keycode : Nat
  mod : Nat
  command : InternalCommand

/-- The OSK state (`OnScreenKeyboard`, `terminal_state.h`), restricted to the
modifier machinery the emission engine reads: the four one-shot toggles, the
four held (physical) modifiers, and which character layers are populated
(`char_sets_by_modifier[m] != NULL`). -/
structure Osk where
  mod_ctrl : Bool
  mod_alt : Bool
  mod_shift : Bool
  mod_gui : Bool
  held_ctrl : Bool
  held_shift : Bool
  held_alt : Bool
  held_gui : Bool
  charLayerPresent : Nat → Bool

/-- `get_physical_modifier_mask` (`osk.c`). -/
def get_physical_modifier_mask (osk : Osk) : Nat :=
  (if osk.held_shift then OSK_MOD_SHIFT else 0) |||
  (if osk.held_ctrl then OSK_MOD_CTRL else 0) |||
  (if osk.held_alt then OSK_MOD_ALT else 0) |||
  (if osk.held_gui then OSK_MOD_GUI else 0)

/-- `clear_one_shot_modifiers` (`input.c`). -/
def clear_one_shot_modifiers (osk : Osk) : Osk :=
  { osk with mod_ctrl := false, mod_alt := false, mod_shift := false, mod_gui := false }

/-- `get_effective_send_modifiers` (`input.c`): one-shot modifiers always
propagate; the held modifiers propagate only when their combined mask does
not name a populated character layer. -/
def get_effective_send_modifiers (osk : Osk) : Nat :=
  let m :=
    (if osk.mod_shift then KMOD_SHIFT else 0) |||
    (if osk.mod_ctrl then KMOD_CTRL else 0) |||
    (if osk.mod_alt then KMOD_ALT else 0) |||
    (if osk.mod_gui then KMOD_GUI else 0)
  let held_mask := get_physical_modifier_mask osk
  let layer_exists_for_held_keys := held_mask ≠ 0 ∧ osk.charLayerPresent held_mask
  if ¬ layer_exists_for_held_keys then
    m |||
    (if osk.held_shift then KMOD_SHIFT else 0) |||
    (if osk.held_ctrl then KMOD_CTRL else 0) |||
    (if osk.held_alt then KMOD_ALT else 0) |||
    (if osk.held_gui then KMOD_GUI else 0)
  else m

/-- `LayoutToken` (`osk.h`). -/
structure LayoutToken where
  token : List Nat
  type : SpecialKeyType
  keycode : Nat

/-- `s_layout_tokens` (`osk.c`), in source order (longest first). -/
def s_layout_tokens : List LayoutToken :=
  [⟨[123, 69, 78, 84, 69, 82, 125], .sequence, SDLK_RETURN⟩,        -- {ENTER}
   ⟨[123, 83, 80, 65, 67, 69, 125], .sequence, SDLK_SPACE⟩,         -- {SPACE}
   ⟨[123, 83, 72, 73, 70, 84, 125], .mod_shift, SDLK_LSHIFT⟩,       -- {SHIFT}
   ⟨[123, 68, 69, 70, 65, 85, 76, 84, 125], .string, 0⟩,            -- {DEFAULT}
   ⟨[123, 82, 73, 71, 72, 84, 125], .sequence, SDLK_RIGHT⟩,         -- {RIGHT}
   ⟨[123, 80, 71, 85, 80, 125], .sequence, SDLK_PAGEUP⟩,            -- {PGUP}
   ⟨[123, 80, 71, 68, 78, 125], .sequence, SDLK_PAGEDOWN⟩,          -- {PGDN}
   ⟨[123, 67, 84, 82, 76, 125], .mod_ctrl, SDLK_LCTRL⟩,             -- {CTRL}
   ⟨[123, 76, 69, 70, 84, 125], .sequence, SDLK_LEFT⟩,              -- {LEFT}
   ⟨[123, 72, 79, 77, 69, 125], .sequence, SDLK_HOME⟩,              -- {HOME}
   ⟨[123, 68, 79, 87, 78, 125], .sequence, SDLK_DOWN⟩,              -- {DOWN}
   ⟨[123, 70, 49, 48, 125], .sequence, SDLK_F10⟩,                   -- {F10}
   ⟨[123, 70, 49, 49, 125], .sequence, SDLK_F11⟩,                   -- {F11}
   ⟨[123, 70, 49, 50, 125], .sequence, SDLK_F12⟩,                   -- {F12}
   ⟨[123, 78, 47, 65, 125], .string, 0⟩,                            -- {N/A}
   ⟨[123, 69, 83, 67, 125], .sequence, SDLK_ESCAPE⟩,                -- {ESC}
   ⟨[123, 84, 65, 66, 125], .sequence, SDLK_TAB⟩,                   -- {TAB}
   ⟨[123, 69, 78, 68, 125], .sequence, SDLK_END⟩,                   -- {END}
   ⟨[123, 73, 78, 83, 125], .sequence, SDLK_INSERT⟩,                -- {INS}
   ⟨[123, 68, 69, 76, 125], .sequence, SDLK_DELETE⟩,                -- {DEL}
   ⟨[123, 65, 76, 84, 125], .mod_alt, SDLK_LALT⟩,                   -- {ALT}
   ⟨[123, 71, 85, 73, 125], .mod_gui, SDLK_LGUI⟩,                   -- {GUI}
   ⟨[123, 85, 80, 125], .sequence, SDLK_UP⟩,                        -- {UP}
   ⟨[123, 66, 83, 125], .sequence, SDLK_BACKSPACE⟩,                 -- {BS}
   ⟨[123, 70, 49, 125], .sequence, SDLK_F1⟩,
   ⟨[123, 70, 50, 125], .sequence, SDLK_F2⟩,
   ⟨[123, 70, 51, 125], .sequence, SDLK_F3⟩,
   ⟨[123, 70, 52, 125], .sequence, SDLK_F4⟩,
   ⟨[123, 70, 53, 125], .sequence, SDLK_F5⟩,
   ⟨[123, 70, 54, 125], .sequence, SDLK_F6⟩,
   ⟨[123, 70, 55, 125], .sequence, SDLK_F7⟩,
   ⟨[123, 70, 56, 125], .sequence, SDLK_F8⟩,
   ⟨[123, 70, 57, 125], .sequence, SDLK_F9⟩]

/-- `osk_find_layout_token` (`osk.c`): first table entry that is a prefix of
the string. -/
def osk_find_layout_token (s : List Nat) : Option LayoutToken :=
  s_layout_tokens.find? (fun tok => tok.token.isPrefixOf s)

/-- What the OSK emission engine hands to the outside world: either raw text
written to the PTY (`send_text_input_event`) or a synthesized key event
(`send_key_event` with a keycode and a modifier mask). -/
inductive Emission where
  | text (bytes : List Nat)
  | key (keycode : Nat) (mods : Nat)
  deriving DecidableEq, Repr

/-- Flush the pending macro segment (`if (p > segment_start) send(...)`). -/
def flushSeg (acc : List Emission) (seg : List Nat) : List Emission :=
  if seg.isEmpty then acc else acc ++ [.text seg]

/-- The scanning loop of `execute_macro` (`input.c`); `fuel` dominates the
length of the remaining input, one unit per consumed byte. -/
def macroGo : Nat → Osk → List Emission → List Nat → List Nat → Bool →
    List Emission × Osk × Bool
  | 0, osk, acc, seg, _, consumed => (flushSeg acc seg, osk, consumed)
  | _ + 1, osk, acc, seg, [], consumed => (flushSeg acc seg, osk, consumed)
  | fuel + 1, osk, acc, seg, 92 :: 123 :: rest, consumed =>
    macroGo fuel osk (flushSeg acc seg ++ [.text [123]]) [] rest consumed
  | fuel + 1, osk, acc, seg, 123 :: rest, consumed =>
    match osk_find_layout_token (123 :: rest) with
    | some tok =>
      let acc := flushSeg acc seg
      match tok.type with
      | .sequence =>
        let mods := get_effective_send_modifiers osk
        macroGo fuel osk (acc ++ [.key tok.keycode mods]) []
          ((123 :: rest).drop tok.token.length) true
      | .mod_ctrl =>
        macroGo fuel { osk with mod_ctrl := ¬ osk.mod_ctrl } acc []
          ((123 :: rest).drop tok.token.length) consumed
      | .mod_alt =>
        macroGo fuel { osk with mod_alt := ¬ osk.mod_alt } acc []
          ((123 :: rest).drop tok.token.length) consumed
      | .mod_shift =>
        macroGo fuel { osk with mod_shift := ¬ osk.mod_shift } acc []
          ((123 :: rest).drop tok.token.length) consumed
      | .mod_gui =>
        macroGo fuel { osk with mod_gui := ¬ osk.mod_gui } acc []
          ((123 :: rest).drop tok.token.length) consumed
      | _ =>
        macroGo fuel osk acc [] ((123 :: rest).drop tok.token.length) consumed
    | none => macroGo fuel osk acc (seg ++ [123]) rest consumed
  | fuel + 1, osk, acc, seg, c :: rest, consumed =>
    macroGo fuel osk acc (seg ++ [c]) rest consumed

/-- `execute_macro` (`input.c`): emissions and the resulting OSK state.
One-shot modifiers are cleared after the scan iff a `Sequence` token was
emitted. -/
def execute_macro (osk : Osk) (macro_string : List Nat) : List Emission × Osk :=
  let r := macroGo (macro_string.length + 1) osk [] [] macro_string false
  (r.1, if r.2.2 then clear_one_shot_modifiers r.2.1 else r.2.1)

/-- `osk_handle_key_selection` (`input.c`): dispatch one selected key.
Returns the emissions, the updated OSK state and the internal command (if
any).  The `LoadSet`/`UnloadSet` branches mutate the dynamic key-set
registry (file I/O); that registry is outside this model, so they emit
nothing here; their one-shot clearing behaviour is preserved. -/
def osk_handle_key_selection (key : SpecialKey) (osk : Osk) :
    List Emission × Osk × InternalCommand :=
  let result : List Emission × Osk × Bool × InternalCommand :=
    match key.type with
    | .string =>
      (match key.sequence with
       | some s => [Emission.text s]
       | none => [], osk, false, .none)
    | .skMacro =>
      (match key.sequence with
       | some s =>
         let r := execute_macro osk s
         (r.1, r.2, false, InternalCommand.none)
       | none => ([], osk, false, .none))
    | .load_file => ([], osk, false, .none)
    | .unload_file => ([], osk, false, .none)
    | .sequence =>
      let mods := get_effective_send_modifiers osk ||| key.mod
      ([Emission.key key.keycode mods], osk, false, .none)
    | .mod_ctrl => ([], { osk with mod_ctrl := ¬ osk.mod_ctrl }, true, .none)
    | .mod_alt => ([], { osk with mod_alt := ¬ osk.mod_alt }, true, .none)
    | .mod_shift => ([], { osk with mod_shift := ¬ osk.mod_shift }, true, .none)
    | .mod_gui => ([], { osk with mod_gui := ¬ osk.mod_gui }, true, .none)
    | .internal_cmd => ([], osk, false, key.command)
  let emissions := result.1
  let osk := result.2.1
  let is_modifier_key := result.2.2.1
  let cmd := result.2.2.2
  if ¬ is_modifier_key ∧ key.type ≠ .skMacro then
    (emissions, clear_one_shot_modifiers osk, cmd)
  else (emissions, osk, cmd)

/-! ## Proof infrastructure: fields preserved by display-only operations -/

/-- Agreement on every field the state invariant below reads.  The grid
editing helpers of `terminal.c` touch only the glyph storage, the dirty-line
array and the redraw flag, so they relate to their input by `InvFields`. -/
def InvFields (t t' : Terminal) : Prop :=
  t'.cols = t.cols ∧ t'.rows = t.rows ∧ t'.scrollback = t.scrollback ∧
  t'.cursor_x = t.cursor_x ∧ t'.cursor_y = t.cursor_y ∧
  t'.saved_cursor_x = t.saved_cursor_x ∧ t'.saved_cursor_y = t.saved_cursor_y ∧
  t'.normal_saved_cursor_x = t.normal_saved_cursor_x ∧
  t'.normal_saved_cursor_y = t.normal_saved_cursor_y ∧
  t'.scroll_top = t.scroll_top ∧ t'.scroll_bottom = t.scroll_bottom ∧
  t'.view_offset = t.view_offset ∧ t'.history_size = t.history_size ∧
  t'.alt_screen_active = t.alt_screen_active ∧
  t'.csi_param_count = t.csi_param_count ∧
  t'.csi_params = t.csi_params ∧
  t'.csi_intermediate_chars = t.csi_intermediate_chars ∧
  t'.osc_buffer = t.osc_buffer ∧ t'.response_buffer = t.response_buffer

theorem invFields_refl (t : Terminal) : InvFields t t := by simp [InvFields]

theorem invFields_trans {t t' t'' : Terminal} (h : InvFields t t') (h' : InvFields t' t'') :
    InvFields t t'' := by
  unfold InvFields at *
  obtain ⟨a1, a2, a3, a4, a5, a6, a7, a8, a9, a10, a11, a12, a13, a14, a15, a16, a17, a18, a19⟩ := h
  obtain ⟨b1, b2, b3, b4, b5, b6, b7, b8, b9, b10, b11, b12, b13, b14, b15, b16, b17, b18, b19⟩ := h'
  exact ⟨b1.trans a1, b2.trans a2, b3.trans a3, b4.trans a4, b5.trans a5, b6.trans a6,
    b7.trans a7, b8.trans a8, b9.trans a9, b10.trans a10, b11.trans a11, b12.trans a12,
    b13.trans a13, b14.trans a14, b15.trans a15, b16.trans a16, b17.trans a17, b18.trans a18,
    b19.trans a19⟩

theorem foldl_invFields {α : Type} (f : Terminal → α → Terminal)
    (h : ∀ t a, InvFields t (f t a)) :
    ∀ (l : List α) (t : Terminal), InvFields t (l.foldl f t)
  | [], t => invFields_refl t
  | a :: l, t => invFields_trans (h t a) (foldl_invFields f h l (f t a))

theorem writeActiveCell_invFields (t : Terminal) (y x : Int) (v : Glyph) :
    InvFields t (writeActiveCell t y x v) := by
  unfold writeActiveCell
  split
  · exact invFields_refl t
  · split
    · cases t.alt_grid <;> simp [InvFields]
    · simp [InvFields]

theorem terminal_mark_line_dirty_invFields (t : Terminal) (y : Int) :
    InvFields t (terminal_mark_line_dirty t y) := by
  unfold terminal_mark_line_dirty
  split
  · exact invFields_refl t
  · simp [InvFields]

theorem terminal_clear_line_invFields (t : Terminal) (y s : Int) :
    InvFields t (terminal_clear_line t y s) := by
  unfold terminal_clear_line
  split
  · exact invFields_trans
      (foldl_invFields _ (fun t a => writeActiveCell_invFields t y _ _) _ t)
      (terminal_mark_line_dirty_invFields _ y)
  · exact invFields_refl t

theorem terminal_clear_line_to_cursor_invFields (t : Terminal) (y e : Int) :
    InvFields t (terminal_clear_line_to_cursor t y e) := by
  unfold terminal_clear_line_to_cursor
  split
  · exact invFields_trans
      (foldl_invFields _ (fun t a => writeActiveCell_invFields t y _ _) _ t)
      (terminal_mark_line_dirty_invFields _ y)
  · exact invFields_refl t

theorem terminal_clear_visible_screen_invFields (t : Terminal) :
    InvFields t (terminal_clear_visible_screen t) := by
  unfold terminal_clear_visible_screen
  refine invFields_trans
    (foldl_invFields (fun acc y => terminal_clear_line acc y 0)
      (fun t a => terminal_clear_line_invFields t a 0) (intRange t.rows) t) ?_
  simp [InvFields]

theorem copyActiveLine_invFields (t : Terminal) (d s : Int) :
    InvFields t (copyActiveLine t d s) := by
  unfold copyActiveLine
  split
  · exact foldl_invFields _ (fun t a => writeActiveCell_invFields t d _ _) _ t
  · exact invFields_refl t

theorem dirtyRaw_invFields (t : Terminal) (y : Int) : InvFields t (dirtyRaw t y) := by
  simp [dirtyRaw, InvFields]

theorem terminal_mark_lines_dirty_invFields (t : Terminal) (a b : Int) :
    InvFields t (terminal_mark_lines_dirty t a b) := by
  unfold terminal_mark_lines_dirty
  exact foldl_invFields _ (fun t k => terminal_mark_line_dirty_invFields t _) _ t

theorem terminal_scroll_region_invFields (t : Terminal) (a b n : Int) :
    InvFields t (terminal_scroll_region t a b n) := by
  unfold terminal_scroll_region
  split
  · exact invFields_refl t
  · dsimp only
    split
    · cases t.alt_grid with
      | none => simp [InvFields]
      | some g =>
        dsimp only
        split
        · have hfr : InvFields t { t with full_redraw_needed := true } := by
            simp [InvFields]
          refine invFields_trans hfr ?_
          refine invFields_trans ?_
            (foldl_invFields _ (fun t k => terminal_clear_line_invFields t _ 0) _ _)
          split <;> simp [InvFields]
        · have hfr : InvFields t { t with full_redraw_needed := true } := by
            simp [InvFields]
          refine invFields_trans hfr ?_
          refine invFields_trans ?_
            (foldl_invFields _ (fun t k => terminal_clear_line_invFields t _ 0) _ _)
          split <;> simp [InvFields]
    · have hfr : InvFields t { t with full_redraw_needed := true } := by
        simp [InvFields]
      refine invFields_trans hfr ?_
      refine invFields_trans (terminal_mark_lines_dirty_invFields _ a b) ?_
      split
      · exact invFields_trans
          (foldl_invFields _ (fun t k => copyActiveLine_invFields t _ _) _ _)
          (foldl_invFields _ (fun t k => terminal_clear_line_invFields t _ 0) _ _)
      · exact invFields_trans
          (foldl_invFields _ (fun t k => copyActiveLine_invFields t _ _) _ _)
          (foldl_invFields _ (fun t k => terminal_clear_line_invFields t _ 0) _ _)

theorem terminal_insert_chars_invFields (t : Terminal) (n : Int) :
    InvFields t (terminal_insert_chars t n) := by
  unfold terminal_insert_chars
  split
  · split
    · exact invFields_refl t
    · refine invFields_trans ?_ (dirtyRaw_invFields _ _)
      refine invFields_trans ?_
        (foldl_invFields _ (fun t i => writeActiveCell_invFields t _ _ _) _ _)
      split
      · exact foldl_invFields _ (fun t k => writeActiveCell_invFields t _ _ _) _ t
      · exact invFields_refl t
  · exact invFields_refl t

theorem terminal_delete_chars_invFields (t : Terminal) (n : Int) :
    InvFields t (terminal_delete_chars t n) := by
  unfold terminal_delete_chars
  split
  · split
    · exact invFields_refl t
    · refine invFields_trans ?_ (dirtyRaw_invFields _ _)
      refine invFields_trans ?_
        (foldl_invFields _ (fun t i => writeActiveCell_invFields t _ _ _) _ _)
      split
      · exact foldl_invFields _ (fun t k => writeActiveCell_invFields t _ _ _) _ t
      · exact invFields_refl t
  · exact invFields_refl t

theorem terminal_erase_chars_invFields (t : Terminal) (n : Int) :
    InvFields t (terminal_erase_chars t n) := by
  unfold terminal_erase_chars
  split
  · split
    · exact invFields_refl t
    · refine invFields_trans ?_ (dirtyRaw_invFields _ _)
      exact foldl_invFields _ (fun t i => writeActiveCell_invFields t _ _ _) _ t
  · exact invFields_refl t

theorem screenAlignFill_invFields (t : Terminal) : InvFields t (screenAlignFill t) := by
  unfold screenAlignFill
  refine invFields_trans
    (foldl_invFields (fun acc y =>
        (intRange acc.cols).foldl (fun acc2 x =>
          writeActiveCell acc2 y x ⟨69, acc2.default_fg, acc2.default_bg, 0⟩) acc)
      (fun t y => foldl_invFields _ (fun t x => writeActiveCell_invFields t _ _ _) _ t)
      (intRange t.rows) t) ?_
  simp [InvFields]

theorem oscApplySpec_invFields (t : Terminal) (idx : Int) (spec : List Nat) :
    InvFields t (oscApplySpec t idx spec) := by
  unfold oscApplySpec
  split
  · simp [InvFields]
  · split
    · split <;> simp [InvFields]
    · exact invFields_refl t

theorem handle_osc_invFields (t : Terminal) : InvFields t (handle_osc t) := by
  unfold handle_osc
  split
  · exact invFields_refl t
  · split
    · exact invFields_refl t
    · split
      · rename_i x idx rest spec heq
        split
        · exact invFields_refl t
        · exact invFields_trans (oscApplySpec_invFields t idx spec) (by simp [InvFields])
      · exact invFields_refl t

/-! ## The state invariant -/

/-- The well-formedness invariant of a terminal state.  The `2^31` bounds
record that these fields are C `int`s: CSI parameters are accumulated with
32-bit wrap-around, so they (and the cursor coordinates they may be added
to or subtracted from) are only known to lie in the `int` range — a
ten-digit parameter such as `4294967295` wraps to `-1`, after which
`csi_A`/`csi_B`/`csi_C` can push the cursor below 0 or past the last row,
so no `0 ≤ cursor < cols/rows` bound holds.  The column still never
exceeds `cols`: every write to `cursor_x` is clamped from above. -/
structure Inv (t : Terminal) : Prop where
  cols_pos : 1 ≤ t.cols
  cols_lt : t.cols < 2 ^ 31
  rows_pos : 1 ≤ t.rows
  rows_lt : t.rows < 2 ^ 31
  sb_nonneg : 0 ≤ t.scrollback
  cx_lb : -2 ^ 31 ≤ t.cursor_x
  cx_le : t.cursor_x ≤ t.cols
  cy_lb : -2 ^ 31 ≤ t.cursor_y
  cy_ub : t.cursor_y < 2 ^ 31
  sx_lb : -2 ^ 31 ≤ t.saved_cursor_x
  sx_le : t.saved_cursor_x ≤ t.cols
  sy_lb : -2 ^ 31 ≤ t.saved_cursor_y
  sy_ub : t.saved_cursor_y < 2 ^ 31
  nx_lb : -2 ^ 31 ≤ t.normal_saved_cursor_x
  nx_le : t.normal_saved_cursor_x ≤ t.cols
  ny_lb : -2 ^ 31 ≤ t.normal_saved_cursor_y
  ny_ub : t.normal_saved_cursor_y < 2 ^ 31
  st_pos : 1 ≤ t.scroll_top
  st_le : t.scroll_top ≤ t.scroll_bottom
  sb_le_rows : t.scroll_bottom ≤ t.rows
  view_nonneg : 0 ≤ t.view_offset
  view_le : t.view_offset ≤ t.history_size
  hist_le : t.history_size ≤ t.scrollback
  alt_view : t.alt_screen_active = true → t.view_offset = 0
  params_lb : ∀ i, -2 ^ 31 ≤ t.csi_params i
  params_ub : ∀ i, t.csi_params i < 2 ^ 31
  csi_count_le : t.csi_param_count ≤ 16
  inter_le : t.csi_intermediate_chars.length ≤ 3
  osc_le : t.osc_buffer.length ≤ 255
  resp_le : t.response_buffer.length ≤ 64

theorem inv_of_invFields {t t' : Terminal} (hf : InvFields t t') (h : Inv t) : Inv t' := by
  obtain ⟨e1, e2, e3, e4, e5, e6, e7, e8, e9, e10, e11, e12, e13, e14, e15, e16, e17, e18, e19⟩ :=
    hf
  exact
    { cols_pos := e1.symm ▸ h.cols_pos
      cols_lt := e1.symm ▸ h.cols_lt
      rows_pos := e2.symm ▸ h.rows_pos
      rows_lt := e2.symm ▸ h.rows_lt
      sb_nonneg := e3.symm ▸ h.sb_nonneg
      cx_lb := e4.symm ▸ h.cx_lb
      cx_le := e1.symm ▸ e4.symm ▸ h.cx_le
      cy_lb := e5.symm ▸ h.cy_lb
      cy_ub := e5.symm ▸ h.cy_ub
      sx_lb := e6.symm ▸ h.sx_lb
      sx_le := e1.symm ▸ e6.symm ▸ h.sx_le
      sy_lb := e7.symm ▸ h.sy_lb
      sy_ub := e7.symm ▸ h.sy_ub
      nx_lb := e8.symm ▸ h.nx_lb
      nx_le := e1.symm ▸ e8.symm ▸ h.nx_le
      ny_lb := e9.symm ▸ h.ny_lb
      ny_ub := e9.symm ▸ h.ny_ub
      st_pos := e10.symm ▸ h.st_pos
      st_le := e11.symm ▸ e10.symm ▸ h.st_le
      sb_le_rows := e2.symm ▸ e11.symm ▸ h.sb_le_rows
      view_nonneg := e12.symm ▸ h.view_nonneg
      view_le := e13.symm ▸ e12.symm ▸ h.view_le
      hist_le := e3.symm ▸ e13.symm ▸ h.hist_le
      alt_view := e12.symm ▸ e14.symm ▸ h.alt_view
      params_lb := e16.symm ▸ h.params_lb
      params_ub := e16.symm ▸ h.params_ub
      csi_count_le := e15.symm ▸ h.csi_count_le
      inter_le := e17.symm ▸ h.inter_le
      osc_le := e18.symm ▸ h.osc_le
      resp_le := e19.symm ▸ h.resp_le }

/-- The `view_offset` component carried through byte-level processing: both
event loops zero the viewport offset before feeding bytes to the parser. -/
def InvZ (t : Terminal) : Prop := Inv t ∧ t.view_offset = 0

theorem invZ_of_invFields {t t' : Terminal} (hf : InvFields t t') (h : InvZ t) : InvZ t' :=
  ⟨inv_of_invFields hf h.1, hf.2.2.2.2.2.2.2.2.2.2.2.1 ▸ h.2⟩

/-! ### Bounds on the formatted responses -/

theorem decDigitsCore_length :
    ∀ (fuel n k : Nat), 1 ≤ k → n < 10 ^ k → n ≤ fuel → (decDigitsCore fuel n).length ≤ k := by
  intro fuel
  induction fuel with
  | zero =>
    intro n k h1 _ h3
    have : n = 0 := by omega
    subst this
    simpa [decDigitsCore] using Nat.le_of_lt_succ (by omega)
  | succ f ih =>
    intro n k h1 h2 h3
    unfold decDigitsCore
    split
    · simpa using h1
    · rename_i hn
      cases k with
      | zero => omega
      | succ k' =>
        have hk' : 1 ≤ k' := by
          by_contra hc
          have : k' = 0 := by omega
          subst this
          simp at h2
          omega
        have hdiv : n / 10 < 10 ^ k' := by
          rw [Nat.div_lt_iff_lt_mul (by norm_num)]
          calc n < 10 ^ (k' + 1) := h2
            _ = 10 ^ k' * 10 := by ring
        have hfuel : n / 10 ≤ f := by
          have : n / 10 < n := Nat.div_lt_self (by omega) (by norm_num)
          omega
        have := ih (n / 10) k' hk' hdiv hfuel
        simp only [List.length_append, List.length_cons, List.length_nil]
        omega

theorem decimalBytes_length_le {v : Int} (h : v ≤ 2 ^ 31) : (decimalBytes v).length ≤ 10 := by
  have hv : v.toNat < 10 ^ 10 := by
    have : v.toNat ≤ 2 ^ 31 := by omega
    calc v.toNat ≤ 2 ^ 31 := this
      _ < 10 ^ 10 := by norm_num
  exact decDigitsCore_length (v.toNat + 1) v.toNat 10 (by norm_num) hv (by omega)

/-! ### Invariant preservation by the CSI handlers -/

theorem inv_set_cursor {t : Terminal} (h : Inv t) (x y : Int)
    (hx1 : -2 ^ 31 ≤ x) (hx2 : x ≤ t.cols) (hy1 : -2 ^ 31 ≤ y) (hy2 : y < 2 ^ 31) :
    Inv { t with cursor_x := x, cursor_y := y } :=
  { h with cx_lb := hx1, cx_le := hx2, cy_lb := hy1, cy_ub := hy2 }

theorem int31_lb_zero : -2 ^ 31 ≤ (0 : Int) := by norm_num

theorem int31_ub_zero : (0 : Int) < 2 ^ 31 := by norm_num

theorem wrap32_range (x : Int) : -2 ^ 31 ≤ wrap32 x ∧ wrap32 x < 2 ^ 31 := by
  unfold wrap32
  omega

theorem csi_A_inv {t : Terminal} (h : Inv t) : Inv (csi_A t) :=
  inv_set_cursor h _ _ h.cx_lb h.cx_le
    (by have := h.st_pos; have := (wrap32_range (t.cursor_y - csiP1 t)).1; omega)
    (by
      have := h.st_le
      have := h.sb_le_rows
      have := h.rows_lt
      have := (wrap32_range (t.cursor_y - csiP1 t)).2
      omega)

theorem csi_B_inv {t : Terminal} (h : Inv t) : Inv (csi_B t) :=
  inv_set_cursor h _ _ h.cx_lb h.cx_le
    (by have := h.st_pos; have := h.st_le
        have := (wrap32_range (t.cursor_y + csiP1 t)).1; omega)
    (by have := h.sb_le_rows; have := h.rows_lt; have := h.st_pos; have := h.st_le; omega)

theorem csi_C_inv {t : Terminal} (h : Inv t) : Inv (csi_C t) :=
  inv_set_cursor h _ _
    (by have := h.cols_pos; have := (wrap32_range (t.cursor_x + csiP1 t)).1; omega)
    (by have := h.cols_pos; omega)
    h.cy_lb h.cy_ub

theorem csi_D_inv {t : Terminal} (h : Inv t) : Inv (csi_D t) :=
  inv_set_cursor h _ _
    (by have := h.cols_pos; omega)
    (by have := h.cols_pos; omega)
    h.cy_lb h.cy_ub

theorem csi_G_inv {t : Terminal} (h : Inv t) : Inv (csi_G t) :=
  inv_set_cursor h _ _
    (by have := h.cols_pos; omega)
    (by have := h.cols_pos; omega)
    h.cy_lb h.cy_ub

theorem csi_d_inv {t : Terminal} (h : Inv t) : Inv (csi_d t) :=
  inv_set_cursor h _ _ h.cx_lb h.cx_le
    (by omega)
    (by have := h.rows_lt; omega)

theorem csi_H_inv {t : Terminal} (h : Inv t) : Inv (csi_H t) := by
  unfold csi_H
  split
  · exact inv_set_cursor h _ _
      (by omega)
      (by have := h.cols_pos; omega)
      (by have := h.st_pos; omega)
      (by have := h.st_pos; have := h.st_le; have := h.sb_le_rows; have := h.rows_lt; omega)
  · exact inv_set_cursor h _ _
      (by omega)
      (by have := h.cols_pos; omega)
      (by omega)
      (by have := h.rows_lt; omega)

theorem csi_s_inv {t : Terminal} (h : Inv t) : Inv (csi_s t) :=
  { h with
    sx_lb := h.cx_lb
    sx_le := h.cx_le
    sy_lb := h.cy_lb
    sy_ub := h.cy_ub }

theorem csi_u_inv {t : Terminal} (h : Inv t) : Inv (csi_u t) :=
  inv_set_cursor h _ _ h.sx_lb h.sx_le h.sy_lb h.sy_ub

theorem csiRTop_pos {t : Terminal} : 1 ≤ csiRTop t := by
  unfold csiRTop
  split <;> omega

theorem csi_r_inv {t : Terminal} (h : Inv t) : Inv (csi_r t) := by
  unfold csi_r
  split
  · rename_i hc
    exact
      { h with
        cx_lb := int31_lb_zero
        cx_le := le_trans zero_le_one h.cols_pos
        cy_lb := int31_lb_zero
        cy_ub := int31_ub_zero
        st_pos := csiRTop_pos
        st_le := le_of_lt hc.1
        sb_le_rows := hc.2 }
  · exact h

theorem csi_c_inv {t : Terminal} (h : Inv t) : Inv (csi_c t) := by
  unfold csi_c
  split
  · exact { h with resp_le := by simp }
  · exact h

theorem csi_n_inv {t : Terminal} (h : Inv t) : Inv (csi_n t) := by
  unfold csi_n
  split
  · refine { h with resp_le := ?_ }
    have l1 : (decimalBytes (t.cursor_y + 1)).length ≤ 10 :=
      decimalBytes_length_le (by have := h.cy_ub; omega)
    have l2 : (decimalBytes (t.cursor_x + 1)).length ≤ 10 :=
      decimalBytes_length_le (by have := h.cx_le; have := h.cols_lt; omega)
    simp only [List.length_append, List.length_cons, List.length_nil]
    omega
  · exact h

theorem csi_t_inv {t : Terminal} (h : Inv t) : Inv (csi_t t) := by
  unfold csi_t
  split
  · refine { h with resp_le := ?_ }
    have l1 : (decimalBytes t.rows).length ≤ 10 := decimalBytes_length_le (by have := h.rows_lt; omega)
    have l2 : (decimalBytes t.cols).length ≤ 10 := decimalBytes_length_le (by have := h.cols_lt; omega)
    simp only [List.length_append, List.length_cons, List.length_nil]
    omega
  · exact h

theorem setAttrs_invFields (t : Terminal) (a : Nat) : InvFields t (setAttrs t a) := by
  simp [setAttrs, InvFields]
theorem setFg_invFields (t : Terminal) (c : Color) : InvFields t (setFg t c) := by
  simp [setFg, InvFields]
theorem setBg_invFields (t : Terminal) (c : Color) : InvFields t (setBg t c) := by
  simp [setBg, InvFields]
theorem resetSgr_invFields (t : Terminal) : InvFields t (resetSgr t) := by
  simp [resetSgr, InvFields]
theorem sgrStep_invFields (t : Terminal) (code : Int) : InvFields t (sgrStep t code) := by
  rw [sgrStep]
  by_cases h0 : code = 0
  · rw [if_pos h0]; exact resetSgr_invFields t
  rw [if_neg h0]
  by_cases h1 : code = 1
  · rw [if_pos h1]; exact setAttrs_invFields _ _
  rw [if_neg h1]
  by_cases h3 : code = 3
  · rw [if_pos h3]; exact setAttrs_invFields _ _
  rw [if_neg h3]
  by_cases h4 : code = 4
  · rw [if_pos h4]; exact setAttrs_invFields _ _
  rw [if_neg h4]
  by_cases h5 : code = 5
  · rw [if_pos h5]; exact setAttrs_invFields _ _
  rw [if_neg h5]
  by_cases h7 : code = 7
  · rw [if_pos h7]; exact setAttrs_invFields _ _
  rw [if_neg h7]
  by_cases h22 : code = 22
  · rw [if_pos h22]; exact setAttrs_invFields _ _
  rw [if_neg h22]
  by_cases h23 : code = 23
  · rw [if_pos h23]; exact setAttrs_invFields _ _
  rw [if_neg h23]
  by_cases h24 : code = 24
  · rw [if_pos h24]; exact setAttrs_invFields _ _
  rw [if_neg h24]
  by_cases h25 : code = 25
  · rw [if_pos h25]; exact setAttrs_invFields _ _
  rw [if_neg h25]
  by_cases h27 : code = 27
  · rw [if_pos h27]; exact setAttrs_invFields _ _
  rw [if_neg h27]
  by_cases h30 : 30 ≤ code ∧ code ≤ 37
  · rw [if_pos h30]; exact setFg_invFields _ _
  rw [if_neg h30]
  by_cases h40 : 40 ≤ code ∧ code ≤ 47
  · rw [if_pos h40]; exact setBg_invFields _ _
  rw [if_neg h40]
  by_cases h90 : 90 ≤ code ∧ code ≤ 97
  · rw [if_pos h90]; exact setFg_invFields _ _
  rw [if_neg h90]
  by_cases h100 : 100 ≤ code ∧ code ≤ 107
  · rw [if_pos h100]; exact setBg_invFields _ _
  rw [if_neg h100]
  by_cases h39 : code = 39
  · rw [if_pos h39]; exact setFg_invFields _ _
  rw [if_neg h39]
  by_cases h49 : code = 49
  · rw [if_pos h49]; exact setBg_invFields _ _
  rw [if_neg h49]
  exact invFields_refl t
theorem sgrList_invFields : ∀ (t : Terminal) (l : List Int), InvFields t (sgrList t l) := by
  intro t l
  induction t, l using sgrList.induct with
  | case1 t => exact invFields_refl t
  | case2 t r g b rest ih =>
    simp only [sgrList]
    exact invFields_trans (setFg_invFields _ _) ih
  | case3 t idx rest ih =>
    simp only [sgrList]
    refine invFields_trans ?_ ih
    split
    · exact setFg_invFields _ _
    · exact invFields_refl _
  | case4 t r g b rest ih =>
    simp only [sgrList]
    exact invFields_trans (setBg_invFields _ _) ih
  | case5 t idx rest ih =>
    simp only [sgrList]
    refine invFields_trans ?_ ih
    split
    · exact setBg_invFields _ _
    · exact invFields_refl _
  | case6 t code rest h1 h2 h3 h4 ih =>
    have hred : sgrList t (code :: rest) = sgrList (sgrStep t code) rest := by
      conv_lhs => rw [sgrList.eq_def]
      split
      · rename_i heq
        exact absurd heq (by simp)
      · rename_i tt r g b rest' heq
        injection heq with hc hr
        exact (h1 r g b rest' hc hr).elim
      · rename_i tt idx rest' heq
        injection heq with hc hr
        exact (h2 idx rest' hc hr).elim
      · rename_i tt r g b rest' heq
        injection heq with hc hr
        exact (h3 r g b rest' hc hr).elim
      · rename_i tt idx rest' heq
        injection heq with hc hr
        exact (h4 idx rest' hc hr).elim
      · rename_i tt code' rest' heq
        injection heq with hc hr
        subst hc
        subst hr
        rfl
    rw [hred]
    exact invFields_trans (sgrStep_invFields t code) ih

/-! ### Private modes and the CSI dispatcher -/

theorem foldl_pred {α : Type} (P : Terminal → Prop) (f : Terminal → α → Terminal)
    (h : ∀ t a, P t → P (f t a)) :
    ∀ (l : List α) (t : Terminal), P t → P (l.foldl f t)
  | [], _, ht => ht
  | a :: l, t, ht => foldl_pred P f h l (f t a) (h t a ht)

theorem ensureAltGrid_invZ {t : Terminal} (h : InvZ t) : InvZ (ensureAltGrid t) := by
  unfold ensureAltGrid
  split
  · exact invZ_of_invFields (by simp [InvFields]) h
  · exact h

theorem activateAlt_invZ {t : Terminal} (h : InvZ t) : InvZ (activateAlt t) :=
  ⟨{ h.1 with
      nx_lb := h.1.cx_lb
      nx_le := h.1.cx_le
      ny_lb := h.1.cy_lb
      ny_ub := h.1.cy_ub
      alt_view := fun _ => h.2 }, h.2⟩

theorem enter_alt_screen_invZ {t : Terminal} (h : InvZ t) : InvZ (enter_alt_screen t) := by
  have h3 : InvZ (terminal_clear_visible_screen (activateAlt (ensureAltGrid t))) :=
    invZ_of_invFields (terminal_clear_visible_screen_invFields _)
      (activateAlt_invZ (ensureAltGrid_invZ h))
  exact ⟨inv_set_cursor h3.1 0 0 int31_lb_zero (le_trans zero_le_one h3.1.cols_pos)
    int31_lb_zero int31_ub_zero, h3.2⟩

theorem leave_alt_screen_invZ {t : Terminal} (h : InvZ t) : InvZ (leave_alt_screen t) :=
  ⟨{ h.1 with
      cx_lb := h.1.nx_lb
      cx_le := h.1.nx_le
      cy_lb := h.1.ny_lb
      cy_ub := h.1.ny_ub
      alt_view := fun _ => h.2 }, h.2⟩

theorem csiHPrivateOne_invZ {t : Terminal} (h : InvZ t) (p : Int) :
    InvZ (csiHPrivateOne t p) := by
  have s1 : ∀ u : Terminal, InvZ u →
      InvZ (if p = 1 then { u with application_cursor_keys_mode := true } else u) := by
    intro u hu
    split
    · exact invZ_of_invFields (by simp [InvFields]) hu
    · exact hu
  have s6 : ∀ u : Terminal, InvZ u →
      InvZ (if p = 6 then
          { u with origin_mode := true, cursor_x := 0, cursor_y := u.scroll_top - 1 }
        else u) := by
    intro u hu
    split
    · exact ⟨{ hu.1 with
        cx_lb := int31_lb_zero
        cx_le := le_trans zero_le_one hu.1.cols_pos
        cy_lb := by show (-2 ^ 31 : Int) ≤ u.scroll_top - 1; have := hu.1.st_pos; omega
        cy_ub := by
          show u.scroll_top - 1 < 2 ^ 31
          have := hu.1.st_le
          have := hu.1.sb_le_rows
          have := hu.1.rows_lt
          omega }, hu.2⟩
    · exact hu
  have s7 : ∀ u : Terminal, InvZ u →
      InvZ (if p = 7 then { u with autowrap_mode := true } else u) := by
    intro u hu
    split
    · exact invZ_of_invFields (by simp [InvFields]) hu
    · exact hu
  have s66 : ∀ u : Terminal, InvZ u →
      InvZ (if p = 66 then { u with application_keypad_mode := true } else u) := by
    intro u hu
    split
    · exact invZ_of_invFields (by simp [InvFields]) hu
    · exact hu
  have s25 : ∀ u : Terminal, InvZ u →
      InvZ (if p = 25 then { u with cursor_visible := true } else u) := by
    intro u hu
    split
    · exact invZ_of_invFields (by simp [InvFields]) hu
    · exact hu
  have s49 : ∀ u : Terminal, InvZ u →
      InvZ (if p = 1049 then (if ¬ u.alt_screen_active then enter_alt_screen u else u)
        else u) := by
    intro u hu
    split
    · split
      · exact enter_alt_screen_invZ hu
      · exact hu
    · exact hu
  exact s49 _ (s25 _ (s66 _ (s7 _ (s6 _ (s1 _ h)))))

theorem csiLPrivateOne_invZ {t : Terminal} (h : InvZ t) (p : Int) :
    InvZ (csiLPrivateOne t p) := by
  have s1 : ∀ u : Terminal, InvZ u →
      InvZ (if p = 1 then { u with application_cursor_keys_mode := false } else u) := by
    intro u hu
    split
    · exact invZ_of_invFields (by simp [InvFields]) hu
    · exact hu
  have s6 : ∀ u : Terminal, InvZ u →
      InvZ (if p = 6 then { u with origin_mode := false, cursor_x := 0, cursor_y := 0 }
        else u) := by
    intro u hu
    split
    · exact ⟨{ hu.1 with
        cx_lb := int31_lb_zero
        cx_le := le_trans zero_le_one hu.1.cols_pos
        cy_lb := int31_lb_zero
        cy_ub := int31_ub_zero }, hu.2⟩
    · exact hu
  have s7 : ∀ u : Terminal, InvZ u →
      InvZ (if p = 7 then { u with autowrap_mode := false } else u) := by
    intro u hu
    split
    · exact invZ_of_invFields (by simp [InvFields]) hu
    · exact hu
  have s66 : ∀ u : Terminal, InvZ u →
      InvZ (if p = 66 then { u with application_keypad_mode := false } else u) := by
    intro u hu
    split
    · exact invZ_of_invFields (by simp [InvFields]) hu
    · exact hu
  have s25 : ∀ u : Terminal, InvZ u →
      InvZ (if p = 25 then { u with cursor_visible := false } else u) := by
    intro u hu
    split
    · exact invZ_of_invFields (by simp [InvFields]) hu
    · exact hu
  have s49 : ∀ u : Terminal, InvZ u →
      InvZ (if p = 1049 then (if u.alt_screen_active then leave_alt_screen u else u)
        else u) := by
    intro u hu
    split
    · split
      · exact leave_alt_screen_invZ hu
      · exact hu
    · exact hu
  exact s49 _ (s25 _ (s66 _ (s7 _ (s6 _ (s1 _ h)))))

theorem csi_h_private_invZ {t : Terminal} (h : InvZ t) : InvZ (csi_h_private t) :=
  foldl_pred InvZ _ (fun u a hu => csiHPrivateOne_invZ hu _) _ t h

theorem csi_l_private_invZ {t : Terminal} (h : InvZ t) : InvZ (csi_l_private t) :=
  foldl_pred InvZ _ (fun u a hu => csiLPrivateOne_invZ hu _) _ t h

theorem sgr_to_color_invFields (t : Terminal) : InvFields t (sgr_to_color t) :=
  sgrList_invFields t _

theorem csi_m_invFields (t : Terminal) : InvFields t (csi_m t) := by
  unfold csi_m
  split
  · exact resetSgr_invFields t
  · exact sgr_to_color_invFields t

theorem csi_h_invFields (t : Terminal) : InvFields t (csi_h t) := by
  unfold csi_h
  refine foldl_invFields _ (fun u i => ?_) _ t
  split
  · simp [InvFields]
  · exact invFields_refl u

theorem csi_l_invFields (t : Terminal) : InvFields t (csi_l t) := by
  unfold csi_l
  refine foldl_invFields _ (fun u i => ?_) _ t
  split
  · simp [InvFields]
  · exact invFields_refl u

theorem csi_q_invFields (t : Terminal) : InvFields t (csi_q t) := by
  simp only [csi_q]
  repeat' split
  all_goals simp [InvFields]

theorem csi_J_invFields (t : Terminal) : InvFields t (csi_J t) := by
  simp only [csi_J]
  split
  · exact terminal_clear_visible_screen_invFields t
  · split
    · exact invFields_trans (terminal_clear_line_invFields t _ _)
        (foldl_invFields _ (fun u k => terminal_clear_line_invFields u _ 0) _ _)
    · split
      · exact invFields_trans
          (foldl_invFields _ (fun u k => terminal_clear_line_invFields u k 0) _ t)
          (terminal_clear_line_to_cursor_invFields _ _ _)
      · exact invFields_refl t

theorem csi_K_invFields (t : Terminal) : InvFields t (csi_K t) := by
  simp only [csi_K]
  split
  · exact terminal_clear_line_invFields t _ _
  · split
    · exact terminal_clear_line_to_cursor_invFields t _ _
    · split
      · exact terminal_clear_line_invFields t _ 0
      · exact invFields_refl t

theorem csi_at_invFields (t : Terminal) : InvFields t (csi_at t) :=
  terminal_insert_chars_invFields t _

theorem csi_L_invFields (t : Terminal) : InvFields t (csi_L t) := by
  unfold csi_L
  split
  · exact terminal_scroll_region_invFields t _ _ _
  · exact invFields_refl t

theorem csi_M_invFields (t : Terminal) : InvFields t (csi_M t) := by
  unfold csi_M
  split
  · exact terminal_scroll_region_invFields t _ _ _
  · exact invFields_refl t

theorem csi_P_invFields (t : Terminal) : InvFields t (csi_P t) :=
  terminal_delete_chars_invFields t _

theorem csi_S_invFields (t : Terminal) : InvFields t (csi_S t) :=
  terminal_scroll_region_invFields t _ _ _

theorem csi_T_invFields (t : Terminal) : InvFields t (csi_T t) :=
  terminal_scroll_region_invFields t _ _ _

theorem csi_X_invFields (t : Terminal) : InvFields t (csi_X t) :=
  terminal_erase_chars_invFields t _

theorem handle_csi_invZ {t : Terminal} (h : InvZ t) (command : Nat) :
    InvZ (handle_csi t command) := by
  rw [handle_csi]
  by_cases hb0 : command = 104 ∧ t.csi_private_marker = 63
  · rw [if_pos hb0]
    exact csi_h_private_invZ h
  rw [if_neg hb0]
  by_cases hb1 : command = 108 ∧ t.csi_private_marker = 63
  · rw [if_pos hb1]
    exact csi_l_private_invZ h
  rw [if_neg hb1]
  by_cases hb2 : t.csi_private_marker ≠ 0
  · rw [if_pos hb2]
    exact h
  rw [if_neg hb2]
  by_cases hb3 : command = 65
  · rw [if_pos hb3]
    exact ⟨csi_A_inv h.1, h.2⟩
  rw [if_neg hb3]
  by_cases hb4 : command = 66
  · rw [if_pos hb4]
    exact ⟨csi_B_inv h.1, h.2⟩
  rw [if_neg hb4]
  by_cases hb5 : command = 67
  · rw [if_pos hb5]
    exact ⟨csi_C_inv h.1, h.2⟩
  rw [if_neg hb5]
  by_cases hb6 : command = 68
  · rw [if_pos hb6]
    exact ⟨csi_D_inv h.1, h.2⟩
  rw [if_neg hb6]
  by_cases hb7 : command = 71
  · rw [if_pos hb7]
    exact ⟨csi_G_inv h.1, h.2⟩
  rw [if_neg hb7]
  by_cases hb8 : command = 100
  · rw [if_pos hb8]
    exact ⟨csi_d_inv h.1, h.2⟩
  rw [if_neg hb8]
  by_cases hb9 : command = 72 ∨ command = 102
  · rw [if_pos hb9]
    exact ⟨csi_H_inv h.1, by unfold csi_H; split <;> exact h.2⟩
  rw [if_neg hb9]
  by_cases hb10 : command = 74
  · rw [if_pos hb10]
    exact invZ_of_invFields (csi_J_invFields t) h
  rw [if_neg hb10]
  by_cases hb11 : command = 75
  · rw [if_pos hb11]
    exact invZ_of_invFields (csi_K_invFields t) h
  rw [if_neg hb11]
  by_cases hb12 : command = 99
  · rw [if_pos hb12]
    exact ⟨csi_c_inv h.1, by unfold csi_c; split <;> exact h.2⟩
  rw [if_neg hb12]
  by_cases hb13 : command = 110
  · rw [if_pos hb13]
    exact ⟨csi_n_inv h.1, by unfold csi_n; split <;> exact h.2⟩
  rw [if_neg hb13]
  by_cases hb14 : command = 109
  · rw [if_pos hb14]
    exact invZ_of_invFields (csi_m_invFields t) h
  rw [if_neg hb14]
  by_cases hb15 : command = 104
  · rw [if_pos hb15]
    exact invZ_of_invFields (csi_h_invFields t) h
  rw [if_neg hb15]
  by_cases hb16 : command = 108
  · rw [if_pos hb16]
    exact invZ_of_invFields (csi_l_invFields t) h
  rw [if_neg hb16]
  by_cases hb17 : command = 113
  · rw [if_pos hb17]
    exact invZ_of_invFields (csi_q_invFields t) h
  rw [if_neg hb17]
  by_cases hb18 : command = 115
  · rw [if_pos hb18]
    exact ⟨csi_s_inv h.1, h.2⟩
  rw [if_neg hb18]
  by_cases hb19 : command = 117
  · rw [if_pos hb19]
    exact ⟨csi_u_inv h.1, h.2⟩
  rw [if_neg hb19]
  by_cases hb20 : command = 114
  · rw [if_pos hb20]
    exact ⟨csi_r_inv h.1, by unfold csi_r; split <;> exact h.2⟩
  rw [if_neg hb20]
  by_cases hb21 : command = 64
  · rw [if_pos hb21]
    exact invZ_of_invFields (csi_at_invFields t) h
  rw [if_neg hb21]
  by_cases hb22 : command = 76
  · rw [if_pos hb22]
    exact invZ_of_invFields (csi_L_invFields t) h
  rw [if_neg hb22]
  by_cases hb23 : command = 77
  · rw [if_pos hb23]
    exact invZ_of_invFields (csi_M_invFields t) h
  rw [if_neg hb23]
  by_cases hb24 : command = 80
  · rw [if_pos hb24]
    exact invZ_of_invFields (csi_P_invFields t) h
  rw [if_neg hb24]
  by_cases hb25 : command = 83
  · rw [if_pos hb25]
    exact invZ_of_invFields (csi_S_invFields t) h
  rw [if_neg hb25]
  by_cases hb26 : command = 84 ∨ command = 94
  · rw [if_pos hb26]
    exact invZ_of_invFields (csi_T_invFields t) h
  rw [if_neg hb26]
  by_cases hb27 : command = 88
  · rw [if_pos hb27]
    exact invZ_of_invFields (csi_X_invFields t) h
  rw [if_neg hb27]
  by_cases hb28 : command = 116
  · rw [if_pos hb28]
    exact ⟨csi_t_inv h.1, by unfold csi_t; split <;> exact h.2⟩
  rw [if_neg hb28]
  exact h

/-! ### Invariant preservation by the byte-level processing -/

theorem invZ_set_parse {t : Terminal} (h : InvZ t) (ps : ParseState) :
    InvZ { t with parse_state := ps } :=
  invZ_of_invFields (by simp [InvFields]) h

theorem terminal_scroll_up_invZ {t : Terminal} (h : InvZ t) :
    InvZ (terminal_scroll_up t) := by
  unfold terminal_scroll_up
  split
  · split
    · exact h
    · rename_i a ha
      have h1 : InvFields t
          { t with alt_grid := some (altShiftRows a t.cols 0 1 (t.rows - 1)) } := by
        simp [InvFields]
      exact invZ_of_invFields (invFields_trans h1 (terminal_clear_line_invFields _ _ _)) h
  · have h1 : InvZ { t with
        top_line := Int.tmod (t.top_line + 1) t.total_lines,
        history_size := if t.history_size < t.scrollback then t.history_size + 1
          else t.history_size,
        full_redraw_needed := true } := by
      refine ⟨{ h.1 with view_le := ?_, hist_le := ?_ }, h.2⟩
      · show t.view_offset ≤
          if t.history_size < t.scrollback then t.history_size + 1 else t.history_size
        have := h.1.view_le
        split <;> omega
      · show (if t.history_size < t.scrollback then t.history_size + 1 else t.history_size) ≤
          t.scrollback
        have := h.1.hist_le
        split <;> omega
    exact invZ_of_invFields
      (invFields_trans (terminal_mark_lines_dirty_invFields _ _ _)
        (terminal_clear_line_invFields _ _ _)) h1

theorem terminal_newline_invZ {t : Terminal} (h : InvZ t) : InvZ (terminal_newline t) := by
  unfold terminal_newline
  split
  · split
    · refine terminal_scroll_up_invZ
        ⟨inv_set_cursor h.1 t.cursor_x (t.scroll_bottom - 1) h.1.cx_lb h.1.cx_le ?_ ?_,
          h.2⟩
      · have := h.1.st_pos
        have := h.1.st_le
        omega
      · have := h.1.sb_le_rows
        have := h.1.rows_lt
        omega
    · refine invZ_of_invFields (terminal_scroll_region_invFields _ _ _ _)
        ⟨inv_set_cursor h.1 t.cursor_x (t.scroll_bottom - 1) h.1.cx_lb h.1.cx_le ?_ ?_,
          h.2⟩
      · have := h.1.st_pos
        have := h.1.st_le
        omega
      · have := h.1.sb_le_rows
        have := h.1.rows_lt
        omega
  · rename_i hc
    refine ⟨inv_set_cursor h.1 t.cursor_x (t.cursor_y + 1) h.1.cx_lb h.1.cx_le ?_ ?_, h.2⟩
    · have := h.1.cy_lb
      omega
    · have := h.1.sb_le_rows
      have := h.1.rows_lt
      omega

theorem invZ_advance_cursor {t : Terminal} (h : InvZ t) :
    InvZ (if t.cursor_x < t.cols then { t with cursor_x := t.cursor_x + 1 } else t) := by
  split
  · refine ⟨inv_set_cursor h.1 (t.cursor_x + 1) t.cursor_y ?_ ?_ h.1.cy_lb h.1.cy_ub, h.2⟩
    · have := h.1.cx_lb
      omega
    · omega
  · exact h

theorem putCharCore_invZ {t : Terminal} (h : InvZ t) (c : Nat) :
    InvZ (putCharCore t c) := by
  have s : InvZ (if t.insert_mode then terminal_insert_chars t 1 else t) := by
    split
    · exact invZ_of_invFields (terminal_insert_chars_invFields _ 1) h
    · exact h
  exact invZ_advance_cursor (invZ_of_invFields (dirtyRaw_invFields _ _)
    (invZ_of_invFields (writeActiveCell_invFields _ _ _ _) s))

theorem terminal_put_char_invZ {t : Terminal} (h : InvZ t) (c : Nat) :
    InvZ (terminal_put_char t c) := by
  unfold terminal_put_char
  refine putCharCore_invZ ?_ c
  split
  · exact terminal_newline_invZ
      ⟨inv_set_cursor h.1 0 t.cursor_y int31_lb_zero
        (le_trans zero_le_one h.1.cols_pos) h.1.cy_lb h.1.cy_ub, h.2⟩
  · exact h

theorem reverseIndex_invZ {t : Terminal} (h : InvZ t) : InvZ (reverseIndex t) := by
  unfold reverseIndex
  split
  · refine invZ_of_invFields (terminal_scroll_region_invFields _ _ _ _)
      ⟨inv_set_cursor h.1 t.cursor_x (t.scroll_top - 1) h.1.cx_lb h.1.cx_le ?_ ?_, h.2⟩
    · have := h.1.st_pos
      omega
    · have := h.1.st_le
      have := h.1.sb_le_rows
      have := h.1.rows_lt
      omega
  · rename_i hc
    refine ⟨inv_set_cursor h.1 t.cursor_x (t.cursor_y - 1) h.1.cx_lb h.1.cx_le ?_ ?_, h.2⟩
    · have := h.1.st_pos
      omega
    · have := h.1.cy_ub
      omega

theorem designateCharset_invZ {t : Terminal} (h : InvZ t) (c c2 : Nat) :
    InvZ (designateCharset t c c2) := by
  unfold designateCharset
  split
  · split
    · exact invZ_of_invFields (by simp [InvFields]) h
    · exact invZ_of_invFields (by simp [InvFields]) h
  · exact h

theorem terminal_reset_inv {t : Terminal} (h : Inv t) : Inv (terminal_reset t) :=
  { cols_pos := h.cols_pos
    cols_lt := h.cols_lt
    rows_pos := h.rows_pos
    rows_lt := h.rows_lt
    sb_nonneg := h.sb_nonneg
    cx_lb := int31_lb_zero
    cx_le := le_trans zero_le_one h.cols_pos
    cy_lb := int31_lb_zero
    cy_ub := int31_ub_zero
    sx_lb := int31_lb_zero
    sx_le := le_trans zero_le_one h.cols_pos
    sy_lb := int31_lb_zero
    sy_ub := int31_ub_zero
    nx_lb := h.nx_lb
    nx_le := h.nx_le
    ny_lb := h.ny_lb
    ny_ub := h.ny_ub
    st_pos := le_refl 1
    st_le := h.rows_pos
    sb_le_rows := le_refl t.rows
    view_nonneg := le_refl 0
    view_le := le_refl 0
    hist_le := h.sb_nonneg
    alt_view := fun _ => rfl
    params_lb := fun _ => int31_lb_zero
    params_ub := fun _ => int31_ub_zero
    csi_count_le := Nat.zero_le 16
    inter_le := Nat.zero_le 3
    osc_le := h.osc_le
    resp_le := h.resp_le }

theorem terminal_reset_invZ {t : Terminal} (h : Inv t) : InvZ (terminal_reset t) :=
  ⟨terminal_reset_inv h, rfl⟩

theorem escapeSimple_invZ {t : Terminal} (h : InvZ t) (c : Nat) :
    InvZ (escapeSimple t c) := by
  rw [escapeSimple]
  by_cases he0 : c = 27
  · rw [if_pos he0]
    exact h
  rw [if_neg he0]
  by_cases he1 : c = 91
  · rw [if_pos he1]
    exact ⟨{ h.1 with
        csi_count_le := Nat.zero_le 16
        params_lb := fun _ => int31_lb_zero
        params_ub := fun _ => int31_ub_zero
        inter_le := Nat.zero_le 3 }, h.2⟩
  rw [if_neg he1]
  by_cases he2 : c = 55
  · rw [if_pos he2]
    exact ⟨{ h.1 with
        sx_lb := h.1.cx_lb
        sx_le := h.1.cx_le
        sy_lb := h.1.cy_lb
        sy_ub := h.1.cy_ub }, h.2⟩
  rw [if_neg he2]
  by_cases he3 : c = 56
  · rw [if_pos he3]
    exact ⟨{ h.1 with
        cx_lb := h.1.sx_lb
        cx_le := h.1.sx_le
        cy_lb := h.1.sy_lb
        cy_ub := h.1.sy_ub }, h.2⟩
  rw [if_neg he3]
  by_cases he4 : c = 80
  · rw [if_pos he4]
    exact invZ_set_parse h _
  rw [if_neg he4]
  by_cases he5 : c = 92
  · rw [if_pos he5]
    exact invZ_set_parse h _
  rw [if_neg he5]
  by_cases he6 : c = 60
  · rw [if_pos he6]
    exact invZ_set_parse h _
  rw [if_neg he6]
  by_cases he7 : c = 93
  · rw [if_pos he7]
    exact ⟨{ h.1 with osc_le := Nat.zero_le 255 }, h.2⟩
  rw [if_neg he7]
  by_cases he8 : c = 68
  · rw [if_pos he8]
    exact invZ_set_parse (terminal_newline_invZ h) _
  rw [if_neg he8]
  by_cases he9 : c = 77
  · rw [if_pos he9]
    exact invZ_set_parse (reverseIndex_invZ h) _
  rw [if_neg he9]
  by_cases he10 : c = 61
  · rw [if_pos he10]
    exact invZ_of_invFields (by simp [InvFields]) h
  rw [if_neg he10]
  by_cases he11 : c = 62
  · rw [if_pos he11]
    exact invZ_of_invFields (by simp [InvFields]) h
  rw [if_neg he11]
  by_cases he12 : c = 99
  · rw [if_pos he12]
    exact terminal_reset_invZ h.1
  rw [if_neg he12]
  exact invZ_set_parse h _

theorem oscByte_invZ {t : Terminal} (h : InvZ t) (c : Nat) : InvZ (oscByte t c) := by
  have h0 : InvZ { t with utf8_bytes_to_read := 0 } :=
    invZ_of_invFields (by simp [InvFields]) h
  unfold oscByte
  split
  · exact invZ_set_parse (invZ_of_invFields (handle_osc_invFields _) h0) _
  split
  · exact invZ_set_parse (invZ_of_invFields (handle_osc_invFields _) h0) _
  split
  · split
    · rename_i hlen
      refine ⟨{ h.1 with osc_le := ?_ }, h.2⟩
      show (t.osc_buffer ++ [c]).length ≤ 255
      simp only [List.length_append, List.length_cons, List.length_nil]
      omega
    · exact h0
  exact invZ_of_invFields (by simp [InvFields]) h

theorem dcsByte_invZ {t : Terminal} (h : InvZ t) (c : Nat) : InvZ (dcsByte t c) := by
  unfold dcsByte
  split
  · exact invZ_set_parse h _
  · exact h

theorem csiCollectDigit_invZ {t : Terminal} (h : InvZ t) (c : Nat) :
    InvZ (csiCollectDigit t c) := by
  unfold csiCollectDigit
  split
  · have hlb : ∀ i, (-2 ^ 31 : Int) ≤
        if i = 0 then wrap32 (t.csi_params i * 10 + ((c : Int) - 48)) else t.csi_params i := by
      intro i
      have := h.1.params_lb i
      have := (wrap32_range (t.csi_params i * 10 + ((c : Int) - 48))).1
      split <;> omega
    have hub : ∀ i,
        (if i = 0 then wrap32 (t.csi_params i * 10 + ((c : Int) - 48)) else t.csi_params i)
          < 2 ^ 31 := by
      intro i
      have := h.1.params_ub i
      have := (wrap32_range (t.csi_params i * 10 + ((c : Int) - 48))).2
      split <;> omega
    have hcnt : (1 : Nat) ≤ 16 := by omega
    exact ⟨{ h.1 with csi_count_le := hcnt, params_lb := hlb, params_ub := hub }, h.2⟩
  split
  · have hlb : ∀ i, (-2 ^ 31 : Int) ≤
        if i = t.csi_param_count - 1 then wrap32 (t.csi_params i * 10 + ((c : Int) - 48))
        else t.csi_params i := by
      intro i
      have := h.1.params_lb i
      have := (wrap32_range (t.csi_params i * 10 + ((c : Int) - 48))).1
      split <;> omega
    have hub : ∀ i,
        (if i = t.csi_param_count - 1 then wrap32 (t.csi_params i * 10 + ((c : Int) - 48))
        else t.csi_params i) < 2 ^ 31 := by
      intro i
      have := h.1.params_ub i
      have := (wrap32_range (t.csi_params i * 10 + ((c : Int) - 48))).2
      split <;> omega
    exact ⟨{ h.1 with params_lb := hlb, params_ub := hub }, h.2⟩
  exact h

theorem csiCollectSemicolon_invZ {t : Terminal} (h : InvZ t) :
    InvZ (csiCollectSemicolon t) := by
  unfold csiCollectSemicolon
  split
  · have hlb : ∀ i, (-2 ^ 31 : Int) ≤ if i = 1 then (0 : Int) else t.csi_params i := by
      intro i
      have := h.1.params_lb i
      split <;> omega
    have hub : ∀ i, (if i = 1 then (0 : Int) else t.csi_params i) < 2 ^ 31 := by
      intro i
      have := h.1.params_ub i
      split <;> omega
    have hcnt : (2 : Nat) ≤ 16 := by omega
    exact ⟨{ h.1 with csi_count_le := hcnt, params_lb := hlb, params_ub := hub }, h.2⟩
  split
  · rename_i hlt
    have h16 : CSI_MAX_PARAMS = 16 := rfl
    have hlb : ∀ i, (-2 ^ 31 : Int) ≤
        if i = t.csi_param_count then (0 : Int) else t.csi_params i := by
      intro i
      have := h.1.params_lb i
      split <;> omega
    have hub : ∀ i, (if i = t.csi_param_count then (0 : Int) else t.csi_params i) < 2 ^ 31 := by
      intro i
      have := h.1.params_ub i
      split <;> omega
    have hcnt : t.csi_param_count + 1 ≤ 16 := by omega
    exact ⟨{ h.1 with csi_count_le := hcnt, params_lb := hlb, params_ub := hub }, h.2⟩
  exact h

theorem tabStop_bounds (x : Int) : x + 1 ≤ tabStop x ∧ tabStop x ≤ x + 8 := by
  unfold tabStop
  omega

theorem handleC0OrPrint_invZ {t : Terminal} (h : InvZ t) (c : Nat) :
    InvZ (handleC0OrPrint t c) := by
  unfold handleC0OrPrint
  split
  · exact invZ_set_parse h _
  split
  · exact invZ_of_invFields (by simp [InvFields]) h
  split
  · exact invZ_of_invFields (by simp [InvFields]) h
  split
  · exact terminal_newline_invZ h
  split
  · exact ⟨inv_set_cursor h.1 0 t.cursor_y int31_lb_zero
      (le_trans zero_le_one h.1.cols_pos) h.1.cy_lb h.1.cy_ub, h.2⟩
  split
  · refine ⟨inv_set_cursor h.1 (max 0 (t.cursor_x - 1)) t.cursor_y ?_ ?_
      h.1.cy_lb h.1.cy_ub, h.2⟩
    · omega
    · have := h.1.cx_le
      have := h.1.cols_pos
      omega
  split
  · split
    · exact terminal_newline_invZ
        ⟨inv_set_cursor h.1 0 t.cursor_y int31_lb_zero
          (le_trans zero_le_one h.1.cols_pos) h.1.cy_lb h.1.cy_ub, h.2⟩
    · rename_i htab
      refine ⟨inv_set_cursor h.1 (tabStop t.cursor_x) t.cursor_y ?_ ?_
        h.1.cy_lb h.1.cy_ub, h.2⟩
      · have hb := tabStop_bounds t.cursor_x
        have := h.1.cx_lb
        omega
      · omega
  split
  · exact terminal_put_char_invZ h c
  exact h

theorem normalByteNoPending_invZ {t : Terminal} (h : InvZ t) (c : Nat) :
    InvZ (normalByteNoPending t c) := by
  unfold normalByteNoPending
  split
  · exact handleC0OrPrint_invZ h c
  split
  · exact invZ_of_invFields (by simp [InvFields]) h
  split
  · exact invZ_of_invFields (by simp [InvFields]) h
  split
  · exact invZ_of_invFields (by simp [InvFields]) h
  exact h

theorem normalCase_invZ {t : Terminal} (h : InvZ t) (c : Nat) : InvZ (normalCase t c) := by
  unfold normalCase
  split
  · split
    · split
      · exact terminal_put_char_invZ (invZ_of_invFields (by simp [InvFields]) h) _
      · exact invZ_of_invFields (by simp [InvFields]) h
    · exact normalByteNoPending_invZ (invZ_of_invFields (by simp [InvFields]) h) c
  · exact normalByteNoPending_invZ h c

theorem screenAlignFill_invZ {t : Terminal} (h : InvZ t) : InvZ (screenAlignFill t) :=
  invZ_of_invFields (screenAlignFill_invFields t) h




theorem csiByte_invZ {t : Terminal} (h : InvZ t) (c : Nat) : InvZ (csiByte t c) := by
  have h0 : InvZ { t with utf8_bytes_to_read := 0 } :=
    invZ_of_invFields (by simp [InvFields]) h
  unfold csiByte
  split
  · exact invZ_of_invFields (by simp [InvFields]) h
  split
  · exact csiCollectDigit_invZ h0 c
  split
  · exact csiCollectSemicolon_invZ h0
  split
  · exact invZ_of_invFields (by simp [InvFields]) h
  split
  · split
    · rename_i hlen
      refine ⟨{ h.1 with inter_le := ?_ }, h.2⟩
      show (t.csi_intermediate_chars ++ [c]).length ≤ 3
      simp only [List.length_append, List.length_cons, List.length_nil]
      omega
    · exact h0
  split
  · split
    · refine invZ_set_parse (handle_csi_invZ ?_ c) _
      have hcnt : (1 : Nat) ≤ 16 := by omega
      exact ⟨{ h.1 with csi_count_le := hcnt }, h.2⟩
    · exact invZ_set_parse (handle_csi_invZ h0 c) _
  exact normalByteNoPending_invZ (invZ_of_invFields (by simp [InvFields]) h) c

/-- Every byte-level step of the parser preserves the invariant (with the
viewport pinned at offset 0, as the event loops arrange). -/
theorem terminal_handle_input_invZ (t : Terminal) (bytes : List Nat) :
    InvZ t → InvZ (terminal_handle_input t bytes) := by
  induction t, bytes using terminal_handle_input.induct with
  | case1 t => exact id
  | case2 t c rest hps ih =>
    intro h
    rw [terminal_handle_input, hps]
    exact ih (normalCase_invZ h c)
  | case3 t c hps t1 hor ih =>
    intro h
    rw [terminal_handle_input]
    nth_rewrite 1 [hps]
    show InvZ (if c = 40 ∨ c = 41 then _ else _)
    rw [if_pos hor]
    exact invZ_of_invFields (by simp [InvFields, terminal_handle_input]) h
  | case4 t c hps t1 hor c2 rest' ih =>
    intro h
    rw [terminal_handle_input]
    nth_rewrite 1 [hps]
    show InvZ (if c = 40 ∨ c = 41 then _ else _)
    rw [if_pos hor]
    exact ih (invZ_set_parse
      (designateCharset_invZ (invZ_of_invFields (by simp [InvFields]) h) _ _) _)
  | case5 t hps t1 hneg ih =>
    intro h
    rw [terminal_handle_input]
    nth_rewrite 1 [hps]
    show InvZ (if (35 : Nat) = 40 ∨ (35 : Nat) = 41 then _ else _)
    rw [if_neg hneg]
    show InvZ (if (35 : Nat) = 35 then _ else _)
    rw [if_pos rfl]
    exact invZ_of_invFields (by simp [InvFields, terminal_handle_input]) h
  | case6 t hps t1 rest' hneg ih =>
    intro h
    rw [terminal_handle_input]
    nth_rewrite 1 [hps]
    show InvZ (if (35 : Nat) = 40 ∨ (35 : Nat) = 41 then _ else _)
    rw [if_neg hneg]
    show InvZ (if (35 : Nat) = 35 then _ else _)
    rw [if_pos rfl]
    show InvZ (if (56 : Nat) = 56 then _ else _)
    rw [if_pos rfl]
    exact ih (invZ_set_parse
      (screenAlignFill_invZ (invZ_of_invFields (by simp [InvFields]) h)) _)
  | case7 t hps t1 c2 rest' hn56 hneg ih =>
    intro h
    rw [terminal_handle_input]
    nth_rewrite 1 [hps]
    show InvZ (if (35 : Nat) = 40 ∨ (35 : Nat) = 41 then _ else _)
    rw [if_neg hneg]
    show InvZ (if (35 : Nat) = 35 then _ else _)
    rw [if_pos rfl]
    show InvZ (if c2 = 56 then _ else _)
    rw [if_neg hn56]
    exact ih (invZ_of_invFields (by simp [InvFields]) h)
  | case8 t c rest hps t1 hn1 hn2 ih =>
    intro h
    rw [terminal_handle_input]
    nth_rewrite 1 [hps]
    show InvZ (if c = 40 ∨ c = 41 then _ else _)
    rw [if_neg hn1]
    show InvZ (if c = 35 then _ else _)
    rw [if_neg hn2]
    exact ih (escapeSimple_invZ (invZ_of_invFields (by simp [InvFields]) h) c)
  | case9 t c rest hps ih =>
    intro h
    rw [terminal_handle_input, hps]
    exact ih (oscByte_invZ h c)
  | case10 t c rest hps ih =>
    intro h
    rw [terminal_handle_input, hps]
    exact ih (dcsByte_invZ h c)
  | case11 t c rest hps ih =>
    intro h
    rw [terminal_handle_input, hps]
    exact ih (csiByte_invZ h c)

/-- The state built by `terminal_create` satisfies the invariant. -/
theorem terminal_create_inv {cols rows scrollback : Int} {colors : Nat → Color}
    {dfg dbg cc : Color} (h1 : 1 ≤ cols) (h2 : 1 ≤ rows) (h3 : 0 ≤ scrollback)
    (h4 : cols < 2 ^ 31) (h5 : rows < 2 ^ 31) :
    Inv (terminal_create cols rows scrollback colors dfg dbg cc) := by
  refine terminal_reset_inv ?_
  exact
    { cols_pos := h1
      cols_lt := h4
      rows_pos := h2
      rows_lt := h5
      sb_nonneg := h3
      cx_lb := int31_lb_zero
      cx_le := le_trans zero_le_one h1
      cy_lb := int31_lb_zero
      cy_ub := int31_ub_zero
      sx_lb := int31_lb_zero
      sx_le := le_trans zero_le_one h1
      sy_lb := int31_lb_zero
      sy_ub := int31_ub_zero
      nx_lb := int31_lb_zero
      nx_le := le_trans zero_le_one h1
      ny_lb := int31_lb_zero
      ny_ub := int31_ub_zero
      st_pos := le_refl 1
      st_le := h2
      sb_le_rows := le_refl rows
      view_nonneg := le_refl 0
      view_le := le_refl 0
      hist_le := h3
      alt_view := fun _ => rfl
      params_lb := fun _ => int31_lb_zero
      params_ub := fun _ => int31_ub_zero
      csi_count_le := Nat.zero_le 16
      inter_le := Nat.zero_le 3
      osc_le := Nat.zero_le 255
      resp_le := Nat.zero_le 64 }

theorem terminal_scroll_view_inv {t : Terminal} (h : Inv t) (a : Int) :
    Inv (terminal_scroll_view t a) := by
  unfold terminal_scroll_view
  split
  · exact h
  · rename_i hcond
    split
    · refine { h with view_nonneg := ?_, view_le := ?_, alt_view := ?_ }
      · show (0 : Int) ≤ max 0 (min t.history_size (t.view_offset + a))
        omega
      · show max 0 (min t.history_size (t.view_offset + a)) ≤ t.history_size
        have := h.view_le
        have := h.view_nonneg
        omega
      · intro hc
        exact absurd (Or.inl hc) hcond
    · refine { h with view_nonneg := ?_, view_le := ?_, alt_view := ?_ }
      · show (0 : Int) ≤ max 0 (min t.history_size (t.view_offset + a))
        omega
      · show max 0 (min t.history_size (t.view_offset + a)) ≤ t.history_size
        have := h.view_le
        have := h.view_nonneg
        omega
      · intro hc
        exact absurd (Or.inl hc) hcond

theorem terminal_clear_visible_screen_inv {t : Terminal} (h : Inv t) :
    Inv (terminal_clear_visible_screen t) :=
  inv_of_invFields (terminal_clear_visible_screen_invFields t) h

theorem applyAction_inv {t : Terminal} (h : Inv t) (a : UserAction) :
    Inv (applyAction t a) := by
  cases a with
  | scrollView n => exact terminal_scroll_view_inv h n
  | resetCmd => exact terminal_reset_inv h
  | clearCmd => exact terminal_clear_visible_screen_inv h

theorem inv_zero_view {t : Terminal} (h : Inv t) : InvZ { t with view_offset := 0 } :=
  ⟨{ h with
      view_nonneg := le_refl 0
      view_le := le_trans h.view_nonneg h.view_le
      alt_view := fun _ => rfl }, rfl⟩

/-- Every state the event loop can reach is well-formed. -/
theorem reach_inv {t : Terminal} (h : Reach t) : Inv t := by
  induction h with
  | init cols rows scrollback colors dfg dbg cc h1 h2 h3 h4 h5 =>
    exact terminal_create_inv h1 h2 h3 h4 h5
  | pty t bytes _ ih =>
    exact (terminal_handle_input_invZ _ bytes (inv_zero_view ih)).1
  | act t a _ ih => exact applyAction_inv ih a
  | flush t _ ih => exact { ih with resp_le := Nat.zero_le 64 }



/-! ## The claims -/

/-- The C1 scenario: `abcdef` into a fresh 5-by-2 terminal with 10 lines of
scrollback (the event loop zeroes the viewport before each read). -/
def c1Mid : Terminal :=
  terminal_handle_input { (freshTerminal 5 2 10) with view_offset := 0 }
    [97, 98, 99, 100, 101, 102]

/-- The C1 scenario one LF later. -/
def c1AfterLf : Terminal := terminal_handle_input { c1Mid with view_offset := 0 } [10]

/-- The C1 scenario after the full `\n1\n2` tail. -/
def c1End : Terminal := terminal_handle_input { c1Mid with view_offset := 0 } [10, 49, 10, 50]

/-- **C1** (amended): after `abcdef` the screen is `abcde` / `f    ` with the
cursor at column 1 of row 1 and an empty history; the screen scrolls at the
*first* LF of `\n1\n2` (history 1, newest entry `abcde`), and after the full
four bytes the history holds two lines, the newest being `f    ` and the
second-newest `abcde`. -/
theorem C1_autowrap_scrollback :
    viewRowChars c1Mid 0 = [97, 98, 99, 100, 101] ∧
    viewRowChars c1Mid 1 = [102, 32, 32, 32, 32] ∧
    c1Mid.cursor_x = 1 ∧ c1Mid.cursor_y = 1 ∧ c1Mid.history_size = 0 ∧
    c1AfterLf.history_size = 1 ∧
    historyRowChars c1AfterLf 1 = [97, 98, 99, 100, 101] ∧
    c1End.history_size = 2 ∧
    historyRowChars c1End 1 = [102, 32, 32, 32, 32] ∧
    historyRowChars c1End 2 = [97, 98, 99, 100, 101] := by
  decide

/-- **C1** counterexample to the claimed ending: after `\n1\n2` the history
does not hold one line with `abcde` newest — it holds two lines and the
newest is `f    ` (the scroll already happened at the first LF). -/
theorem C1_counterexample :
    ¬ (c1End.history_size = 1 ∧ historyRowChars c1End 1 = [97, 98, 99, 100, 101]) := by
  decide

/-- The cursor-bounds sentence fails in the column: after printing `a` on a
1-by-1 screen the cursor column equals `cols` (the pending-wrap position),
so `cursor_x < cols` fails on a reachable state. -/
theorem cursor_x_bound_violated : ∃ t : Terminal, Reach t ∧ ¬ (t.cursor_x < t.cols) := by
  refine ⟨terminal_handle_input { (freshTerminal 1 1 0) with view_offset := 0 } [97],
    Reach.pty _ _ ?_, by decide⟩
  exact Reach.init 1 1 0 defaultPalette (defaultPalette 2) (defaultPalette 0)
    (defaultPalette 2) (le_refl 1) (le_refl 1) (le_refl 0) (by norm_num) (by norm_num)

set_option maxRecDepth 4000 in
/-- The cursor-bounds sentence fails in the row as well: feeding
`ESC [ 4294967295 A` wraps the ten-digit parameter to `-1` in the C `int`
accumulator, so the unclamped "cursor up" moves the cursor *down* past the
bottom row — `cursor_y = rows` on a reachable state. -/
theorem cursor_y_bound_violated : ∃ t : Terminal, Reach t ∧ ¬ (t.cursor_y < t.rows) := by
  refine ⟨terminal_handle_input { (freshTerminal 1 1 0) with view_offset := 0 }
      [27, 91, 52, 50, 57, 52, 57, 54, 55, 50, 57, 53, 65],
    Reach.pty _ _ ?_, by decide⟩
  exact Reach.init 1 1 0 defaultPalette (defaultPalette 2) (defaultPalette 0)
    (defaultPalette 2) (le_refl 1) (le_refl 1) (le_refl 0) (by norm_num) (by norm_num)

/-- **C3**: on every reachable state
`view_offset ≤ history_size ≤ scrollback`, and the viewport offset is 0
whenever the alternate screen is active. -/
theorem C3_view_offset_invariant {t : Terminal} (h : Reach t) :
    t.view_offset ≤ t.history_size ∧ t.history_size ≤ t.scrollback ∧
    (t.alt_screen_active = true → t.view_offset = 0) :=
  ⟨(reach_inv h).view_le, (reach_inv h).hist_le, (reach_inv h).alt_view⟩

/-- The C3 scenario: scroll a line into history, scroll the view back, then
enter the alternate screen via `CSI ? 1049 h` on the next PTY read. -/
def c3State : Terminal :=
  terminal_handle_input
    { (applyAction
        (terminal_handle_input { (freshTerminal 2 2 5) with view_offset := 0 } [97, 10, 10])
        (UserAction.scrollView 1)) with view_offset := 0 }
    [27, 91, 63, 49, 48, 52, 57, 104]

/-- Witness for C3: the invariant at the scrolled-back-then-1049 state. -/
theorem C3_view_offset_invariant_witness :
    c3State.view_offset ≤ c3State.history_size ∧
    c3State.history_size ≤ c3State.scrollback ∧
    (c3State.alt_screen_active = true → c3State.view_offset = 0) :=
  C3_view_offset_invariant
    (Reach.pty _ _ (Reach.act _ (UserAction.scrollView 1) (Reach.pty _ _
      (Reach.init 2 2 5 defaultPalette (defaultPalette 2) (defaultPalette 0)
        (defaultPalette 2) (by norm_num) (by norm_num) (by norm_num) (by norm_num)
        (by norm_num)))))

/-- **C9**: the parser is a total function of the byte list (it is defined by
structural recursion here, mirroring the single-pass loop with its one
pushback inlined), and on every reachable state no parser buffer exceeds its
declared bound: at most 16 CSI parameters, at most 3 intermediate bytes, at
most 255 accumulated OSC bytes, at most 64 response bytes. -/
theorem C9_parser_buffer_bounds {t : Terminal} (h : Reach t) :
    t.csi_param_count ≤ 16 ∧ t.csi_intermediate_chars.length ≤ 3 ∧
    t.osc_buffer.length ≤ 255 ∧ t.response_buffer.length ≤ 64 :=
  ⟨(reach_inv h).csi_count_le, (reach_inv h).inter_le, (reach_inv h).osc_le,
    (reach_inv h).resp_le⟩

/-- A CSI flooded with digits and parameter separators. -/
def c9State : Terminal :=
  terminal_handle_input { (freshTerminal 4 2 3) with view_offset := 0 }
    ([27, 91] ++ List.replicate 40 49 ++ List.replicate 40 59 ++ [109])

/-- Witness for C9: the buffer bounds after a flooded CSI sequence. -/
theorem C9_parser_buffer_bounds_witness :
    c9State.csi_param_count ≤ 16 ∧ c9State.csi_intermediate_chars.length ≤ 3 ∧
    c9State.osc_buffer.length ≤ 255 ∧ c9State.response_buffer.length ≤ 64 :=
  C9_parser_buffer_bounds (Reach.pty _ _
    (Reach.init 4 2 3 defaultPalette (defaultPalette 2) (defaultPalette 0)
      (defaultPalette 2) (by norm_num) (by norm_num) (by norm_num) (by norm_num)
      (by norm_num)))

/-- **C10**: a `CSI c`, `CSI 6 n` or `CSI 18 t` query writes its report only
into an empty response buffer; with a response still pending the query leaves
the terminal exactly unchanged. -/
theorem C10_report_suppression (t : Terminal) :
    (t.response_buffer.length ≠ 0 → csi_c t = t ∧ csi_n t = t ∧ csi_t t = t) ∧
    (t.response_buffer.length = 0 → t.csi_params 0 = 0 →
      (csi_c t).response_buffer = [27, 91, 63, 49, 59, 50, 99]) ∧
    (t.response_buffer.length = 0 → t.csi_params 0 = 6 →
      (csi_n t).response_buffer =
        [27, 91] ++ decimalBytes (t.cursor_y + 1) ++ [59] ++
          decimalBytes (t.cursor_x + 1) ++ [82]) ∧
    (t.response_buffer.length = 0 → t.csi_params 0 = 18 →
      (csi_t t).response_buffer =
        [27, 91, 56, 59] ++ decimalBytes t.rows ++ [59] ++ decimalBytes t.cols ++ [116]) := by
  refine ⟨fun hne => ⟨?_, ?_, ?_⟩, fun hz hp => ?_, fun hz hp => ?_, fun hz hp => ?_⟩
  · unfold csi_c
    rw [if_neg (fun hc => hne hc.2)]
  · unfold csi_n
    rw [if_neg (fun hc => hne hc.2)]
  · unfold csi_t
    rw [if_neg (fun hc => hne hc.2)]
  · unfold csi_c
    rw [if_pos ⟨hp, hz⟩]
  · unfold csi_n
    rw [if_pos ⟨hp, hz⟩]
  · unfold csi_t
    rw [if_pos ⟨hp, hz⟩]



/-- The terminal after `CSI ? 1 h` (application cursor keys set). -/
def c6On : Terminal :=
  terminal_handle_input { (freshTerminal 4 2 0) with view_offset := 0 } [27, 91, 63, 49, 104]

/-- The same terminal after a further `CSI ? 1 l`. -/
def c6Off : Terminal :=
  terminal_handle_input { c6On with view_offset := 0 } [27, 91, 63, 49, 108]

/-- **C6**: after `CSI ? 1 h` the encoder sends `ESC O A` for the unmodified
Up key; after `CSI ? 1 l` it sends `ESC [ A`. -/
theorem C6_application_cursor_mode :
    c6On.application_cursor_keys_mode = true ∧
    send_key_event SDLK_UP KMOD_NONE c6On.application_cursor_keys_mode = [27, 79, 65] ∧
    c6Off.application_cursor_keys_mode = false ∧
    send_key_event SDLK_UP KMOD_NONE c6Off.application_cursor_keys_mode = [27, 91, 65] := by
  decide

/-- The per-modifier exclusion discipline as the claim words it: each held
modifier whose own layer bit names a populated layer is dropped; every other
held modifier propagates; one-shot modifiers always propagate. -/
def claimedPerModifierMask (osk : Osk) : Nat :=
  ((if osk.mod_shift then KMOD_SHIFT else 0) |||
   (if osk.mod_ctrl then KMOD_CTRL else 0) |||
   (if osk.mod_alt then KMOD_ALT else 0) |||
   (if osk.mod_gui then KMOD_GUI else 0)) |||
  (if osk.held_shift ∧ ¬ osk.charLayerPresent OSK_MOD_SHIFT = true then KMOD_SHIFT else 0) |||
  (if osk.held_ctrl ∧ ¬ osk.charLayerPresent OSK_MOD_CTRL = true then KMOD_CTRL else 0) |||
  (if osk.held_alt ∧ ¬ osk.charLayerPresent OSK_MOD_ALT = true then KMOD_ALT else 0) |||
  (if osk.held_gui ∧ ¬ osk.charLayerPresent OSK_MOD_GUI = true then KMOD_GUI else 0)

/-- Shift and Ctrl held with only a `Shift` layer populated. -/
def c7Osk : Osk where
  mod_ctrl := false
  mod_alt := false
  mod_shift := false
  mod_gui := false
  held_ctrl := true
  held_shift := true
  held_alt := false
  held_gui := false
  charLayerPresent := fun m => m == OSK_MOD_SHIFT

/-- **C7** counterexample: with Shift and Ctrl both held and only a `Shift`
layer populated, the code keeps *both* held modifiers (the combined chord
`Shift+Ctrl` names no layer), where the claimed per-modifier discipline
would drop Shift and keep only Ctrl. -/
theorem C7_counterexample :
    get_effective_send_modifiers c7Osk = 195 ∧ claimedPerModifierMask c7Osk = 192 ∧
    get_effective_send_modifiers c7Osk ≠ claimedPerModifierMask c7Osk := by
  decide

/-- **C7** (amended): the held modifiers are excluded all-or-nothing — they
are all dropped exactly when the *combined* held chord names a populated
layer, and all kept otherwise; one-shot modifiers always propagate.  When at
most one modifier is held this coincides with the claimed per-modifier
discipline. -/
theorem C7_layer_switch_modifiers (osk : Osk)
    (h : (if osk.held_shift then 1 else 0) + (if osk.held_ctrl then 1 else 0) +
      (if osk.held_alt then 1 else 0) + (if osk.held_gui then 1 else 0) ≤ 1) :
    get_effective_send_modifiers osk = claimedPerModifierMask osk := by
  rcases osk with ⟨mc, ma, ms, mg, hc, hs, ha, hg, layer⟩
  cases hc <;> cases hs <;> cases ha <;> cases hg <;> simp_all <;>
    by_cases h1 : layer 1 = true <;> by_cases h2 : layer 2 = true <;>
      by_cases h4 : layer 4 = true <;> by_cases h8 : layer 8 = true <;>
        simp [get_effective_send_modifiers, claimedPerModifierMask,
          get_physical_modifier_mask, OSK_MOD_SHIFT, OSK_MOD_CTRL, OSK_MOD_ALT,
          OSK_MOD_GUI, Nat.or_zero, h1, h2, h4, h8]

/-- Only Shift held, one-shot Ctrl set, `Shift` layer populated. -/
def c7Single : Osk where
  mod_ctrl := true
  mod_alt := false
  mod_shift := false
  mod_gui := false
  held_ctrl := false
  held_shift := true
  held_alt := false
  held_gui := false
  charLayerPresent := fun m => m == OSK_MOD_SHIFT

/-- Witness for C7: with a single held modifier the code and the claimed
discipline agree (here both give plain Ctrl, 0xC0). -/
theorem C7_layer_switch_modifiers_witness :
    get_effective_send_modifiers c7Single = claimedPerModifierMask c7Single :=
  C7_layer_switch_modifiers c7Single (by decide)

/-- One-shot Ctrl set, nothing held, no layers populated. -/
def c8Osk : Osk := ⟨true, false, false, false, false, false, false, false, fun _ => false⟩

/-- The key descriptor of the C8 scenario: the macro `hi{ENTER}`. -/
def c8Key : SpecialKey :=
  { type := .skMacro
    sequence := some [104, 105, 123, 69, 78, 84, 69, 82, 125]
    keycode := 0
    mod := 0
    command := .none }

/-- **C8**: the macro `hi{ENTER}` with one-shot Ctrl set writes the text
`hi`, then a synthesized Return key event carrying `KMOD_CTRL`; afterwards
every one-shot modifier is cleared and the held modifiers are unchanged. -/
theorem C8_macro_emission :
    (osk_handle_key_selection
        c8Key c8Osk).1 =
      [Emission.text [104, 105], Emission.key SDLK_RETURN KMOD_CTRL] ∧
    (osk_handle_key_selection
        c8Key c8Osk).2.1.mod_ctrl
      = false ∧
    (osk_handle_key_selection
        c8Key c8Osk).2.1.mod_alt
      = false ∧
    (osk_handle_key_selection
        c8Key c8Osk).2.1.mod_shift
      = false ∧
    (osk_handle_key_selection
        c8Key c8Osk).2.1.mod_gui
      = false ∧
    (osk_handle_key_selection
        c8Key c8Osk).2.1.held_ctrl
      = c8Osk.held_ctrl ∧
    (osk_handle_key_selection
        c8Key c8Osk).2.1.held_shift
      = c8Osk.held_shift ∧
    (osk_handle_key_selection
        c8Key c8Osk).2.1.held_alt
      = c8Osk.held_alt ∧
    (osk_handle_key_selection
        c8Key c8Osk).2.1.held_gui
      = c8Osk.held_gui ∧
    (osk_handle_key_selection
        c8Key c8Osk).2.2
      = InternalCommand.none := by
  decide



/-- A reachable state on the alternate screen with an `x` written to it. -/
def c4Bad : Terminal :=
  terminal_handle_input { (freshTerminal 2 1 0) with view_offset := 0 }
    [27, 91, 63, 49, 48, 52, 57, 104, 120]

/-- **C4** counterexample: from a reachable alternate-screen state, `ESC c`
does not restore the displayed grid to the fresh content — the reset leaves
`alt_screen_active` and the alternate buffer alone, so the screen still
shows `x`. -/
theorem C4_counterexample :
    Reach c4Bad ∧
    viewRowChars (terminal_handle_input { c4Bad with view_offset := 0 } [27, 99]) 0 ≠
      viewRowChars (freshTerminal 2 1 0) 0 :=
  ⟨Reach.pty _ _ (Reach.init 2 1 0 defaultPalette (defaultPalette 2) (defaultPalette 0)
      (defaultPalette 2) (by norm_num) (by norm_num) (by norm_num) (by norm_num)
      (by norm_num)),
    by decide⟩

/-- `viewGlyph` over a constant normal grid with the normal screen active. -/
theorem viewGlyph_const {t : Terminal} {g : Glyph} (halt : t.alt_screen_active = false)
    (hgrid : t.grid = fun _ => g) (y x : Int) :
    viewGlyph t y x = if y < 0 ∨ y ≥ t.rows then ⟨0, ⟨0, 0, 0, 0⟩, ⟨0, 0, 0, 0⟩, 0⟩ else g := by
  unfold viewGlyph
  simp [halt, hgrid]

/-- `oscApplySpec` changes only the palette entries. -/
theorem oscApplySpec_frame (t : Terminal) (idx : Int) (spec : List Nat) :
    (oscApplySpec t idx spec).default_fg = t.default_fg ∧
    (oscApplySpec t idx spec).default_bg = t.default_bg ∧
    (oscApplySpec t idx spec).rows = t.rows ∧
    (oscApplySpec t idx spec).alt_screen_active = t.alt_screen_active := by
  unfold oscApplySpec
  split
  · exact ⟨rfl, rfl, rfl, rfl⟩
  · split
    · split
      · exact ⟨rfl, rfl, rfl, rfl⟩
      · exact ⟨rfl, rfl, rfl, rfl⟩
    · exact ⟨rfl, rfl, rfl, rfl⟩

/-- `handle_osc` changes only the palette entries. -/
theorem handle_osc_frame (t : Terminal) :
    (handle_osc t).default_fg = t.default_fg ∧
    (handle_osc t).default_bg = t.default_bg ∧
    (handle_osc t).rows = t.rows ∧
    (handle_osc t).alt_screen_active = t.alt_screen_active := by
  unfold handle_osc
  split
  · exact ⟨rfl, rfl, rfl, rfl⟩
  · split
    · exact ⟨rfl, rfl, rfl, rfl⟩
    · split
      · rename_i x idx rest spec heq
        split
        · exact ⟨rfl, rfl, rfl, rfl⟩
        · exact oscApplySpec_frame t idx spec
      · exact ⟨rfl, rfl, rfl, rfl⟩

/-- From `STATE_ESCAPE`, the byte `'c'` performs `terminal_reset`. -/
theorem thi_escape99 (t : Terminal) (h : t.parse_state = ParseState.escape) :
    terminal_handle_input t [99] = terminal_reset { t with utf8_bytes_to_read := 0 } := by
  rw [terminal_handle_input]
  nth_rewrite 1 [h]
  show terminal_handle_input
    (escapeSimple { t with utf8_bytes_to_read := 0 } 99) [] = _
  rw [terminal_handle_input]
  rfl

/-- `ESC c` reaches `terminal_reset` from *every* parser state: `ESC` routes
each state to `STATE_ESCAPE`, where `'c'` always resets.  The state the reset
is applied to keeps the palette defaults, the row count and the active-screen
flag of the input state (only the `STATE_OSC` route interposes `handle_osc`,
which touches nothing but palette entries). -/
theorem escC_reset (t : Terminal) :
    ∃ u : Terminal, terminal_handle_input t [27, 99] = terminal_reset u ∧
      u.default_fg = t.default_fg ∧ u.default_bg = t.default_bg ∧
      u.rows = t.rows ∧ u.alt_screen_active = t.alt_screen_active := by
  cases hps : t.parse_state with
  | normal =>
    refine ⟨t, ?_, rfl, rfl, rfl, rfl⟩
    rw [terminal_handle_input]
    nth_rewrite 1 [hps]
    show terminal_handle_input (normalCase t 27) [99] = _
    by_cases hutf : t.utf8_bytes_to_read > 0
    · have hnc : normalCase t 27 =
          { t with utf8_bytes_to_read := 0, parse_state := ParseState.escape } := by
        unfold normalCase
        rw [if_pos hutf, if_neg (by decide)]
        rfl
      rw [hnc, thi_escape99 _ rfl]
      rfl
    · have hnc : normalCase t 27 = { t with parse_state := ParseState.escape } := by
        unfold normalCase
        rw [if_neg hutf]
        rfl
      rw [hnc, thi_escape99 _ rfl]
      rfl
  | escape =>
    refine ⟨t, ?_, rfl, rfl, rfl, rfl⟩
    rw [terminal_handle_input]
    nth_rewrite 1 [hps]
    show terminal_handle_input
      (escapeSimple { t with utf8_bytes_to_read := 0 } 27) [99] = _
    show terminal_handle_input { t with utf8_bytes_to_read := 0 } [99] = _
    rw [thi_escape99 { t with utf8_bytes_to_read := 0 } hps]
    rfl
  | csi =>
    refine ⟨t, ?_, rfl, rfl, rfl, rfl⟩
    rw [terminal_handle_input]
    nth_rewrite 1 [hps]
    show terminal_handle_input (csiByte t 27) [99] = _
    have hcb : csiByte t 27 =
        { t with utf8_bytes_to_read := 0, parse_state := ParseState.escape } := rfl
    rw [hcb, thi_escape99 _ rfl]
    rfl
  | osc =>
    refine ⟨handle_osc { t with utf8_bytes_to_read := 0 }, ?_,
      (handle_osc_frame _).1, (handle_osc_frame _).2.1,
      (handle_osc_frame _).2.2.1, (handle_osc_frame _).2.2.2⟩
    rw [terminal_handle_input]
    nth_rewrite 1 [hps]
    show terminal_handle_input (oscByte t 27) [99] = _
    have hob : oscByte t 27 =
        { (handle_osc { t with utf8_bytes_to_read := 0 }) with
          parse_state := ParseState.escape } := rfl
    rw [hob, thi_escape99 _ rfl]
    rfl
  | dcs =>
    refine ⟨t, ?_, rfl, rfl, rfl, rfl⟩
    rw [terminal_handle_input]
    nth_rewrite 1 [hps]
    show terminal_handle_input (dcsByte t 27) [99] = _
    have hdb : dcsByte t 27 = { t with parse_state := ParseState.escape } := rfl
    rw [hdb, thi_escape99 _ rfl]
    rfl

/-- **C4** (amended): with the *normal* screen active, `ESC c` — from any
parser state, with or without a pending UTF-8 sequence — resets the
displayed grid, cursor, attributes, modes, charsets, `top_line`,
`view_offset` and `history_size` to the values of a freshly constructed
terminal with the same row count and the built-in palette; on the alternate
screen the round trip fails (see the counterexample). -/
theorem C4_reset_round_trip (t f : Terminal) (cols rows scrollback : Int)
    (hca : t.alt_screen_active = false)
    (hr : t.rows = rows)
    (hfg : t.default_fg = defaultPalette 2) (hbg : t.default_bg = defaultPalette 0)
    (hf : f = freshTerminal cols rows scrollback) :
    (∀ y x, viewGlyph (terminal_handle_input t [27, 99]) y x = viewGlyph f y x) ∧
    (terminal_handle_input t [27, 99]).cursor_x = f.cursor_x ∧
    (terminal_handle_input t [27, 99]).cursor_y = f.cursor_y ∧
    (terminal_handle_input t [27, 99]).current_attributes = f.current_attributes ∧
    (terminal_handle_input t [27, 99]).current_fg = f.current_fg ∧
    (terminal_handle_input t [27, 99]).current_bg = f.current_bg ∧
    (terminal_handle_input t [27, 99]).insert_mode = f.insert_mode ∧
    (terminal_handle_input t [27, 99]).origin_mode = f.origin_mode ∧
    (terminal_handle_input t [27, 99]).autowrap_mode = f.autowrap_mode ∧
    (terminal_handle_input t [27, 99]).application_cursor_keys_mode =
      f.application_cursor_keys_mode ∧
    (terminal_handle_input t [27, 99]).application_keypad_mode = f.application_keypad_mode ∧
    (terminal_handle_input t [27, 99]).charset_g0 = f.charset_g0 ∧
    (terminal_handle_input t [27, 99]).charset_g1 = f.charset_g1 ∧
    (terminal_handle_input t [27, 99]).active_charset = f.active_charset ∧
    (terminal_handle_input t [27, 99]).top_line = f.top_line ∧
    (terminal_handle_input t [27, 99]).view_offset = f.view_offset ∧
    (terminal_handle_input t [27, 99]).history_size = f.history_size ∧
    (terminal_handle_input t [27, 99]).parse_state = f.parse_state := by
  obtain ⟨u, hred, hufg, hubg, hurows, hualt⟩ := escC_reset t
  subst hf
  rw [hred]
  have hgr : (terminal_reset u).grid =
      fun _ => (⟨32, defaultPalette 2, defaultPalette 0, 0⟩ : Glyph) := by
    show (fun _ => (⟨32, u.default_fg, u.default_bg, 0⟩ : Glyph)) = _
    rw [hufg, hfg, hubg, hbg]
  have hgf : (freshTerminal cols rows scrollback).grid =
      fun _ => (⟨32, defaultPalette 2, defaultPalette 0, 0⟩ : Glyph) := rfl
  refine ⟨?_, rfl, rfl, rfl, hufg.trans hfg, hubg.trans hbg, rfl, rfl, rfl, rfl, rfl, rfl,
    rfl, rfl, rfl, rfl, rfl, rfl⟩
  intro y x
  rw [viewGlyph_const
      (show (terminal_reset u).alt_screen_active = false from hualt.trans hca) hgr y x,
    viewGlyph_const rfl hgf y x]
  have hrows : (terminal_reset u).rows =
      (freshTerminal cols rows scrollback).rows := hurows.trans hr
  rw [hrows]

/-- Witness for C4: the round trip at a concrete fresh 3-by-2 terminal. -/
theorem C4_reset_round_trip_witness :
    (∀ y x, viewGlyph (terminal_handle_input (freshTerminal 3 2 1) [27, 99]) y x =
      viewGlyph (freshTerminal 3 2 1) y x) ∧
    (terminal_handle_input (freshTerminal 3 2 1) [27, 99]).cursor_x =
      (freshTerminal 3 2 1).cursor_x ∧
    (terminal_handle_input (freshTerminal 3 2 1) [27, 99]).cursor_y =
      (freshTerminal 3 2 1).cursor_y ∧
    (terminal_handle_input (freshTerminal 3 2 1) [27, 99]).current_attributes =
      (freshTerminal 3 2 1).current_attributes ∧
    (terminal_handle_input (freshTerminal 3 2 1) [27, 99]).current_fg =
      (freshTerminal 3 2 1).current_fg ∧
    (terminal_handle_input (freshTerminal 3 2 1) [27, 99]).current_bg =
      (freshTerminal 3 2 1).current_bg ∧
    (terminal_handle_input (freshTerminal 3 2 1) [27, 99]).insert_mode =
      (freshTerminal 3 2 1).insert_mode ∧
    (terminal_handle_input (freshTerminal 3 2 1) [27, 99]).origin_mode =
      (freshTerminal 3 2 1).origin_mode ∧
    (terminal_handle_input (freshTerminal 3 2 1) [27, 99]).autowrap_mode =
      (freshTerminal 3 2 1).autowrap_mode ∧
    (terminal_handle_input (freshTerminal 3 2 1) [27, 99]).application_cursor_keys_mode =
      (freshTerminal 3 2 1).application_cursor_keys_mode ∧
    (terminal_handle_input (freshTerminal 3 2 1) [27, 99]).application_keypad_mode =
      (freshTerminal 3 2 1).application_keypad_mode ∧
    (terminal_handle_input (freshTerminal 3 2 1) [27, 99]).charset_g0 =
      (freshTerminal 3 2 1).charset_g0 ∧
    (terminal_handle_input (freshTerminal 3 2 1) [27, 99]).charset_g1 =
      (freshTerminal 3 2 1).charset_g1 ∧
    (terminal_handle_input (freshTerminal 3 2 1) [27, 99]).active_charset =
      (freshTerminal 3 2 1).active_charset ∧
    (terminal_handle_input (freshTerminal 3 2 1) [27, 99]).top_line =
      (freshTerminal 3 2 1).top_line ∧
    (terminal_handle_input (freshTerminal 3 2 1) [27, 99]).view_offset =
      (freshTerminal 3 2 1).view_offset ∧
    (terminal_handle_input (freshTerminal 3 2 1) [27, 99]).history_size =
      (freshTerminal 3 2 1).history_size ∧
    (terminal_handle_input (freshTerminal 3 2 1) [27, 99]).parse_state =
      (freshTerminal 3 2 1).parse_state :=
  C4_reset_round_trip (freshTerminal 3 2 1) (freshTerminal 3 2 1) 3 2 1 rfl rfl rfl rfl
    rfl



/-! ### The alternate-screen frame property (for C5) -/

/-- While the alternate screen is active, the normal-screen saved cursor
holds the position saved at entry. -/
structure altSaved (a b : Int) (t : Terminal) : Prop where
  alt : t.alt_screen_active = true
  nx : t.normal_saved_cursor_x = a
  ny : t.normal_saved_cursor_y = b

theorem invFields_altSaved {a b : Int} {t t' : Terminal} (hf : InvFields t t')
    (h : altSaved a b t) : altSaved a b t' := by
  obtain ⟨e1, e2, e3, e4, e5, e6, e7, e8, e9, e10, e11, e12, e13, e14, e15, e16, e17, e18,
    e19⟩ := hf
  exact ⟨e14.trans h.alt, e8.trans h.nx, e9.trans h.ny⟩

theorem altSaved_cast {a b : Int} {t u : Terminal} (h : altSaved a b t)
    (halt : u.alt_screen_active = t.alt_screen_active)
    (hx : u.normal_saved_cursor_x = t.normal_saved_cursor_x)
    (hy : u.normal_saved_cursor_y = t.normal_saved_cursor_y) : altSaved a b u :=
  ⟨halt.trans h.alt, hx.trans h.nx, hy.trans h.ny⟩

theorem terminal_scroll_up_altS {a b : Int} {t : Terminal} (h : altSaved a b t) :
    altSaved a b (terminal_scroll_up t) := by
  unfold terminal_scroll_up
  split
  · split
    · exact h
    · rename_i g hg
      have h1 : InvFields t
          { t with alt_grid := some (altShiftRows g t.cols 0 1 (t.rows - 1)) } := by
        simp [InvFields]
      exact invFields_altSaved (invFields_trans h1 (terminal_clear_line_invFields _ _ _)) h
  · have h1 : altSaved a b { t with
        top_line := Int.tmod (t.top_line + 1) t.total_lines,
        history_size := if t.history_size < t.scrollback then t.history_size + 1
          else t.history_size,
        full_redraw_needed := true } := (altSaved_cast h rfl rfl rfl)
    exact invFields_altSaved
      (invFields_trans (terminal_mark_lines_dirty_invFields _ _ _)
        (terminal_clear_line_invFields _ _ _)) h1

theorem terminal_newline_altS {a b : Int} {t : Terminal} (h : altSaved a b t) :
    altSaved a b (terminal_newline t) := by
  unfold terminal_newline
  split
  · split
    · refine terminal_scroll_up_altS ?_
      exact altSaved_cast h rfl rfl rfl
    · refine invFields_altSaved (terminal_scroll_region_invFields _ _ _ _) ?_
      exact altSaved_cast h rfl rfl rfl
  · exact (altSaved_cast h rfl rfl rfl)

theorem altSaved_advance {a b : Int} {t : Terminal} (h : altSaved a b t) :
    altSaved a b (if t.cursor_x < t.cols then { t with cursor_x := t.cursor_x + 1 } else t) := by
  split
  · exact (altSaved_cast h rfl rfl rfl)
  · exact h

theorem putCharCore_altS {a b : Int} {t : Terminal} (h : altSaved a b t) (c : Nat) :
    altSaved a b (putCharCore t c) := by
  have s : altSaved a b (if t.insert_mode then terminal_insert_chars t 1 else t) := by
    split
    · exact invFields_altSaved (terminal_insert_chars_invFields _ 1) h
    · exact h
  exact altSaved_advance (invFields_altSaved (dirtyRaw_invFields _ _)
    (invFields_altSaved (writeActiveCell_invFields _ _ _ _) s))

theorem terminal_put_char_altS {a b : Int} {t : Terminal} (h : altSaved a b t) (c : Nat) :
    altSaved a b (terminal_put_char t c) := by
  unfold terminal_put_char
  refine putCharCore_altS ?_ c
  split
  · refine terminal_newline_altS ?_
    exact altSaved_cast h rfl rfl rfl
  · exact h

theorem reverseIndex_altS {a b : Int} {t : Terminal} (h : altSaved a b t) :
    altSaved a b (reverseIndex t) := by
  unfold reverseIndex
  split
  · refine invFields_altSaved (terminal_scroll_region_invFields _ _ _ _) ?_
    exact altSaved_cast h rfl rfl rfl
  · exact (altSaved_cast h rfl rfl rfl)

theorem designateCharset_altS {a b : Int} {t : Terminal} (h : altSaved a b t) (c c2 : Nat) :
    altSaved a b (designateCharset t c c2) := by
  unfold designateCharset
  split
  · split
    · exact (altSaved_cast h rfl rfl rfl)
    · exact (altSaved_cast h rfl rfl rfl)
  · exact h

theorem escapeSimple_altS {a b : Int} {t : Terminal} (h : altSaved a b t) (c : Nat) :
    altSaved a b (escapeSimple t c) := by
  rw [escapeSimple]
  by_cases he0 : c = 27
  · rw [if_pos he0]
    exact h
  rw [if_neg he0]
  by_cases he1 : c = 91
  · rw [if_pos he1]
    exact (altSaved_cast h rfl rfl rfl)
  rw [if_neg he1]
  by_cases he2 : c = 55
  · rw [if_pos he2]
    exact (altSaved_cast h rfl rfl rfl)
  rw [if_neg he2]
  by_cases he3 : c = 56
  · rw [if_pos he3]
    exact (altSaved_cast h rfl rfl rfl)
  rw [if_neg he3]
  by_cases he4 : c = 80
  · rw [if_pos he4]
    exact (altSaved_cast h rfl rfl rfl)
  rw [if_neg he4]
  by_cases he5 : c = 92
  · rw [if_pos he5]
    exact (altSaved_cast h rfl rfl rfl)
  rw [if_neg he5]
  by_cases he6 : c = 60
  · rw [if_pos he6]
    exact (altSaved_cast h rfl rfl rfl)
  rw [if_neg he6]
  by_cases he7 : c = 93
  · rw [if_pos he7]
    exact (altSaved_cast h rfl rfl rfl)
  rw [if_neg he7]
  by_cases he8 : c = 68
  · rw [if_pos he8]
    have hn := terminal_newline_altS h
    exact (altSaved_cast hn rfl rfl rfl)
  rw [if_neg he8]
  by_cases he9 : c = 77
  · rw [if_pos he9]
    have hn := reverseIndex_altS h
    exact (altSaved_cast hn rfl rfl rfl)
  rw [if_neg he9]
  by_cases he10 : c = 61
  · rw [if_pos he10]
    exact (altSaved_cast h rfl rfl rfl)
  rw [if_neg he10]
  by_cases he11 : c = 62
  · rw [if_pos he11]
    exact (altSaved_cast h rfl rfl rfl)
  rw [if_neg he11]
  by_cases he12 : c = 99
  · rw [if_pos he12]
    exact (altSaved_cast h rfl rfl rfl)
  rw [if_neg he12]
  exact (altSaved_cast h rfl rfl rfl)

theorem oscByte_altS {a b : Int} {t : Terminal} (h : altSaved a b t) (c : Nat) :
    altSaved a b (oscByte t c) := by
  have h0 : altSaved a b (handle_osc { t with utf8_bytes_to_read := 0 }) :=
    invFields_altSaved (handle_osc_invFields _) (altSaved_cast h rfl rfl rfl)
  unfold oscByte
  split
  · exact (altSaved_cast h0 rfl rfl rfl)
  split
  · exact (altSaved_cast h0 rfl rfl rfl)
  split
  · split
    · exact (altSaved_cast h rfl rfl rfl)
    · exact (altSaved_cast h rfl rfl rfl)
  exact (altSaved_cast h rfl rfl rfl)

theorem dcsByte_altS {a b : Int} {t : Terminal} (h : altSaved a b t) (c : Nat) :
    altSaved a b (dcsByte t c) := by
  unfold dcsByte
  split
  · exact (altSaved_cast h rfl rfl rfl)
  · exact h

theorem csiCollectDigit_altS {a b : Int} {t : Terminal} (h : altSaved a b t) (c : Nat) :
    altSaved a b (csiCollectDigit t c) := by
  unfold csiCollectDigit
  split
  · exact (altSaved_cast h rfl rfl rfl)
  split
  · exact (altSaved_cast h rfl rfl rfl)
  exact h

theorem csiCollectSemicolon_altS {a b : Int} {t : Terminal} (h : altSaved a b t) :
    altSaved a b (csiCollectSemicolon t) := by
  unfold csiCollectSemicolon
  split
  · exact (altSaved_cast h rfl rfl rfl)
  split
  · exact (altSaved_cast h rfl rfl rfl)
  exact h

theorem handleC0OrPrint_altS {a b : Int} {t : Terminal} (h : altSaved a b t) (c : Nat) :
    altSaved a b (handleC0OrPrint t c) := by
  unfold handleC0OrPrint
  split
  · exact (altSaved_cast h rfl rfl rfl)
  split
  · exact (altSaved_cast h rfl rfl rfl)
  split
  · exact (altSaved_cast h rfl rfl rfl)
  split
  · exact terminal_newline_altS h
  split
  · exact (altSaved_cast h rfl rfl rfl)
  split
  · exact (altSaved_cast h rfl rfl rfl)
  split
  · split
    · refine terminal_newline_altS ?_
      exact altSaved_cast h rfl rfl rfl
    · exact (altSaved_cast h rfl rfl rfl)
  split
  · exact terminal_put_char_altS h c
  exact h

theorem normalByteNoPending_altS {a b : Int} {t : Terminal} (h : altSaved a b t) (c : Nat) :
    altSaved a b (normalByteNoPending t c) := by
  unfold normalByteNoPending
  split
  · exact handleC0OrPrint_altS h c
  split
  · exact (altSaved_cast h rfl rfl rfl)
  split
  · exact (altSaved_cast h rfl rfl rfl)
  split
  · exact (altSaved_cast h rfl rfl rfl)
  exact h

set_option maxHeartbeats 1000000 in
theorem normalCase_altS {a b : Int} {t : Terminal} (h : altSaved a b t) (c : Nat) :
    altSaved a b (normalCase t c) := by
  unfold normalCase
  split
  · split
    · split
      · refine terminal_put_char_altS ?_ _
        exact altSaved_cast h rfl rfl rfl
      · exact (altSaved_cast h rfl rfl rfl)
    · refine normalByteNoPending_altS ?_ c
      exact altSaved_cast h rfl rfl rfl
  · exact normalByteNoPending_altS h c

theorem screenAlignFill_altS {a b : Int} {t : Terminal} (h : altSaved a b t) :
    altSaved a b (screenAlignFill t) :=
  invFields_altSaved (screenAlignFill_invFields t) h

theorem csiHPrivateOne_altS {a b : Int} {t : Terminal} (h : altSaved a b t) (p : Int) :
    altSaved a b (csiHPrivateOne t p) := by
  have s1 : ∀ u : Terminal, altSaved a b u →
      altSaved a b (if p = 1 then { u with application_cursor_keys_mode := true } else u) := by
    intro u hu
    split
    · exact (altSaved_cast hu rfl rfl rfl)
    · exact hu
  have s6 : ∀ u : Terminal, altSaved a b u →
      altSaved a b (if p = 6 then
          { u with origin_mode := true, cursor_x := 0, cursor_y := u.scroll_top - 1 }
        else u) := by
    intro u hu
    split
    · exact (altSaved_cast hu rfl rfl rfl)
    · exact hu
  have s7 : ∀ u : Terminal, altSaved a b u →
      altSaved a b (if p = 7 then { u with autowrap_mode := true } else u) := by
    intro u hu
    split
    · exact (altSaved_cast hu rfl rfl rfl)
    · exact hu
  have s66 : ∀ u : Terminal, altSaved a b u →
      altSaved a b (if p = 66 then { u with application_keypad_mode := true } else u) := by
    intro u hu
    split
    · exact (altSaved_cast hu rfl rfl rfl)
    · exact hu
  have s25 : ∀ u : Terminal, altSaved a b u →
      altSaved a b (if p = 25 then { u with cursor_visible := true } else u) := by
    intro u hu
    split
    · exact (altSaved_cast hu rfl rfl rfl)
    · exact hu
  have s49 : ∀ u : Terminal, altSaved a b u →
      altSaved a b (if p = 1049 then (if ¬ u.alt_screen_active then enter_alt_screen u else u)
        else u) := by
    intro u hu
    split
    · rw [if_neg (not_not_intro hu.alt)]
      exact hu
    · exact hu
  exact s49 _ (s25 _ (s66 _ (s7 _ (s6 _ (s1 _ h)))))

theorem csi_h_private_altS {a b : Int} {t : Terminal} (h : altSaved a b t) :
    altSaved a b (csi_h_private t) :=
  foldl_pred (altSaved a b) _ (fun u i hu => csiHPrivateOne_altS hu _) _ t h

/-- `csi_l_private` never writes the normal-screen saved cursor (leaving the
alternate screen reads it, it does not write it). -/
theorem csiLPrivateOne_nsaved {a b : Int} {t : Terminal}
    (h : t.normal_saved_cursor_x = a ∧ t.normal_saved_cursor_y = b) (p : Int) :
    (csiLPrivateOne t p).normal_saved_cursor_x = a ∧
      (csiLPrivateOne t p).normal_saved_cursor_y = b := by
  have s1 : ∀ u : Terminal,
      u.normal_saved_cursor_x = a ∧ u.normal_saved_cursor_y = b →
      (if p = 1 then { u with application_cursor_keys_mode := false } else u
        ).normal_saved_cursor_x = a ∧
      (if p = 1 then { u with application_cursor_keys_mode := false } else u
        ).normal_saved_cursor_y = b := by
    intro u hu
    split
    · exact ⟨hu.1, hu.2⟩
    · exact hu
  have s6 : ∀ u : Terminal,
      u.normal_saved_cursor_x = a ∧ u.normal_saved_cursor_y = b →
      (if p = 6 then { u with origin_mode := false, cursor_x := 0, cursor_y := 0 } else u
        ).normal_saved_cursor_x = a ∧
      (if p = 6 then { u with origin_mode := false, cursor_x := 0, cursor_y := 0 } else u
        ).normal_saved_cursor_y = b := by
    intro u hu
    split
    · exact ⟨hu.1, hu.2⟩
    · exact hu
  have s7 : ∀ u : Terminal,
      u.normal_saved_cursor_x = a ∧ u.normal_saved_cursor_y = b →
      (if p = 7 then { u with autowrap_mode := false } else u).normal_saved_cursor_x = a ∧
      (if p = 7 then { u with autowrap_mode := false } else u).normal_saved_cursor_y = b := by
    intro u hu
    split
    · exact ⟨hu.1, hu.2⟩
    · exact hu
  have s66 : ∀ u : Terminal,
      u.normal_saved_cursor_x = a ∧ u.normal_saved_cursor_y = b →
      (if p = 66 then { u with application_keypad_mode := false } else u
        ).normal_saved_cursor_x = a ∧
      (if p = 66 then { u with application_keypad_mode := false } else u
        ).normal_saved_cursor_y = b := by
    intro u hu
    split
    · exact ⟨hu.1, hu.2⟩
    · exact hu
  have s25 : ∀ u : Terminal,
      u.normal_saved_cursor_x = a ∧ u.normal_saved_cursor_y = b →
      (if p = 25 then { u with cursor_visible := false } else u).normal_saved_cursor_x = a ∧
      (if p = 25 then { u with cursor_visible := false } else u).normal_saved_cursor_y = b := by
    intro u hu
    split
    · exact ⟨hu.1, hu.2⟩
    · exact hu
  have s49 : ∀ u : Terminal,
      u.normal_saved_cursor_x = a ∧ u.normal_saved_cursor_y = b →
      (if p = 1049 then (if u.alt_screen_active then leave_alt_screen u else u) else u
        ).normal_saved_cursor_x = a ∧
      (if p = 1049 then (if u.alt_screen_active then leave_alt_screen u else u) else u
        ).normal_saved_cursor_y = b := by
    intro u hu
    split
    · split
      · exact ⟨hu.1, hu.2⟩
      · exact hu
    · exact hu
  exact s49 _ (s25 _ (s66 _ (s7 _ (s6 _ (s1 _ h)))))

theorem csi_l_private_nsaved {a b : Int} {t : Terminal}
    (h : t.normal_saved_cursor_x = a ∧ t.normal_saved_cursor_y = b) :
    (csi_l_private t).normal_saved_cursor_x = a ∧
      (csi_l_private t).normal_saved_cursor_y = b :=
  foldl_pred
    (fun u => u.normal_saved_cursor_x = a ∧ u.normal_saved_cursor_y = b) _
    (fun u i hu => csiLPrivateOne_nsaved hu _) _ t h

theorem csi_q_altS {a b : Int} {t : Terminal} (h : altSaved a b t) :
    altSaved a b (csi_q t) := by
  simp only [csi_q]
  repeat' split
  all_goals exact (altSaved_cast h rfl rfl rfl)



theorem csi_H_altS {a b : Int} {t : Terminal} (h : altSaved a b t) :
    altSaved a b (csi_H t) := by
  unfold csi_H
  split <;> exact altSaved_cast h rfl rfl rfl

theorem csi_r_altS {a b : Int} {t : Terminal} (h : altSaved a b t) :
    altSaved a b (csi_r t) := by
  unfold csi_r
  split
  · exact altSaved_cast h rfl rfl rfl
  · exact h

theorem csi_c_altS {a b : Int} {t : Terminal} (h : altSaved a b t) :
    altSaved a b (csi_c t) := by
  unfold csi_c
  split
  · exact altSaved_cast h rfl rfl rfl
  · exact h

theorem csi_n_altS {a b : Int} {t : Terminal} (h : altSaved a b t) :
    altSaved a b (csi_n t) := by
  unfold csi_n
  split
  · exact altSaved_cast h rfl rfl rfl
  · exact h

theorem csi_t_altS {a b : Int} {t : Terminal} (h : altSaved a b t) :
    altSaved a b (csi_t t) := by
  unfold csi_t
  split
  · exact altSaved_cast h rfl rfl rfl
  · exact h

theorem handle_csi_altS {a b : Int} {t : Terminal} (h : altSaved a b t) (c : Nat)
    (haltE : (handle_csi t c).alt_screen_active = true) :
    altSaved a b (handle_csi t c) := by
  have csiLPrivateOneTail := csi_l_private_nsaved ⟨h.nx, h.ny⟩
  rw [handle_csi] at haltE ⊢
  by_cases hb0 : c = 104 ∧ t.csi_private_marker = 63
  · rw [if_pos hb0] at haltE ⊢
    exact csi_h_private_altS h
  rw [if_neg hb0] at haltE ⊢
  by_cases hb1 : c = 108 ∧ t.csi_private_marker = 63
  · rw [if_pos hb1] at haltE ⊢
    have hns := csiLPrivateOneTail
    exact ⟨haltE, hns.1, hns.2⟩
  rw [if_neg hb1] at haltE ⊢
  by_cases hb2 : t.csi_private_marker ≠ 0
  · rw [if_pos hb2] at haltE ⊢
    exact h
  rw [if_neg hb2] at haltE ⊢
  by_cases hb3 : c = 65
  · rw [if_pos hb3] at haltE ⊢
    exact altSaved_cast h rfl rfl rfl
  rw [if_neg hb3] at haltE ⊢
  by_cases hb4 : c = 66
  · rw [if_pos hb4] at haltE ⊢
    exact altSaved_cast h rfl rfl rfl
  rw [if_neg hb4] at haltE ⊢
  by_cases hb5 : c = 67
  · rw [if_pos hb5] at haltE ⊢
    exact altSaved_cast h rfl rfl rfl
  rw [if_neg hb5] at haltE ⊢
  by_cases hb6 : c = 68
  · rw [if_pos hb6] at haltE ⊢
    exact altSaved_cast h rfl rfl rfl
  rw [if_neg hb6] at haltE ⊢
  by_cases hb7 : c = 71
  · rw [if_pos hb7] at haltE ⊢
    exact altSaved_cast h rfl rfl rfl
  rw [if_neg hb7] at haltE ⊢
  by_cases hb8 : c = 100
  · rw [if_pos hb8] at haltE ⊢
    exact altSaved_cast h rfl rfl rfl
  rw [if_neg hb8] at haltE ⊢
  by_cases hb9 : c = 72 ∨ c = 102
  · rw [if_pos hb9] at haltE ⊢
    exact csi_H_altS h
  rw [if_neg hb9] at haltE ⊢
  by_cases hb10 : c = 74
  · rw [if_pos hb10] at haltE ⊢
    exact invFields_altSaved (csi_J_invFields t) h
  rw [if_neg hb10] at haltE ⊢
  by_cases hb11 : c = 75
  · rw [if_pos hb11] at haltE ⊢
    exact invFields_altSaved (csi_K_invFields t) h
  rw [if_neg hb11] at haltE ⊢
  by_cases hb12 : c = 99
  · rw [if_pos hb12] at haltE ⊢
    exact csi_c_altS h
  rw [if_neg hb12] at haltE ⊢
  by_cases hb13 : c = 110
  · rw [if_pos hb13] at haltE ⊢
    exact csi_n_altS h
  rw [if_neg hb13] at haltE ⊢
  by_cases hb14 : c = 109
  · rw [if_pos hb14] at haltE ⊢
    exact invFields_altSaved (csi_m_invFields t) h
  rw [if_neg hb14] at haltE ⊢
  by_cases hb15 : c = 104
  · rw [if_pos hb15] at haltE ⊢
    exact invFields_altSaved (csi_h_invFields t) h
  rw [if_neg hb15] at haltE ⊢
  by_cases hb16 : c = 108
  · rw [if_pos hb16] at haltE ⊢
    exact invFields_altSaved (csi_l_invFields t) h
  rw [if_neg hb16] at haltE ⊢
  by_cases hb17 : c = 113
  · rw [if_pos hb17] at haltE ⊢
    exact csi_q_altS h
  rw [if_neg hb17] at haltE ⊢
  by_cases hb18 : c = 115
  · rw [if_pos hb18] at haltE ⊢
    exact altSaved_cast h rfl rfl rfl
  rw [if_neg hb18] at haltE ⊢
  by_cases hb19 : c = 117
  · rw [if_pos hb19] at haltE ⊢
    exact altSaved_cast h rfl rfl rfl
  rw [if_neg hb19] at haltE ⊢
  by_cases hb20 : c = 114
  · rw [if_pos hb20] at haltE ⊢
    exact csi_r_altS h
  rw [if_neg hb20] at haltE ⊢
  by_cases hb21 : c = 64
  · rw [if_pos hb21] at haltE ⊢
    exact invFields_altSaved (csi_at_invFields t) h
  rw [if_neg hb21] at haltE ⊢
  by_cases hb22 : c = 76
  · rw [if_pos hb22] at haltE ⊢
    exact invFields_altSaved (csi_L_invFields t) h
  rw [if_neg hb22] at haltE ⊢
  by_cases hb23 : c = 77
  · rw [if_pos hb23] at haltE ⊢
    exact invFields_altSaved (csi_M_invFields t) h
  rw [if_neg hb23] at haltE ⊢
  by_cases hb24 : c = 80
  · rw [if_pos hb24] at haltE ⊢
    exact invFields_altSaved (csi_P_invFields t) h
  rw [if_neg hb24] at haltE ⊢
  by_cases hb25 : c = 83
  · rw [if_pos hb25] at haltE ⊢
    exact invFields_altSaved (csi_S_invFields t) h
  rw [if_neg hb25] at haltE ⊢
  by_cases hb26 : c = 84 ∨ c = 94
  · rw [if_pos hb26] at haltE ⊢
    exact invFields_altSaved (csi_T_invFields t) h
  rw [if_neg hb26] at haltE ⊢
  by_cases hb27 : c = 88
  · rw [if_pos hb27] at haltE ⊢
    exact invFields_altSaved (csi_X_invFields t) h
  rw [if_neg hb27] at haltE ⊢
  by_cases hb28 : c = 116
  · rw [if_pos hb28] at haltE ⊢
    exact csi_t_altS h
  rw [if_neg hb28] at haltE ⊢
  exact h

theorem csiByte_altS {a b : Int} {t : Terminal} (h : altSaved a b t) (c : Nat)
    (haltE : (csiByte t c).alt_screen_active = true) : altSaved a b (csiByte t c) := by
  rw [csiByte] at haltE ⊢
  by_cases hc0 : c = 27
  · rw [if_pos hc0] at haltE ⊢
    exact altSaved_cast h rfl rfl rfl
  rw [if_neg hc0] at haltE ⊢
  by_cases hc1 : 48 ≤ c ∧ c ≤ 57
  · rw [if_pos hc1] at haltE ⊢
    refine csiCollectDigit_altS ?_ c
    exact altSaved_cast h rfl rfl rfl
  rw [if_neg hc1] at haltE ⊢
  by_cases hc2 : c = 59
  · rw [if_pos hc2] at haltE ⊢
    refine csiCollectSemicolon_altS ?_
    exact altSaved_cast h rfl rfl rfl
  rw [if_neg hc2] at haltE ⊢
  by_cases hc3 : 60 ≤ c ∧ c ≤ 63
  · rw [if_pos hc3] at haltE ⊢
    exact altSaved_cast h rfl rfl rfl
  rw [if_neg hc3] at haltE ⊢
  by_cases hc4 : 32 ≤ c ∧ c ≤ 47
  · rw [if_pos hc4] at haltE ⊢
    split
    · exact altSaved_cast h rfl rfl rfl
    · exact altSaved_cast h rfl rfl rfl
  rw [if_neg hc4] at haltE ⊢
  by_cases hc5 : 64 ≤ c ∧ c ≤ 126
  · rw [if_pos hc5] at haltE ⊢
    by_cases hc6 : t.csi_param_count = 0
    · rw [if_pos hc6] at haltE ⊢
      have hu : altSaved a b { t with utf8_bytes_to_read := 0, csi_param_count := 1 } :=
        altSaved_cast h rfl rfl rfl
      have h2 := handle_csi_altS hu c haltE
      exact altSaved_cast h2 rfl rfl rfl
    · rw [if_neg hc6] at haltE ⊢
      have hu : altSaved a b { t with utf8_bytes_to_read := 0 } :=
        altSaved_cast h rfl rfl rfl
      have h2 := handle_csi_altS hu c haltE
      exact altSaved_cast h2 rfl rfl rfl
  rw [if_neg hc5] at haltE ⊢
  refine normalByteNoPending_altS ?_ c
  exact altSaved_cast h rfl rfl rfl

/-- Entering the alternate screen activates it and saves the cursor into the
normal-screen slot. -/
theorem enter_alt_screen_saves (t : Terminal) :
    altSaved t.cursor_x t.cursor_y (enter_alt_screen t) := by
  obtain ⟨e1, e2, e3, e4, e5, e6, e7, e8, e9, e10, e11, e12, e13, e14, e15, e16, e17, e18,
    e19⟩ := terminal_clear_visible_screen_invFields (activateAlt (ensureAltGrid t))
  have hex : (ensureAltGrid t).cursor_x = t.cursor_x := by
    unfold ensureAltGrid
    split <;> rfl
  have hey : (ensureAltGrid t).cursor_y = t.cursor_y := by
    unfold ensureAltGrid
    split <;> rfl
  refine ⟨?_, ?_, ?_⟩
  · show (terminal_clear_visible_screen
      (activateAlt (ensureAltGrid t))).alt_screen_active = true
    rw [e14]
    rfl
  · show (terminal_clear_visible_screen
      (activateAlt (ensureAltGrid t))).normal_saved_cursor_x = t.cursor_x
    rw [e8]
    exact hex
  · show (terminal_clear_visible_screen
      (activateAlt (ensureAltGrid t))).normal_saved_cursor_y = t.cursor_y
    rw [e9]
    exact hey



/-- While every prefix of the processing keeps the alternate screen active,
the normal-screen saved cursor never changes. -/
theorem thi_altSaved (a b : Int) : ∀ (t : Terminal) (s : List Nat),
    (∀ n, (terminal_handle_input t (s.take n)).alt_screen_active = true) →
    altSaved a b t → altSaved a b (terminal_handle_input t s) := by
  intro t s
  induction t, s using terminal_handle_input.induct with
  | case1 t =>
    intro _ h
    exact h
  | case2 t c rest hps ih =>
    intro hpres h
    have hstep : ∀ l, terminal_handle_input t (c :: l) =
        terminal_handle_input (normalCase t c) l := by
      intro l
      rw [terminal_handle_input]
      nth_rewrite 1 [hps]
      rfl
    rw [hstep rest]
    refine ih (fun n => ?_) (normalCase_altS h c)
    have h1 := hpres (n + 1)
    rw [List.take_succ_cons, hstep (rest.take n)] at h1
    exact h1
  | case3 t c hps t1 hor ih =>
    intro hpres h
    have hstep : terminal_handle_input t [c] =
        { t with utf8_bytes_to_read := 0, parse_state := ParseState.normal } := by
      rw [terminal_handle_input]
      nth_rewrite 1 [hps]
      show (if c = 40 ∨ c = 41 then _ else _) = _
      rw [if_pos hor]
      rfl
    rw [hstep]
    exact altSaved_cast h rfl rfl rfl
  | case4 t c hps t1 hor c2 rest' ih =>
    intro hpres h
    have hstep : ∀ l, terminal_handle_input t (c :: c2 :: l) =
        terminal_handle_input
          { (designateCharset { t with utf8_bytes_to_read := 0 } c c2) with
            parse_state := ParseState.normal } l := by
      intro l
      rw [terminal_handle_input]
      nth_rewrite 1 [hps]
      show (if c = 40 ∨ c = 41 then _ else _) = _
      rw [if_pos hor]
    rw [hstep rest']
    have hu : altSaved a b { t with utf8_bytes_to_read := 0 } := altSaved_cast h rfl rfl rfl
    have hd := designateCharset_altS hu c c2
    refine ih (fun n => ?_) (altSaved_cast hd rfl rfl rfl)
    have h1 := hpres (n + 2)
    rw [List.take_succ_cons, List.take_succ_cons, hstep (rest'.take n)] at h1
    exact h1
  | case5 t hps t1 hneg ih =>
    intro hpres h
    have hstep : terminal_handle_input t [35] =
        { t with utf8_bytes_to_read := 0, parse_state := ParseState.normal } := by
      rw [terminal_handle_input]
      nth_rewrite 1 [hps]
      rfl
    rw [hstep]
    exact altSaved_cast h rfl rfl rfl
  | case6 t hps t1 rest' hneg ih =>
    intro hpres h
    have hstep : ∀ l, terminal_handle_input t (35 :: 56 :: l) =
        terminal_handle_input
          { (screenAlignFill { t with utf8_bytes_to_read := 0 }) with
            parse_state := ParseState.normal } l := by
      intro l
      rw [terminal_handle_input]
      nth_rewrite 1 [hps]
      rfl
    rw [hstep rest']
    have hu : altSaved a b { t with utf8_bytes_to_read := 0 } := altSaved_cast h rfl rfl rfl
    have hd := screenAlignFill_altS hu
    refine ih (fun n => ?_) (altSaved_cast hd rfl rfl rfl)
    have h1 := hpres (n + 2)
    rw [List.take_succ_cons, List.take_succ_cons, hstep (rest'.take n)] at h1
    exact h1
  | case7 t hps t1 c2 rest' hn56 hneg ih =>
    intro hpres h
    have hstep : ∀ l, terminal_handle_input t (35 :: c2 :: l) =
        terminal_handle_input
          { t with utf8_bytes_to_read := 0, parse_state := ParseState.normal } (c2 :: l) := by
      intro l
      rw [terminal_handle_input]
      nth_rewrite 1 [hps]
      show (if c2 = 56 then _ else _) = _
      rw [if_neg hn56]
    rw [hstep rest']
    refine ih (fun n => ?_) (altSaved_cast h rfl rfl rfl)
    cases n with
    | zero =>
      exact h.alt
    | succ m =>
      have h1 := hpres (m + 2)
      rw [List.take_succ_cons, List.take_succ_cons] at h1
      rw [hstep (rest'.take m)] at h1
      rw [List.take_succ_cons]
      exact h1
  | case8 t c rest hps t1 hn1 hn2 ih =>
    intro hpres h
    have hstep : ∀ l, terminal_handle_input t (c :: l) =
        terminal_handle_input (escapeSimple { t with utf8_bytes_to_read := 0 } c) l := by
      intro l
      rw [terminal_handle_input]
      nth_rewrite 1 [hps]
      show (if c = 40 ∨ c = 41 then _ else _) = _
      rw [if_neg hn1]
      show (if c = 35 then _ else _) = _
      rw [if_neg hn2]
    rw [hstep rest]
    have hu : altSaved a b { t with utf8_bytes_to_read := 0 } := altSaved_cast h rfl rfl rfl
    refine ih (fun n => ?_) (escapeSimple_altS hu c)
    have h1 := hpres (n + 1)
    rw [List.take_succ_cons, hstep (rest.take n)] at h1
    exact h1
  | case9 t c rest hps ih =>
    intro hpres h
    have hstep : ∀ l, terminal_handle_input t (c :: l) =
        terminal_handle_input (oscByte t c) l := by
      intro l
      rw [terminal_handle_input]
      nth_rewrite 1 [hps]
      rfl
    rw [hstep rest]
    refine ih (fun n => ?_) (oscByte_altS h c)
    have h1 := hpres (n + 1)
    rw [List.take_succ_cons, hstep (rest.take n)] at h1
    exact h1
  | case10 t c rest hps ih =>
    intro hpres h
    have hstep : ∀ l, terminal_handle_input t (c :: l) =
        terminal_handle_input (dcsByte t c) l := by
      intro l
      rw [terminal_handle_input]
      nth_rewrite 1 [hps]
      rfl
    rw [hstep rest]
    refine ih (fun n => ?_) (dcsByte_altS h c)
    have h1 := hpres (n + 1)
    rw [List.take_succ_cons, hstep (rest.take n)] at h1
    exact h1
  | case11 t c rest hps ih =>
    intro hpres h
    have hstep : ∀ l, terminal_handle_input t (c :: l) =
        terminal_handle_input (csiByte t c) l := by
      intro l
      rw [terminal_handle_input]
      nth_rewrite 1 [hps]
      rfl
    have haltE : (csiByte t c).alt_screen_active = true := by
      have h1 := hpres 1
      rw [show ((c : Nat) :: rest).take 1 = [c] from rfl, hstep []] at h1
      exact h1
    rw [hstep rest]
    refine ih (fun n => ?_) (csiByte_altS h c haltE)
    have h1 := hpres (n + 1)
    rw [List.take_succ_cons, hstep (rest.take n)] at h1
    exact h1

/-- **C5** (amended): entering the alternate screen saves the cursor, and as
long as every step of the subsequent processing stays on the alternate
screen, leaving restores the cursor position exactly.  The text attributes
are *not* restored (see the counterexample). -/
theorem C5_alt_cursor_round_trip (t : Terminal) (s : List Nat)
    (hpres : ∀ n, (terminal_handle_input (enter_alt_screen t)
      (s.take n)).alt_screen_active = true) :
    (leave_alt_screen (terminal_handle_input (enter_alt_screen t) s)).cursor_x =
      t.cursor_x ∧
    (leave_alt_screen (terminal_handle_input (enter_alt_screen t) s)).cursor_y =
      t.cursor_y := by
  have h := thi_altSaved t.cursor_x t.cursor_y (enter_alt_screen t) s hpres
    (enter_alt_screen_saves t)
  exact ⟨h.nx, h.ny⟩

/-- The C5 scenario: enter the alternate screen, set SGR colour 31 on it,
leave it again. -/
def c5End : Terminal :=
  terminal_handle_input { (freshTerminal 4 2 0) with view_offset := 0 }
    ([27, 91, 63, 49, 48, 52, 57, 104] ++ [27, 91, 51, 49, 109] ++
      [27, 91, 63, 49, 48, 52, 57, 108])

/-- **C5** counterexample: the 1049 round trip restores the cursor but *not*
the current text attributes — after `CSI 31 m` on the alternate screen the
foreground colour stays `colors[1]` once the normal screen is back. -/
theorem C5_counterexample :
    c5End.cursor_x = (freshTerminal 4 2 0).cursor_x ∧
    c5End.cursor_y = (freshTerminal 4 2 0).cursor_y ∧
    c5End.current_fg ≠ (freshTerminal 4 2 0).current_fg := by
  decide

/-- A base state with the cursor away from the origin. -/
def c5wBase : Terminal :=
  terminal_handle_input { (freshTerminal 5 3 0) with view_offset := 0 } [97, 98]

/-- Witness for C5: the cursor round trip for the byte `x` processed on the
alternate screen. -/
theorem C5_alt_cursor_round_trip_witness :
    (leave_alt_screen (terminal_handle_input (enter_alt_screen c5wBase) [120])).cursor_x =
      c5wBase.cursor_x ∧
    (leave_alt_screen (terminal_handle_input (enter_alt_screen c5wBase) [120])).cursor_y =
      c5wBase.cursor_y :=
  C5_alt_cursor_round_trip c5wBase [120] (fun n =>
    match n with
    | 0 => by decide
    | m + 1 => by
      rw [List.take_of_length_le (by simp)]
      decide)


end VaixTerm
